import Mathlib

/-!
Verification of the configuration set apply processor
(`src/Microsoft.Management.Configuration/ConfigurationSetApplyProcessor.cpp`).

The engine is embedded shallowly: the per-unit mutable records become an
explicit `EngineState` threaded through pure functions, one per C++ member
function017 (`AddUnitToMap`, `PreProcess`, `ProcessIntentInternal`,
`ProcessInternal`, `ProcessUnit`, `Process`, ...).  External collaborators
(the set processor and unit processors) are modelled as per-unit behaviour
records, as the tests' in-memory doubles do.  Cancellation is modelled as
never signalled, and progress emission as always succeeding, so no
exception escapes; these are the non-exceptional executions the claims
quantify over.

Ghost instrumentation (fields marked `ghost`) records facts the claims
talk about that are not otherwise observable in the final state: the list
of result-code writes, whether `ApplySettings` was invoked for a unit,
whether a unit processor was created, and whether the `default` branch of
the intent switch in `ProcessUnit` was taken.  Ghost fields are written
exactly where the corresponding C++ statement executes and are read by no
engine code.
-/

/-- An HRESULT, modelled as an integer.  `SUCCEEDED(hr)` is `0 ≤ hr`. -/
abbrev HResult := Int

def SUCCEEDED (hr : HResult) : Bool := 0 ≤ hr

def FAILED (hr : HResult) : Bool := hr < 0

/-! Error codes.  Modelled from the spec: the `WINGET_CONFIG_ERROR_...`
constants come from `AppInstallerErrors.h`, which is not part of the
sources under verification; the engine relies only on these being
pairwise-distinct failing (negative) HRESULTs, which the model values are.
`E_UNEXPECTED` and `E_FAIL` carry their actual Windows values. -/

def WINGET_CONFIG_ERROR_DUPLICATE_IDENTIFIER : HResult := -1975410681

def WINGET_CONFIG_ERROR_MISSING_DEPENDENCY : HResult := -1975410682

def WINGET_CONFIG_ERROR_SET_DEPENDENCY_CYCLE : HResult := -1975410683

def WINGET_CONFIG_ERROR_ASSERTION_FAILED : HResult := -1975410684

def WINGET_CONFIG_ERROR_DEPENDENCY_UNSATISFIED : HResult := -1975410685

def WINGET_CONFIG_ERROR_SET_APPLY_FAILED : HResult := -1975410686

def WINGET_CONFIG_ERROR_MANUALLY_SKIPPED : HResult := -1975410687

def E_UNEXPECTED : HResult := -2147418113

def E_FAIL : HResult := -2147467259

/-- Intent of a configuration unit.  The WinRT enumeration declares
`Assert`, `Inform` and `Apply`; `unknownValue` models an out-of-range
integer stored in the enum, which the `default` branch of the intent
switch in `ProcessUnit` defends against. -/
inductive ConfigurationUnitIntent
  | assert
  | inform
  | apply
  | unknownValue
deriving DecidableEq, Repr

/-- Result of `TestSettings`.  `otherValue` models any enumerator other
than the three the engine distinguishes. -/
inductive ConfigurationTestResult
  | positive
  | negative
  | failed
  | otherValue
deriving DecidableEq, Repr

inductive ConfigurationUnitState
  | unknown
  | pending
  | inProgress
  | completed
  | skipped
deriving DecidableEq, Repr

inductive ConfigurationSetState
  | unknown
  | pending
  | inProgress
  | completed
deriving DecidableEq, Repr

inductive ConfigurationUnitResultSource
  | none
  | internal
  | configurationSet
  | precondition
  | systemState
  | unitProcessing
deriving DecidableEq, Repr

/-- `(hresult code, source tag, detail string)` record attached to each
unit (`ConfigurationUnitResultInformation`). -/
structure ResultInformation where
  resultCode : HResult := 0
  resultSource : ConfigurationUnitResultSource := .none
  details : String := ""
deriving DecidableEq, Repr

structure TestSettingsResult where
  testResult : ConfigurationTestResult := .positive
  resultInformation : ResultInformation := {}
deriving DecidableEq, Repr

structure GetSettingsResult where
  resultInformation : ResultInformation := {}
deriving DecidableEq, Repr

structure ApplySettingsResult where
  resultInformation : ResultInformation := {}
  rebootRequired : Bool := false
deriving DecidableEq, Repr

/-- Behaviour of the external unit processor for one unit (the in-memory
double the tests supply).  `createResult = some info` means
`CreateUnitProcessor` throws and the exception classifies to `info`;
`none` means creation succeeds. -/
structure UnitProcessorBehavior where
  createResult : Option ResultInformation := Option.none
  testSettings : TestSettingsResult := {}
  getSettings : GetSettingsResult := {}
  applySettings : ApplySettingsResult := {}
deriving DecidableEq, Repr

/-- The attributes of a configuration unit that the engine reads, plus
the behaviour of its external processor. -/
structure ConfigurationUnit where
  identifier : String := ""
  intent : ConfigurationUnitIntent := .apply
  dependencies : List String := []
  shouldApply : Bool := true
  processor : UnitProcessorBehavior := {}
deriving DecidableEq, Repr

/-- Per-unit mutable record (`ConfigurationSetApplyProcessor::UnitInfo`
together with the fields of its `ApplyConfigurationUnitResult`). -/
structure UnitInfo where
  unit : ConfigurationUnit := {}
  state : ConfigurationUnitState := .unknown
  resultInformation : ResultInformation := {}
  previouslyInDesiredState : Bool := false
  rebootRequired : Bool := false
  dependencyIndices : List Nat := []
  preProcessed : Bool := false
  processed : Bool := false
  applySettingsCalled : Bool := false       -- ghost: `ApplySettings` invoked
  processorCreated : Bool := false          -- ghost: unit processor created
deriving DecidableEq, Repr

instance : Inhabited UnitInfo := ⟨{}⟩

/-- One emitted progress event. -/
inductive ProgressEvent
  | set (state : ConfigurationSetState)
  | unitProgress (index : Nat) (state : ConfigurationUnitState)
deriving DecidableEq, Repr

/-- The engine state: the unit-info table, the identifier index, the set
result code, the emitted events, and ghost instrumentation. -/
structure EngineState where
  unitInfos : List UnitInfo := []
  idToUnitInfoIndex : List (String × Nat) := []
  resultCode : HResult := 0
  events : List ProgressEvent := []
  writes : List (Nat × HResult) := []       -- ghost: result-code writes, in order
  defaultIntentBranch : Bool := false       -- ghost: default branch of intent switch
deriving DecidableEq, Repr

def getUnitInfo (st : EngineState) (i : Nat) : UnitInfo :=
  st.unitInfos.getD i default

def updateUnitInfo (st : EngineState) (i : Nat) (f : UnitInfo → UnitInfo) : EngineState :=
  { st with unitInfos := st.unitInfos.set i (f (getUnitInfo st i)) }

/-- `ConfigurationUnitResultInformation::Initialize(hr, source)`: sets the
code and the source tag.  Also appends to the ghost write trace. -/
def setUnitResultCode (st : EngineState) (i : Nat) (hr : HResult)
    (src : ConfigurationUnitResultSource) : EngineState :=
  let st := updateUnitInfo st i (fun u =>
    { u with resultInformation :=
        { u.resultInformation with resultCode := hr, resultSource := src } })
  { st with writes := st.writes ++ [(i, hr)] }

/-- `Initialize(resultInformation)` overload: adopts the whole record
verbatim.  Also appends to the ghost write trace. -/
def adoptUnitResultInfo (st : EngineState) (i : Nat) (info : ResultInformation) :
    EngineState :=
  let st := updateUnitInfo st i (fun u => { u with resultInformation := info })
  { st with writes := st.writes ++ [(i, info.resultCode)] }

/-- `ResultInformation->Details(...)`. -/
def setUnitDetails (st : EngineState) (i : Nat) (d : String) : EngineState :=
  updateUnitInfo st i (fun u =>
    { u with resultInformation := { u.resultInformation with details := d } })

/-- `SendProgress(ConfigurationUnitState, UnitInfo)`: records the state on
the unit result and emits a unit-level event. -/
def sendUnitProgress (st : EngineState) (s : ConfigurationUnitState) (i : Nat) :
    EngineState :=
  let st := updateUnitInfo st i (fun u => { u with state := s })
  { st with events := st.events ++ [.unitProgress i s] }

/-- `SendProgressIfNotComplete`. -/
def sendUnitProgressIfNotComplete (st : EngineState) (s : ConfigurationUnitState)
    (i : Nat) : EngineState :=
  if (getUnitInfo st i).state ≠ .completed then sendUnitProgress st s i else st

/-- `SendProgress(ConfigurationSetState)`. -/
def sendSetProgress (st : EngineState) (s : ConfigurationSetState) : EngineState :=
  { st with events := st.events ++ [.set s] }

/-- Modelled from the spec: `GetNormalizedIdentifier` case-folds the
identifier for equality comparison (`FoldCase(NormalizedString{...})` from
`AppInstallerStrings.h`, which is not among the sources); empty input
yields empty output.  Written as a direct map over the character list so
that it evaluates by kernel reduction. -/
def GetNormalizedIdentifier (s : String) : String :=
  String.mk (s.data.map Char.toLower)

/-- `ConfigurationSetApplyProcessor::AddUnitToMap`. -/
def AddUnitToMap (st : EngineState) (unitInfoIndex : Nat) : EngineState × Bool :=
  let originalIdentifier := (getUnitInfo st unitInfoIndex).unit.identifier
  if originalIdentifier = "" then (st, true)
  else
    let identifier := GetNormalizedIdentifier originalIdentifier
    match st.idToUnitInfoIndex.lookup identifier with
    | some incumbent =>
        let st := setUnitResultCode st incumbent
          WINGET_CONFIG_ERROR_DUPLICATE_IDENTIFIER .configurationSet
        let st := sendUnitProgressIfNotComplete st .completed incumbent
        let st := setUnitResultCode st unitInfoIndex
          WINGET_CONFIG_ERROR_DUPLICATE_IDENTIFIER .configurationSet
        let st := sendUnitProgress st .completed unitInfoIndex
        (st, false)
    | Option.none =>
        ({ st with idToUnitInfoIndex :=
            st.idToUnitInfoIndex ++ [(identifier, unitInfoIndex)] }, true)

/-- First loop of `PreProcess`: add every unit to the identifier map,
remembering whether all additions succeeded. -/
def addAllUnits (st : EngineState) : EngineState × Bool :=
  (List.range st.unitInfos.length).foldl
    (fun acc i =>
      let r := AddUnitToMap acc.1 i
      (r.1, acc.2 && r.2))
    (st, true)

def appendDependencyIndex (st : EngineState) (i j : Nat) : EngineState :=
  updateUnitInfo st i (fun u => { u with dependencyIndices := u.dependencyIndices ++ [j] })

/-- Inner dependency loop of `PreProcess` for unit `i`: empty dependency
strings are thrown out; the first unresolved dependency marks the unit
`MissingDependency` with the original string as detail, emits `Completed`,
and breaks out of the loop. -/
def resolveDepsLoop (i : Nat) : List String → EngineState → EngineState × Bool
  | [], st => (st, true)
  | dependencyString :: rest, st =>
      if dependencyString = "" then resolveDepsLoop i rest st
      else
        let dependency := GetNormalizedIdentifier dependencyString
        match st.idToUnitInfoIndex.lookup dependency with
        | Option.none =>
            let st := setUnitResultCode st i
              WINGET_CONFIG_ERROR_MISSING_DEPENDENCY .configurationSet
            let st := setUnitDetails st i dependencyString
            let st := sendUnitProgress st .completed i
            (st, false)
        | some j => resolveDepsLoop i rest (appendDependencyIndex st i j)

def resolveDependenciesFor (st : EngineState) (i : Nat) : EngineState × Bool :=
  resolveDepsLoop i (getUnitInfo st i).unit.dependencies st

/-- Second loop of `PreProcess`: resolve every unit's dependencies. -/
def resolveAll (st : EngineState) : EngineState × Bool :=
  (List.range st.unitInfos.length).foldl
    (fun acc i =>
      let r := resolveDependenciesFor acc.1 i
      (r.1, acc.2 && r.2))
    (st, true)

/-- `ConfigurationSetApplyProcessor::HasIntentAndSatisfiedDependencies`. -/
def HasIntentAndSatisfiedDependencies (st : EngineState) (i : Nat)
    (intent : ConfigurationUnitIntent) (checkDependency : UnitInfo → Bool) : Bool :=
  let u := getUnitInfo st i
  u.unit.intent == intent &&
    u.dependencyIndices.all (fun d => checkDependency (getUnitInfo st d))

/-- The scan of the candidate list in `ProcessIntentInternal`: find the
first ready unit and remove it, preserving the order of the rest. -/
def extractFirstReady (st : EngineState) (intent : ConfigurationUnitIntent)
    (checkDependency : UnitInfo → Bool) : List Nat → Option (Nat × List Nat)
  | [] => Option.none
  | c :: rest =>
      if HasIntentAndSatisfiedDependencies st c intent checkDependency then
        some (c, rest)
      else
        match extractFirstReady st intent checkDependency rest with
        | some (r, rest') => some (r, c :: rest')
        | Option.none => Option.none

/-- The `while (hasProcessed)` loop of `ProcessIntentInternal`.  Each
iteration that processes a unit removes it from the candidate list, so the
loop runs at most `cands.length` times; calling with that much fuel is
exact. -/
def schedulerLoop (processUnitFn : EngineState → Nat → EngineState × Bool)
    (checkDependency : UnitInfo → Bool) (intent : ConfigurationUnitIntent) :
    Nat → EngineState → List Nat → Bool → EngineState × List Nat × Bool
  | 0, st, cands, hasFailure => (st, cands, hasFailure)
  | fuel + 1, st, cands, hasFailure =>
      match extractFirstReady st intent checkDependency cands with
      | Option.none => (st, cands, hasFailure)
      | some (c, rest) =>
          let r := processUnitFn st c
          schedulerLoop processUnitFn checkDependency intent fuel r.1 rest
            (hasFailure || !r.2)

/-- One step of the first post-loop marking pass. -/
def markWithIntentStep (intent : ConfigurationUnitIntent) (sendProgress : Bool)
    (acc : EngineState × Bool) (index : Nat) : EngineState × Bool :=
  if (getUnitInfo acc.1 index).unit.intent == intent then
    let st := setUnitResultCode acc.1 index
      WINGET_CONFIG_ERROR_DEPENDENCY_UNSATISFIED .precondition
    let st := if sendProgress then sendUnitProgress st .skipped index else st
    (st, true)
  else acc

/-- Post-loop marking, first half: every remaining candidate with the
current intent is marked `DependencyUnsatisfied` (source `Precondition`)
and, if progress is on, `Skipped`; the returned flag is
`hasRemainingDependencies`. -/
def markRemainingWithIntent (intent : ConfigurationUnitIntent) (sendProgress : Bool)
    (st : EngineState) (cands : List Nat) : EngineState × Bool :=
  cands.foldl (markWithIntentStep intent sendProgress) (st, false)

/-- One step of the second post-loop marking pass. -/
def markOtherIntentsStep (intent : ConfigurationUnitIntent)
    (errorForOtherIntents : HResult) (sendProgress : Bool)
    (st : EngineState) (index : Nat) : EngineState :=
  if (getUnitInfo st index).unit.intent == intent then st
  else
    let st := setUnitResultCode st index errorForOtherIntents .precondition
    if sendProgress then sendUnitProgress st .skipped index else st

/-- Post-loop marking, second half: on failure every remaining candidate
with a different intent is marked with `errorForOtherIntents`. -/
def markRemainingOtherIntents (intent : ConfigurationUnitIntent)
    (errorForOtherIntents : HResult) (sendProgress : Bool)
    (st : EngineState) (cands : List Nat) : EngineState :=
  cands.foldl (markOtherIntentsStep intent errorForOtherIntents sendProgress) st

/-- `ConfigurationSetApplyProcessor::ProcessIntentInternal`. -/
def ProcessIntentInternal (processUnitFn : EngineState → Nat → EngineState × Bool)
    (checkDependency : UnitInfo → Bool) (intent : ConfigurationUnitIntent)
    (errorForOtherIntents errorForFailures : HResult) (sendProgress : Bool)
    (st : EngineState) (unitsToProcess : List Nat) :
    EngineState × List Nat × Bool :=
  let r := schedulerLoop processUnitFn checkDependency intent
    unitsToProcess.length st unitsToProcess false
  let st := r.1
  let cands := r.2.1
  let hasFailure := r.2.2
  let m := markRemainingWithIntent intent sendProgress st cands
  let st := m.1
  let hasRemainingDependencies := m.2
  if hasFailure || hasRemainingDependencies then
    let st := markRemainingOtherIntents intent errorForOtherIntents sendProgress st cands
    let st :=
      if hasFailure then { st with resultCode := errorForFailures }
      else { st with resultCode := WINGET_CONFIG_ERROR_DEPENDENCY_UNSATISFIED }
    (st, cands, false)
  else (st, cands, true)

/-- `ConfigurationSetApplyProcessor::ProcessInternal`: Assert, then
Inform, then Apply, stopping at the first failing phase. -/
def ProcessInternal (checkDependency : UnitInfo → Bool)
    (processUnitFn : EngineState → Nat → EngineState × Bool)
    (sendProgress : Bool) (st : EngineState) : EngineState × Bool :=
  let unitsToProcess := List.range st.unitInfos.length
  let r1 := ProcessIntentInternal processUnitFn checkDependency .assert
    WINGET_CONFIG_ERROR_ASSERTION_FAILED WINGET_CONFIG_ERROR_ASSERTION_FAILED
    sendProgress st unitsToProcess
  if !r1.2.2 then (r1.1, false)
  else
    let r2 := ProcessIntentInternal processUnitFn checkDependency .inform
      WINGET_CONFIG_ERROR_DEPENDENCY_UNSATISFIED
      WINGET_CONFIG_ERROR_DEPENDENCY_UNSATISFIED sendProgress r1.1 r1.2.1
    if !r2.2.2 then (r2.1, false)
    else
      let r3 := ProcessIntentInternal processUnitFn checkDependency .apply
        E_FAIL WINGET_CONFIG_ERROR_SET_APPLY_FAILED sendProgress r2.1 r2.2.1
      (r3.1, r3.2.2)

def HasPreprocessed (u : UnitInfo) : Bool := u.preProcessed

def markUnitPreprocessed (st : EngineState) (i : Nat) : EngineState :=
  updateUnitInfo st i (fun u => { u with preProcessed := true })

def MarkPreprocessed (st : EngineState) (i : Nat) : EngineState × Bool :=
  (markUnitPreprocessed st i, true)

def HasProcessedSuccessfully (u : UnitInfo) : Bool :=
  u.processed && SUCCEEDED u.resultInformation.resultCode

/-- `ConfigurationSetApplyProcessor::PreProcess`. -/
def PreProcess (st : EngineState) : EngineState × Bool :=
  let a := addAllUnits st
  if !a.2 then
    ({ a.1 with resultCode := WINGET_CONFIG_ERROR_DUPLICATE_IDENTIFIER }, false)
  else
    let r := resolveAll a.1
    if !r.2 then
      ({ r.1 with resultCode := WINGET_CONFIG_ERROR_MISSING_DEPENDENCY }, false)
    else
      let p := ProcessInternal HasPreprocessed MarkPreprocessed false r.1
      if !p.2 then
        ({ p.1 with resultCode := WINGET_CONFIG_ERROR_SET_DEPENDENCY_CYCLE }, false)
      else (p.1, true)

/-- `unitInfo.Processed = true`. -/
def markProcessed (st : EngineState) (i : Nat) : EngineState :=
  updateUnitInfo st i (fun u => { u with processed := true })

/-- Ghost: a unit processor was created for unit `i`. -/
def markProcessorCreated (st : EngineState) (i : Nat) : EngineState :=
  updateUnitInfo st i (fun u => { u with processorCreated := true })

/-- `unitInfo.Result->PreviouslyInDesiredState(true)`. -/
def setPreviouslyInDesiredState (st : EngineState) (i : Nat) : EngineState :=
  updateUnitInfo st i (fun u => { u with previouslyInDesiredState := true })

/-- `unitInfo.Result->RebootRequired(...)`. -/
def setRebootRequired (st : EngineState) (i : Nat) (b : Bool) : EngineState :=
  updateUnitInfo st i (fun u => { u with rebootRequired := b })

/-- Ghost: `ApplySettings` was invoked for unit `i`. -/
def markApplySettingsCalled (st : EngineState) (i : Nat) : EngineState :=
  updateUnitInfo st i (fun u => { u with applySettingsCalled := true })

/-- Ghost: the `default` branch of the intent switch was taken. -/
def markDefaultIntentBranch (st : EngineState) : EngineState :=
  { st with defaultIntentBranch := true }

/-- `ConfigurationSetApplyProcessor::ProcessUnit`.  Cancellation polls are
modelled as never signalled. -/
def ProcessUnit (st : EngineState) (i : Nat) : EngineState × Bool :=
  let st := markProcessed st i
  let u := getUnitInfo st i
  if !u.unit.shouldApply then
    let st := setUnitResultCode st i
      WINGET_CONFIG_ERROR_MANUALLY_SKIPPED .precondition
    let st := sendUnitProgress st .skipped i
    (st, true)
  else
    let st := sendUnitProgress st .inProgress i
    match u.unit.processor.createResult with
    | some info =>
        -- CreateUnitProcessor threw; ExtractUnitResultInformation built `info`
        let st := adoptUnitResultInfo st i info
        let st := sendUnitProgress st .completed i
        (st, false)
    | Option.none =>
        let st := markProcessorCreated st i
        let r :=
          match u.unit.intent with
          | .assert =>
              let settingsResult := u.unit.processor.testSettings
              if settingsResult.testResult == ConfigurationTestResult.positive then (st, true)
              else if settingsResult.testResult == ConfigurationTestResult.negative then
                (setUnitResultCode st i
                  WINGET_CONFIG_ERROR_ASSERTION_FAILED .precondition, false)
              else if settingsResult.testResult == ConfigurationTestResult.failed then
                (adoptUnitResultInfo st i settingsResult.resultInformation, false)
              else
                (setUnitResultCode st i E_UNEXPECTED .internal, false)
          | .inform =>
              let settingsResult := u.unit.processor.getSettings
              if SUCCEEDED settingsResult.resultInformation.resultCode then (st, true)
              else
                (adoptUnitResultInfo st i settingsResult.resultInformation, false)
          | .apply =>
              let testSettingsResult := u.unit.processor.testSettings
              if testSettingsResult.testResult == ConfigurationTestResult.positive then
                (setPreviouslyInDesiredState st i, true)
              else if testSettingsResult.testResult == ConfigurationTestResult.negative then
                let applySettingsResult := u.unit.processor.applySettings
                let st := markApplySettingsCalled st i
                if SUCCEEDED applySettingsResult.resultInformation.resultCode then
                  (setRebootRequired st i applySettingsResult.rebootRequired, true)
                else
                  (adoptUnitResultInfo st i
                    applySettingsResult.resultInformation, false)
              else if testSettingsResult.testResult == ConfigurationTestResult.failed then
                (adoptUnitResultInfo st i
                  testSettingsResult.resultInformation, false)
              else
                (setUnitResultCode st i E_UNEXPECTED .internal, false)
          | .unknownValue =>
              let st := setUnitResultCode st i E_UNEXPECTED .internal
              (markDefaultIntentBranch st, false)
        let st := sendUnitProgress r.1 .completed i
        (st, r.2)

/-- `ConfigurationSetApplyProcessor::Process` (the non-throwing path). -/
def Process (st : EngineState) : EngineState :=
  let p := PreProcess st
  let st :=
    if p.2 then
      let st := sendSetProgress p.1 .inProgress
      (ProcessInternal HasProcessedSuccessfully ProcessUnit true st).1
    else p.1
  sendSetProgress st .completed

/-- Engine entry: build the unit-info table from the input set, in input
order, with default results. -/
def initialState (units : List ConfigurationUnit) : EngineState :=
  { unitInfos := units.map (fun u => { unit := u }) }

/-- Engine run on an input set. -/
def runApply (units : List ConfigurationUnit) : EngineState :=
  Process (initialState units)

/-- Unit `j` carries the marking `(e, Precondition)`, its state is
`Skipped`, and a `Skipped` event for it has been emitted. -/
def MarkedSkippedWith (st : EngineState) (j : Nat) (e : HResult) : Prop :=
  (getUnitInfo st j).resultInformation.resultCode = e ∧
  (getUnitInfo st j).resultInformation.resultSource
    = ConfigurationUnitResultSource.precondition ∧
  (getUnitInfo st j).state = ConfigurationUnitState.skipped ∧
  ProgressEvent.unitProgress j ConfigurationUnitState.skipped ∈ st.events

/-- `reachesIn infos k i j`: there is a path of exactly `k` dependency
edges from unit `i` to unit `j` in the resolved graph. -/
def reachesIn (infos : List UnitInfo) : Nat → Nat → Nat → Bool
  | 0, i, j => i == j
  | k + 1, i, j =>
      ((infos.getD i default).dependencyIndices).any (fun m => reachesIn infos k m j)

/-- A cycle exists in the graph induced by `dependencyIndices`: some unit
reaches itself along at least one and at most `n` dependency edges. -/
def hasDependencyCycle (infos : List UnitInfo) : Bool :=
  (List.range infos.length).any (fun i =>
    (List.range infos.length).any (fun k => reachesIn infos (k + 1) i i))

/-- The ghost trace of result codes written to unit `i`, in write order. -/
def writesTo (st : EngineState) (i : Nat) : List HResult :=
  st.writes.filterMap (fun p => if p.1 = i then some p.2 else Option.none)

/-- Along a write trace, once a failing code has been written every later
write is failing: a non-success code is never replaced by a success. -/
def NoSuccessAfterFailure (l : List HResult) : Prop :=
  l.Pairwise (fun a b => a < 0 → b < 0)

/-- All intents of the input set are declared enumerators of
`ConfigurationUnitIntent` (every real configuration set satisfies this;
`unknownValue` models an out-of-range cast). -/
def DeclaredIntents (units : List ConfigurationUnit) : Prop :=
  ∀ u ∈ units, u.intent ≠ ConfigurationUnitIntent.unknownValue

/-! ### Concrete scenario units and auxiliary predicates used by the claims -/

def c1UnitA : ConfigurationUnit :=
  { identifier := "a", intent := ConfigurationUnitIntent.assert, dependencies := ["b"] }

def c1UnitB : ConfigurationUnit :=
  { identifier := "b", intent := ConfigurationUnitIntent.apply }

def c1WitnessUnit : ConfigurationUnit := { identifier := "u" }

def c9UnitP : ConfigurationUnit :=
  { identifier := "p", intent := ConfigurationUnitIntent.apply, dependencies := ["q"] }

def c9UnitQ : ConfigurationUnit :=
  { identifier := "q", intent := ConfigurationUnitIntent.apply, dependencies := ["p"] }

def c9WitnessUnit : ConfigurationUnit :=
  { identifier := "w", intent := ConfigurationUnitIntent.apply }

def c2UnitG : ConfigurationUnit :=
  { identifier := "g", intent := ConfigurationUnitIntent.assert,
    processor := { testSettings := { testResult := ConfigurationTestResult.negative } } }

def c2UnitH : ConfigurationUnit :=
  { identifier := "h", intent := ConfigurationUnitIntent.apply, dependencies := ["g"] }

def c3Unit1 : ConfigurationUnit := { identifier := "Dup" }

def c3Unit2 : ConfigurationUnit := { identifier := "dUP" }

def c3Unit3 : ConfigurationUnit := { identifier := "dup" }

def c3EmptyUnit : ConfigurationUnit := { identifier := "" }

def c4UnitX : ConfigurationUnit :=
  { identifier := "x", intent := ConfigurationUnitIntent.apply,
    dependencies := ["", "ghost", "a"] }

def c4UnitA : ConfigurationUnit :=
  { identifier := "a", intent := ConfigurationUnitIntent.apply }

def c5UnitS : ConfigurationUnit :=
  { identifier := "s", intent := ConfigurationUnitIntent.apply, shouldApply := false }

def c5UnitT : ConfigurationUnit :=
  { identifier := "t", intent := ConfigurationUnitIntent.apply, dependencies := ["s"] }

def c6UnitA : ConfigurationUnit :=
  { identifier := "a", intent := ConfigurationUnitIntent.apply }

def c6UnitB : ConfigurationUnit :=
  { identifier := "b", intent := ConfigurationUnitIntent.apply }

def c7Unit : ConfigurationUnit :=
  { identifier := "c", intent := ConfigurationUnitIntent.apply,
    processor := { testSettings := { testResult := ConfigurationTestResult.negative },
                   applySettings := { rebootRequired := true } } }

def WritesNeg (l : List (Nat × HResult)) : Prop := ∀ p ∈ l, p.2 < 0

/-! ### Basic lemmas about the state primitives -/

theorem getUnitInfo_updateUnitInfo (st : EngineState) (i j : Nat) (f : UnitInfo → UnitInfo) :
    getUnitInfo (updateUnitInfo st i f) j =
      if i = j ∧ i < st.unitInfos.length then f (getUnitInfo st i) else getUnitInfo st j := by
  by_cases hij : i = j
  · subst hij
    by_cases hl : i < st.unitInfos.length
    · simp [getUnitInfo, updateUnitInfo, List.getD_eq_getElem?_getD,
        List.getElem?_set_self hl, hl]
    · have hnone : st.unitInfos[i]? = Option.none := by
        rw [List.getElem?_eq_none_iff]
        omega
      simp [getUnitInfo, updateUnitInfo, List.getD_eq_getElem?_getD,
        List.getElem?_set, hl, hnone]
  · simp [getUnitInfo, updateUnitInfo, List.getD_eq_getElem?_getD,
      List.getElem?_set_ne hij, hij]

theorem getUnitInfo_updateUnitInfo_self (st : EngineState) (i : Nat) (f : UnitInfo → UnitInfo)
    (h : i < st.unitInfos.length) :
    getUnitInfo (updateUnitInfo st i f) i = f (getUnitInfo st i) := by
  simp [getUnitInfo_updateUnitInfo, h]

theorem getUnitInfo_updateUnitInfo_ne (st : EngineState) {i j : Nat} (f : UnitInfo → UnitInfo)
    (h : i ≠ j) :
    getUnitInfo (updateUnitInfo st i f) j = getUnitInfo st j := by
  simp [getUnitInfo_updateUnitInfo, h]

/-- Observations invariant under the per-unit update commute with `updateUnitInfo`. -/
theorem obs_getUnitInfo_updateUnitInfo {α : Type} (g : UnitInfo → α)
    (st : EngineState) (i j : Nat) (f : UnitInfo → UnitInfo) (hg : ∀ u, g (f u) = g u) :
    g (getUnitInfo (updateUnitInfo st i f) j) = g (getUnitInfo st j) := by
  rw [getUnitInfo_updateUnitInfo]
  split
  · next h => rw [hg, h.1]
  · rfl

@[simp] theorem length_updateUnitInfo (st : EngineState) (i : Nat) (f : UnitInfo → UnitInfo) :
    (updateUnitInfo st i f).unitInfos.length = st.unitInfos.length := by
  simp [updateUnitInfo]

@[simp] theorem length_setUnitResultCode (st : EngineState) (i : Nat) (hr : HResult)
    (src : ConfigurationUnitResultSource) :
    (setUnitResultCode st i hr src).unitInfos.length = st.unitInfos.length := by
  simp [setUnitResultCode]

@[simp] theorem length_adoptUnitResultInfo (st : EngineState) (i : Nat)
    (info : ResultInformation) :
    (adoptUnitResultInfo st i info).unitInfos.length = st.unitInfos.length := by
  simp [adoptUnitResultInfo]

@[simp] theorem length_setUnitDetails (st : EngineState) (i : Nat) (d : String) :
    (setUnitDetails st i d).unitInfos.length = st.unitInfos.length := by
  simp [setUnitDetails]

@[simp] theorem length_sendUnitProgress (st : EngineState) (s : ConfigurationUnitState)
    (i : Nat) :
    (sendUnitProgress st s i).unitInfos.length = st.unitInfos.length := by
  simp [sendUnitProgress]

@[simp] theorem length_sendUnitProgressIfNotComplete (st : EngineState)
    (s : ConfigurationUnitState) (i : Nat) :
    (sendUnitProgressIfNotComplete st s i).unitInfos.length = st.unitInfos.length := by
  unfold sendUnitProgressIfNotComplete
  split <;> simp

@[simp] theorem length_sendSetProgress (st : EngineState) (s : ConfigurationSetState) :
    (sendSetProgress st s).unitInfos.length = st.unitInfos.length := rfl

@[simp] theorem length_appendDependencyIndex (st : EngineState) (i j : Nat) :
    (appendDependencyIndex st i j).unitInfos.length = st.unitInfos.length := by
  simp [appendDependencyIndex]

@[simp] theorem getUnitInfo_sendSetProgress (st : EngineState) (s : ConfigurationSetState)
    (j : Nat) : getUnitInfo (sendSetProgress st s) j = getUnitInfo st j := rfl

theorem getUnitInfo_setUnitResultCode (st : EngineState) (i j : Nat) (hr : HResult)
    (src : ConfigurationUnitResultSource) :
    getUnitInfo (setUnitResultCode st i hr src) j =
      getUnitInfo (updateUnitInfo st i (fun u =>
        { u with resultInformation :=
            { u.resultInformation with resultCode := hr, resultSource := src } })) j := rfl

theorem getUnitInfo_setUnitResultCode_ne (st : EngineState) {i j : Nat} (hr : HResult)
    (src : ConfigurationUnitResultSource) (h : i ≠ j) :
    getUnitInfo (setUnitResultCode st i hr src) j = getUnitInfo st j := by
  rw [getUnitInfo_setUnitResultCode, getUnitInfo_updateUnitInfo_ne st _ h]

theorem getUnitInfo_adoptUnitResultInfo (st : EngineState) (i j : Nat)
    (info : ResultInformation) :
    getUnitInfo (adoptUnitResultInfo st i info) j =
      getUnitInfo (updateUnitInfo st i (fun u => { u with resultInformation := info })) j := rfl

theorem getUnitInfo_adoptUnitResultInfo_ne (st : EngineState) {i j : Nat}
    (info : ResultInformation) (h : i ≠ j) :
    getUnitInfo (adoptUnitResultInfo st i info) j = getUnitInfo st j := by
  rw [getUnitInfo_adoptUnitResultInfo, getUnitInfo_updateUnitInfo_ne st _ h]

theorem getUnitInfo_setUnitDetails_ne (st : EngineState) {i j : Nat} (d : String)
    (h : i ≠ j) :
    getUnitInfo (setUnitDetails st i d) j = getUnitInfo st j :=
  getUnitInfo_updateUnitInfo_ne st _ h

theorem getUnitInfo_sendUnitProgress (st : EngineState) (s : ConfigurationUnitState)
    (i j : Nat) :
    getUnitInfo (sendUnitProgress st s i) j =
      getUnitInfo (updateUnitInfo st i (fun u => { u with state := s })) j := rfl

theorem getUnitInfo_sendUnitProgress_ne (st : EngineState) {i j : Nat}
    (s : ConfigurationUnitState) (h : i ≠ j) :
    getUnitInfo (sendUnitProgress st s i) j = getUnitInfo st j := by
  rw [getUnitInfo_sendUnitProgress, getUnitInfo_updateUnitInfo_ne st _ h]

theorem getUnitInfo_sendUnitProgress_self (st : EngineState) (s : ConfigurationUnitState)
    {i : Nat} (h : i < st.unitInfos.length) :
    getUnitInfo (sendUnitProgress st s i) i = { getUnitInfo st i with state := s } := by
  rw [getUnitInfo_sendUnitProgress, getUnitInfo_updateUnitInfo_self st i _ h]

theorem getUnitInfo_setUnitResultCode_self (st : EngineState) (hr : HResult)
    (src : ConfigurationUnitResultSource) {i : Nat} (h : i < st.unitInfos.length) :
    getUnitInfo (setUnitResultCode st i hr src) i =
      { getUnitInfo st i with resultInformation :=
          { (getUnitInfo st i).resultInformation with resultCode := hr, resultSource := src } } := by
  rw [getUnitInfo_setUnitResultCode, getUnitInfo_updateUnitInfo_self st i _ h]

theorem getUnitInfo_adoptUnitResultInfo_self (st : EngineState) (info : ResultInformation)
    {i : Nat} (h : i < st.unitInfos.length) :
    getUnitInfo (adoptUnitResultInfo st i info) i =
      { getUnitInfo st i with resultInformation := info } := by
  rw [getUnitInfo_adoptUnitResultInfo, getUnitInfo_updateUnitInfo_self st i _ h]

theorem getUnitInfo_setUnitDetails_self (st : EngineState) (d : String)
    {i : Nat} (h : i < st.unitInfos.length) :
    getUnitInfo (setUnitDetails st i d) i =
      { getUnitInfo st i with resultInformation :=
          { (getUnitInfo st i).resultInformation with details := d } } :=
  getUnitInfo_updateUnitInfo_self st i _ h

theorem getUnitInfo_appendDependencyIndex_ne (st : EngineState) {i j : Nat} (k : Nat)
    (h : i ≠ j) :
    getUnitInfo (appendDependencyIndex st i k) j = getUnitInfo st j :=
  getUnitInfo_updateUnitInfo_ne st _ h

@[simp] theorem length_markProcessed (st : EngineState) (i : Nat) :
    (markProcessed st i).unitInfos.length = st.unitInfos.length := by
  simp [markProcessed]

@[simp] theorem length_markProcessorCreated (st : EngineState) (i : Nat) :
    (markProcessorCreated st i).unitInfos.length = st.unitInfos.length := by
  simp [markProcessorCreated]

@[simp] theorem length_setPreviouslyInDesiredState (st : EngineState) (i : Nat) :
    (setPreviouslyInDesiredState st i).unitInfos.length = st.unitInfos.length := by
  simp [setPreviouslyInDesiredState]

@[simp] theorem length_setRebootRequired (st : EngineState) (i : Nat) (b : Bool) :
    (setRebootRequired st i b).unitInfos.length = st.unitInfos.length := by
  simp [setRebootRequired]

@[simp] theorem length_markApplySettingsCalled (st : EngineState) (i : Nat) :
    (markApplySettingsCalled st i).unitInfos.length = st.unitInfos.length := by
  simp [markApplySettingsCalled]

@[simp] theorem length_markUnitPreprocessed (st : EngineState) (i : Nat) :
    (markUnitPreprocessed st i).unitInfos.length = st.unitInfos.length := by
  simp [markUnitPreprocessed]

@[simp] theorem length_markDefaultIntentBranch (st : EngineState) :
    (markDefaultIntentBranch st).unitInfos.length = st.unitInfos.length := rfl

@[simp] theorem getUnitInfo_markDefaultIntentBranch (st : EngineState) (j : Nat) :
    getUnitInfo (markDefaultIntentBranch st) j = getUnitInfo st j := rfl

theorem getUnitInfo_markProcessed_ne (st : EngineState) {i j : Nat} (h : i ≠ j) :
    getUnitInfo (markProcessed st i) j = getUnitInfo st j :=
  getUnitInfo_updateUnitInfo_ne st _ h

theorem getUnitInfo_markProcessorCreated_ne (st : EngineState) {i j : Nat} (h : i ≠ j) :
    getUnitInfo (markProcessorCreated st i) j = getUnitInfo st j :=
  getUnitInfo_updateUnitInfo_ne st _ h

theorem getUnitInfo_setPreviouslyInDesiredState_ne (st : EngineState) {i j : Nat}
    (h : i ≠ j) :
    getUnitInfo (setPreviouslyInDesiredState st i) j = getUnitInfo st j :=
  getUnitInfo_updateUnitInfo_ne st _ h

theorem getUnitInfo_setRebootRequired_ne (st : EngineState) {i j : Nat} (b : Bool)
    (h : i ≠ j) :
    getUnitInfo (setRebootRequired st i b) j = getUnitInfo st j :=
  getUnitInfo_updateUnitInfo_ne st _ h

theorem getUnitInfo_markApplySettingsCalled_ne (st : EngineState) {i j : Nat} (h : i ≠ j) :
    getUnitInfo (markApplySettingsCalled st i) j = getUnitInfo st j :=
  getUnitInfo_updateUnitInfo_ne st _ h

theorem getUnitInfo_markUnitPreprocessed_ne (st : EngineState) {i j : Nat} (h : i ≠ j) :
    getUnitInfo (markUnitPreprocessed st i) j = getUnitInfo st j :=
  getUnitInfo_updateUnitInfo_ne st _ h

theorem preProcessed_markUnitPreprocessed_self (st : EngineState) {i : Nat}
    (h : i < st.unitInfos.length) :
    (getUnitInfo (markUnitPreprocessed st i) i).preProcessed = true := by
  unfold markUnitPreprocessed
  rw [getUnitInfo_updateUnitInfo_self st i _ h]

/-! Ghost-field and write-trace behaviour of the primitives (all `rfl`). -/

@[simp] theorem writes_updateUnitInfo (st : EngineState) (i : Nat) (f : UnitInfo → UnitInfo) :
    (updateUnitInfo st i f).writes = st.writes := rfl

@[simp] theorem writes_setUnitResultCode (st : EngineState) (i : Nat) (hr : HResult)
    (src : ConfigurationUnitResultSource) :
    (setUnitResultCode st i hr src).writes = st.writes ++ [(i, hr)] := rfl

@[simp] theorem writes_adoptUnitResultInfo (st : EngineState) (i : Nat)
    (info : ResultInformation) :
    (adoptUnitResultInfo st i info).writes = st.writes ++ [(i, info.resultCode)] := rfl

@[simp] theorem writes_setUnitDetails (st : EngineState) (i : Nat) (d : String) :
    (setUnitDetails st i d).writes = st.writes := rfl

@[simp] theorem writes_sendUnitProgress (st : EngineState) (s : ConfigurationUnitState)
    (i : Nat) : (sendUnitProgress st s i).writes = st.writes := rfl

@[simp] theorem writes_sendUnitProgressIfNotComplete (st : EngineState)
    (s : ConfigurationUnitState) (i : Nat) :
    (sendUnitProgressIfNotComplete st s i).writes = st.writes := by
  unfold sendUnitProgressIfNotComplete
  split <;> rfl

@[simp] theorem writes_sendSetProgress (st : EngineState) (s : ConfigurationSetState) :
    (sendSetProgress st s).writes = st.writes := rfl

@[simp] theorem writes_appendDependencyIndex (st : EngineState) (i j : Nat) :
    (appendDependencyIndex st i j).writes = st.writes := rfl

@[simp] theorem writes_markProcessed (st : EngineState) (i : Nat) :
    (markProcessed st i).writes = st.writes := rfl

@[simp] theorem writes_markProcessorCreated (st : EngineState) (i : Nat) :
    (markProcessorCreated st i).writes = st.writes := rfl

@[simp] theorem writes_setPreviouslyInDesiredState (st : EngineState) (i : Nat) :
    (setPreviouslyInDesiredState st i).writes = st.writes := rfl

@[simp] theorem writes_setRebootRequired (st : EngineState) (i : Nat) (b : Bool) :
    (setRebootRequired st i b).writes = st.writes := rfl

@[simp] theorem writes_markApplySettingsCalled (st : EngineState) (i : Nat) :
    (markApplySettingsCalled st i).writes = st.writes := rfl

@[simp] theorem writes_markUnitPreprocessed (st : EngineState) (i : Nat) :
    (markUnitPreprocessed st i).writes = st.writes := rfl

@[simp] theorem writes_markDefaultIntentBranch (st : EngineState) :
    (markDefaultIntentBranch st).writes = st.writes := rfl

@[simp] theorem dib_updateUnitInfo (st : EngineState) (i : Nat) (f : UnitInfo → UnitInfo) :
    (updateUnitInfo st i f).defaultIntentBranch = st.defaultIntentBranch := rfl

@[simp] theorem dib_setUnitResultCode (st : EngineState) (i : Nat) (hr : HResult)
    (src : ConfigurationUnitResultSource) :
    (setUnitResultCode st i hr src).defaultIntentBranch = st.defaultIntentBranch := rfl

@[simp] theorem dib_adoptUnitResultInfo (st : EngineState) (i : Nat)
    (info : ResultInformation) :
    (adoptUnitResultInfo st i info).defaultIntentBranch = st.defaultIntentBranch := rfl

@[simp] theorem dib_setUnitDetails (st : EngineState) (i : Nat) (d : String) :
    (setUnitDetails st i d).defaultIntentBranch = st.defaultIntentBranch := rfl

@[simp] theorem dib_sendUnitProgress (st : EngineState) (s : ConfigurationUnitState)
    (i : Nat) : (sendUnitProgress st s i).defaultIntentBranch = st.defaultIntentBranch := rfl

@[simp] theorem dib_sendUnitProgressIfNotComplete (st : EngineState)
    (s : ConfigurationUnitState) (i : Nat) :
    (sendUnitProgressIfNotComplete st s i).defaultIntentBranch = st.defaultIntentBranch := by
  unfold sendUnitProgressIfNotComplete
  split <;> rfl

@[simp] theorem dib_sendSetProgress (st : EngineState) (s : ConfigurationSetState) :
    (sendSetProgress st s).defaultIntentBranch = st.defaultIntentBranch := rfl

@[simp] theorem dib_appendDependencyIndex (st : EngineState) (i j : Nat) :
    (appendDependencyIndex st i j).defaultIntentBranch = st.defaultIntentBranch := rfl

@[simp] theorem dib_markProcessed (st : EngineState) (i : Nat) :
    (markProcessed st i).defaultIntentBranch = st.defaultIntentBranch := rfl

@[simp] theorem dib_markProcessorCreated (st : EngineState) (i : Nat) :
    (markProcessorCreated st i).defaultIntentBranch = st.defaultIntentBranch := rfl

@[simp] theorem dib_setPreviouslyInDesiredState (st : EngineState) (i : Nat) :
    (setPreviouslyInDesiredState st i).defaultIntentBranch = st.defaultIntentBranch := rfl

@[simp] theorem dib_setRebootRequired (st : EngineState) (i : Nat) (b : Bool) :
    (setRebootRequired st i b).defaultIntentBranch = st.defaultIntentBranch := rfl

@[simp] theorem dib_markApplySettingsCalled (st : EngineState) (i : Nat) :
    (markApplySettingsCalled st i).defaultIntentBranch = st.defaultIntentBranch := rfl

@[simp] theorem dib_markUnitPreprocessed (st : EngineState) (i : Nat) :
    (markUnitPreprocessed st i).defaultIntentBranch = st.defaultIntentBranch := rfl

@[simp] theorem dib_markDefaultIntentBranch (st : EngineState) :
    (markDefaultIntentBranch st).defaultIntentBranch = true := rfl

/-! The input unit handle is never modified: `.unit` is preserved by every
operation, at every index. -/

@[simp] theorem unit_setUnitResultCode (st : EngineState) (i : Nat) (hr : HResult)
    (src : ConfigurationUnitResultSource) (j : Nat) :
    (getUnitInfo (setUnitResultCode st i hr src) j).unit = (getUnitInfo st j).unit := by
  rw [getUnitInfo_setUnitResultCode]
  exact obs_getUnitInfo_updateUnitInfo UnitInfo.unit st i j _ (fun u => rfl)

@[simp] theorem unit_adoptUnitResultInfo (st : EngineState) (i : Nat)
    (info : ResultInformation) (j : Nat) :
    (getUnitInfo (adoptUnitResultInfo st i info) j).unit = (getUnitInfo st j).unit := by
  rw [getUnitInfo_adoptUnitResultInfo]
  exact obs_getUnitInfo_updateUnitInfo UnitInfo.unit st i j _ (fun u => rfl)

@[simp] theorem unit_setUnitDetails (st : EngineState) (i : Nat) (d : String) (j : Nat) :
    (getUnitInfo (setUnitDetails st i d) j).unit = (getUnitInfo st j).unit :=
  obs_getUnitInfo_updateUnitInfo UnitInfo.unit st i j _ (fun u => rfl)

@[simp] theorem unit_sendUnitProgress (st : EngineState) (s : ConfigurationUnitState)
    (i j : Nat) :
    (getUnitInfo (sendUnitProgress st s i) j).unit = (getUnitInfo st j).unit := by
  rw [getUnitInfo_sendUnitProgress]
  exact obs_getUnitInfo_updateUnitInfo UnitInfo.unit st i j _ (fun u => rfl)

@[simp] theorem unit_sendUnitProgressIfNotComplete (st : EngineState)
    (s : ConfigurationUnitState) (i j : Nat) :
    (getUnitInfo (sendUnitProgressIfNotComplete st s i) j).unit = (getUnitInfo st j).unit := by
  unfold sendUnitProgressIfNotComplete
  split
  · exact unit_sendUnitProgress st s i j
  · rfl

@[simp] theorem unit_appendDependencyIndex (st : EngineState) (i k : Nat) (j : Nat) :
    (getUnitInfo (appendDependencyIndex st i k) j).unit = (getUnitInfo st j).unit :=
  obs_getUnitInfo_updateUnitInfo UnitInfo.unit st i j _ (fun u => rfl)

@[simp] theorem unit_markProcessed (st : EngineState) (i j : Nat) :
    (getUnitInfo (markProcessed st i) j).unit = (getUnitInfo st j).unit :=
  obs_getUnitInfo_updateUnitInfo UnitInfo.unit st i j _ (fun u => rfl)

@[simp] theorem unit_markProcessorCreated (st : EngineState) (i j : Nat) :
    (getUnitInfo (markProcessorCreated st i) j).unit = (getUnitInfo st j).unit :=
  obs_getUnitInfo_updateUnitInfo UnitInfo.unit st i j _ (fun u => rfl)

@[simp] theorem unit_setPreviouslyInDesiredState (st : EngineState) (i j : Nat) :
    (getUnitInfo (setPreviouslyInDesiredState st i) j).unit = (getUnitInfo st j).unit :=
  obs_getUnitInfo_updateUnitInfo UnitInfo.unit st i j _ (fun u => rfl)

@[simp] theorem unit_setRebootRequired (st : EngineState) (i : Nat) (b : Bool) (j : Nat) :
    (getUnitInfo (setRebootRequired st i b) j).unit = (getUnitInfo st j).unit :=
  obs_getUnitInfo_updateUnitInfo UnitInfo.unit st i j _ (fun u => rfl)

@[simp] theorem unit_markApplySettingsCalled (st : EngineState) (i j : Nat) :
    (getUnitInfo (markApplySettingsCalled st i) j).unit = (getUnitInfo st j).unit :=
  obs_getUnitInfo_updateUnitInfo UnitInfo.unit st i j _ (fun u => rfl)

@[simp] theorem unit_markUnitPreprocessed (st : EngineState) (i j : Nat) :
    (getUnitInfo (markUnitPreprocessed st i) j).unit = (getUnitInfo st j).unit :=
  obs_getUnitInfo_updateUnitInfo UnitInfo.unit st i j _ (fun u => rfl)

/-! `preProcessed` is preserved by all result-marking and progress operations. -/

@[simp] theorem preProcessed_setUnitResultCode (st : EngineState) (i : Nat) (hr : HResult)
    (src : ConfigurationUnitResultSource) (j : Nat) :
    (getUnitInfo (setUnitResultCode st i hr src) j).preProcessed
      = (getUnitInfo st j).preProcessed := by
  rw [getUnitInfo_setUnitResultCode]
  exact obs_getUnitInfo_updateUnitInfo UnitInfo.preProcessed st i j _ (fun u => rfl)

@[simp] theorem preProcessed_sendUnitProgress (st : EngineState)
    (s : ConfigurationUnitState) (i j : Nat) :
    (getUnitInfo (sendUnitProgress st s i) j).preProcessed
      = (getUnitInfo st j).preProcessed := by
  rw [getUnitInfo_sendUnitProgress]
  exact obs_getUnitInfo_updateUnitInfo UnitInfo.preProcessed st i j _ (fun u => rfl)

/-! `state` is preserved by result-marking operations. -/

@[simp] theorem state_setUnitResultCode (st : EngineState) (i : Nat) (hr : HResult)
    (src : ConfigurationUnitResultSource) (j : Nat) :
    (getUnitInfo (setUnitResultCode st i hr src) j).state = (getUnitInfo st j).state := by
  rw [getUnitInfo_setUnitResultCode]
  exact obs_getUnitInfo_updateUnitInfo UnitInfo.state st i j _ (fun u => rfl)

@[simp] theorem state_adoptUnitResultInfo (st : EngineState) (i : Nat)
    (info : ResultInformation) (j : Nat) :
    (getUnitInfo (adoptUnitResultInfo st i info) j).state = (getUnitInfo st j).state := by
  rw [getUnitInfo_adoptUnitResultInfo]
  exact obs_getUnitInfo_updateUnitInfo UnitInfo.state st i j _ (fun u => rfl)

/-! ### Composite facts about `ProcessUnit` and `MarkPreprocessed` -/

@[simp] theorem length_ProcessUnit (st : EngineState) (c : Nat) :
    ((ProcessUnit st c).1).unitInfos.length = st.unitInfos.length := by
  unfold ProcessUnit
  dsimp only
  repeat' split
  all_goals simp

theorem getUnitInfo_ProcessUnit_ne (st : EngineState) {c j : Nat} (h : c ≠ j) :
    getUnitInfo (ProcessUnit st c).1 j = getUnitInfo st j := by
  unfold ProcessUnit
  dsimp only
  repeat' split
  all_goals simp [getUnitInfo_setUnitResultCode_ne, getUnitInfo_adoptUnitResultInfo_ne,
    getUnitInfo_sendUnitProgress_ne, getUnitInfo_updateUnitInfo_ne,
    getUnitInfo_markProcessed_ne, getUnitInfo_markProcessorCreated_ne,
    getUnitInfo_setPreviouslyInDesiredState_ne, getUnitInfo_setRebootRequired_ne,
    getUnitInfo_markApplySettingsCalled_ne, h]

theorem unit_ProcessUnit (st : EngineState) (c j : Nat) :
    (getUnitInfo (ProcessUnit st c).1 j).unit = (getUnitInfo st j).unit := by
  unfold ProcessUnit
  dsimp only
  repeat' split
  all_goals simp [markProcessed, markProcessorCreated, setPreviouslyInDesiredState,
    setRebootRequired, markApplySettingsCalled,
    obs_getUnitInfo_updateUnitInfo UnitInfo.unit]

theorem state_sendUnitProgress_self (st : EngineState) (s : ConfigurationUnitState)
    {i : Nat} (hlt : i < st.unitInfos.length) :
    (getUnitInfo (sendUnitProgress st s i) i).state = s := by
  rw [getUnitInfo_sendUnitProgress_self st s hlt]

/-- A processed unit ends in a terminal state: every exit path of
`ProcessUnit` sends `Skipped` or `Completed` for the unit. -/
theorem state_ProcessUnit_terminal (st : EngineState) {c : Nat}
    (h : c < st.unitInfos.length) :
    (getUnitInfo (ProcessUnit st c).1 c).state = ConfigurationUnitState.completed ∨
      (getUnitInfo (ProcessUnit st c).1 c).state = ConfigurationUnitState.skipped := by
  unfold ProcessUnit
  dsimp only
  repeat' split
  all_goals first
    | exact Or.inl (state_sendUnitProgress_self _ _ (by simpa using h))
    | exact Or.inr (state_sendUnitProgress_self _ _ (by simpa using h))

/-- `ProcessUnit` appends at most one result-code write, and only for the
unit being processed. -/
theorem writes_ProcessUnit (st : EngineState) (c : Nat) :
    (ProcessUnit st c).1.writes = st.writes ∨
      ∃ x, (ProcessUnit st c).1.writes = st.writes ++ [(c, x)] := by
  unfold ProcessUnit
  dsimp only
  repeat' split
  all_goals simp

/-- On a unit whose intent is one of the three declared enumerators,
`ProcessUnit` never takes the `default` branch of the intent switch. -/
theorem dib_ProcessUnit (st : EngineState) (c : Nat)
    (h : (getUnitInfo st c).unit.intent ≠ ConfigurationUnitIntent.unknownValue) :
    (ProcessUnit st c).1.defaultIntentBranch = st.defaultIntentBranch := by
  have hu : (getUnitInfo (markProcessed st c) c).unit = (getUnitInfo st c).unit :=
    unit_markProcessed st c c
  unfold ProcessUnit
  dsimp only
  repeat' split
  all_goals simp_all

/-! ### The candidate scan: `extractFirstReady` -/

theorem intent_of_ready {st : EngineState} {i : Nat} {I : ConfigurationUnitIntent}
    {cd : UnitInfo → Bool} (h : HasIntentAndSatisfiedDependencies st i I cd = true) :
    (getUnitInfo st i).unit.intent = I := by
  unfold HasIntentAndSatisfiedDependencies at h
  simp only [Bool.and_eq_true, beq_iff_eq] at h
  exact h.1

theorem extractFirstReady_cons (st : EngineState) (I : ConfigurationUnitIntent)
    (cd : UnitInfo → Bool) (a : Nat) (t : List Nat) :
    extractFirstReady st I cd (a :: t) =
      if HasIntentAndSatisfiedDependencies st a I cd then some (a, t)
      else
        match extractFirstReady st I cd t with
        | some (r, rest') => some (r, a :: rest')
        | Option.none => Option.none := rfl

theorem extractFirstReady_eq_none {st : EngineState} {I : ConfigurationUnitIntent}
    {cd : UnitInfo → Bool} :
    ∀ {cands : List Nat}, extractFirstReady st I cd cands = Option.none →
      ∀ x ∈ cands, HasIntentAndSatisfiedDependencies st x I cd = false := by
  intro cands
  induction cands with
  | nil => intro _ x hx; cases hx
  | cons a t ih =>
      intro h x hx
      rw [extractFirstReady_cons] at h
      by_cases ha : HasIntentAndSatisfiedDependencies st a I cd
      · rw [if_pos ha] at h; cases h
      · rw [if_neg ha] at h
        rcases List.mem_cons.1 hx with hx | hx
        · subst hx; simpa using ha
        · apply ih ?_ x hx
          cases he : extractFirstReady st I cd t with
          | none => rfl
          | some pr =>
              obtain ⟨r, rest'⟩ := pr
              rw [he] at h
              cases h

theorem extractFirstReady_eq_some {st : EngineState} {I : ConfigurationUnitIntent}
    {cd : UnitInfo → Bool} :
    ∀ {cands : List Nat} {c : Nat} {rest : List Nat},
      extractFirstReady st I cd cands = some (c, rest) →
      ∃ l1 l2, cands = l1 ++ c :: l2 ∧ rest = l1 ++ l2 ∧
        (∀ x ∈ l1, HasIntentAndSatisfiedDependencies st x I cd = false) ∧
        HasIntentAndSatisfiedDependencies st c I cd = true := by
  intro cands
  induction cands with
  | nil => intro c rest h; cases h
  | cons a t ih =>
      intro c rest h
      rw [extractFirstReady_cons] at h
      by_cases ha : HasIntentAndSatisfiedDependencies st a I cd
      · rw [if_pos ha] at h
        simp only [Option.some.injEq, Prod.mk.injEq] at h
        refine ⟨[], t, ?_, ?_, ?_, ?_⟩
        · simp [h.1]
        · simp [h.2]
        · intro x hx; cases hx
        · rw [← h.1]; exact ha
      · rw [if_neg ha] at h
        cases he : extractFirstReady st I cd t with
        | none => rw [he] at h; cases h
        | some pr =>
            obtain ⟨r, rest'⟩ := pr
            rw [he] at h
            simp only [Option.some.injEq, Prod.mk.injEq] at h
            obtain ⟨l1, l2, ht, hrest', hl1, hr⟩ := ih he
            refine ⟨a :: l1, l2, ?_, ?_, ?_, ?_⟩
            · simp [ht, h.1]
            · rw [← h.2, hrest']; rfl
            · intro x hx
              rcases List.mem_cons.1 hx with hx | hx
              · subst hx; simpa using ha
              · exact hl1 x hx
            · rw [← h.1]; exact hr

theorem mem_cands_of_extract {st : EngineState} {I : ConfigurationUnitIntent}
    {cd : UnitInfo → Bool} {cands : List Nat} {c : Nat} {rest : List Nat}
    (h : extractFirstReady st I cd cands = some (c, rest)) : c ∈ cands := by
  obtain ⟨l1, l2, ht, _, _, _⟩ := extractFirstReady_eq_some h
  rw [ht]
  simp

theorem rest_sublist_of_extract {st : EngineState} {I : ConfigurationUnitIntent}
    {cd : UnitInfo → Bool} {cands : List Nat} {c : Nat} {rest : List Nat}
    (h : extractFirstReady st I cd cands = some (c, rest)) : rest.Sublist cands := by
  obtain ⟨l1, l2, ht, hrest, _, _⟩ := extractFirstReady_eq_some h
  rw [ht, hrest]
  exact List.Sublist.append_left (List.sublist_cons_self c l2) l1

theorem mem_split_of_extract {st : EngineState} {I : ConfigurationUnitIntent}
    {cd : UnitInfo → Bool} {cands : List Nat} {c : Nat} {rest : List Nat}
    (h : extractFirstReady st I cd cands = some (c, rest)) :
    ∀ x ∈ cands, x = c ∨ x ∈ rest := by
  obtain ⟨l1, l2, ht, hrest, _, _⟩ := extractFirstReady_eq_some h
  intro x hx
  rw [ht] at hx
  rw [hrest]
  rcases List.mem_append.1 hx with hx | hx
  · exact Or.inr (List.mem_append.2 (Or.inl hx))
  · rcases List.mem_cons.1 hx with hx | hx
    · exact Or.inl hx
    · exact Or.inr (List.mem_append.2 (Or.inr hx))

theorem not_mem_rest_of_extract {st : EngineState} {I : ConfigurationUnitIntent}
    {cd : UnitInfo → Bool} {cands : List Nat} {c : Nat} {rest : List Nat}
    (hnd : cands.Nodup) (h : extractFirstReady st I cd cands = some (c, rest)) :
    c ∉ rest := by
  obtain ⟨l1, l2, ht, hrest, _, _⟩ := extractFirstReady_eq_some h
  subst ht
  rw [hrest]
  have hsplit := List.nodup_append.1 hnd
  intro hc
  rcases List.mem_append.1 hc with hc | hc
  · exact hsplit.2.2 hc (List.mem_cons_self c l2)
  · exact (List.nodup_cons.1 hsplit.2.1).1 hc

/-! ### Generic facts about the scheduler loop -/

theorem schedulerLoop_rel (pf : EngineState → Nat → EngineState × Bool)
    (cd : UnitInfo → Bool) (I : ConfigurationUnitIntent)
    (R : EngineState → EngineState → Prop)
    (hrefl : ∀ s, R s s)
    (htrans : ∀ {a b c}, R a b → R b c → R a c)
    (hstep : ∀ st c, R st (pf st c).1) :
    ∀ (fuel : Nat) (st : EngineState) (cands : List Nat) (hf : Bool),
      R st (schedulerLoop pf cd I fuel st cands hf).1 := by
  intro fuel
  induction fuel with
  | zero => intro st cands hf; exact hrefl st
  | succ n ih =>
      intro st cands hf
      cases he : extractFirstReady st I cd cands with
      | none => simp only [schedulerLoop, he]; exact hrefl st
      | some pr =>
          obtain ⟨c, rest⟩ := pr
          simp only [schedulerLoop, he]
          exact htrans (hstep st c) (ih (pf st c).1 rest _)

theorem schedulerLoop_sublist (pf : EngineState → Nat → EngineState × Bool)
    (cd : UnitInfo → Bool) (I : ConfigurationUnitIntent) :
    ∀ (fuel : Nat) (st : EngineState) (cands : List Nat) (hf : Bool),
      ((schedulerLoop pf cd I fuel st cands hf).2.1).Sublist cands := by
  intro fuel
  induction fuel with
  | zero => intro st cands hf; exact List.Sublist.refl cands
  | succ n ih =>
      intro st cands hf
      cases he : extractFirstReady st I cd cands with
      | none => simp only [schedulerLoop, he]; exact List.Sublist.refl cands
      | some pr =>
          obtain ⟨c, rest⟩ := pr
          simp only [schedulerLoop, he]
          exact (ih (pf st c).1 rest _).trans (rest_sublist_of_extract he)

theorem schedulerLoop_length (pf : EngineState → Nat → EngineState × Bool)
    (cd : UnitInfo → Bool) (I : ConfigurationUnitIntent)
    (hlen : ∀ st c, ((pf st c).1).unitInfos.length = st.unitInfos.length)
    (fuel : Nat) (st : EngineState) (cands : List Nat) (hf : Bool) :
    (schedulerLoop pf cd I fuel st cands hf).1.unitInfos.length = st.unitInfos.length :=
  schedulerLoop_rel pf cd I (fun a b => b.unitInfos.length = a.unitInfos.length)
    (fun _ => rfl) (fun hab hbc => hbc.trans hab) hlen fuel st cands hf

theorem schedulerLoop_inv (pf : EngineState → Nat → EngineState × Bool)
    (cd : UnitInfo → Bool) (I : ConfigurationUnitIntent) (Φ : UnitInfo → Prop)
    (hlen : ∀ st c, ((pf st c).1).unitInfos.length = st.unitInfos.length)
    (hne : ∀ st (c j : Nat), c ≠ j → getUnitInfo (pf st c).1 j = getUnitInfo st j)
    (hself : ∀ st c, c < st.unitInfos.length → Φ (getUnitInfo (pf st c).1 c)) :
    ∀ (fuel : Nat) (st : EngineState) (cands : List Nat) (hf : Bool),
      (∀ j ∈ cands, j < st.unitInfos.length) →
      (∀ j, j < st.unitInfos.length → j ∉ cands → Φ (getUnitInfo st j)) →
      (∀ j ∈ (schedulerLoop pf cd I fuel st cands hf).2.1, j < st.unitInfos.length) ∧
      (∀ j, j < st.unitInfos.length → j ∉ (schedulerLoop pf cd I fuel st cands hf).2.1 →
        Φ (getUnitInfo (schedulerLoop pf cd I fuel st cands hf).1 j)) := by
  intro fuel
  induction fuel with
  | zero =>
      intro st cands hf hb hphi
      exact ⟨hb, hphi⟩
  | succ n ih =>
      intro st cands hf hb hphi
      cases he : extractFirstReady st I cd cands with
      | none =>
          simp only [schedulerLoop, he]
          exact ⟨hb, hphi⟩
      | some pr =>
          obtain ⟨c, rest⟩ := pr
          simp only [schedulerLoop, he]
          have hc : c ∈ cands := mem_cands_of_extract he
          have hclen : c < st.unitInfos.length := hb c hc
          have hlen1 : ((pf st c).1).unitInfos.length = st.unitInfos.length := hlen st c
          have hb1 : ∀ j ∈ rest, j < ((pf st c).1).unitInfos.length := by
            intro j hj
            rw [hlen1]
            exact hb j ((rest_sublist_of_extract he).mem hj)
          have hphi1 : ∀ j, j < ((pf st c).1).unitInfos.length → j ∉ rest →
              Φ (getUnitInfo (pf st c).1 j) := by
            intro j hjlen hj
            by_cases hjc : j = c
            · subst hjc
              exact hself st j hclen
            · have hjnc : j ∉ cands := by
                intro hmem
                rcases mem_split_of_extract he j hmem with h | h
                · exact hjc h
                · exact hj h
              rw [hne st c j (fun hcc => hjc hcc.symm)]
              exact hphi j (by rw [← hlen1]; exact hjlen) hjnc
          have := ih (pf st c).1 rest (hf || !(pf st c).2) hb1 hphi1
          constructor
          · intro j hj
            rw [← hlen1]
            exact this.1 j hj
          · intro j hjlen hj
            exact this.2 j (by rw [hlen1]; exact hjlen) hj

theorem schedulerLoop_cands_not (pf : EngineState → Nat → EngineState × Bool)
    (cd : UnitInfo → Bool) (I : ConfigurationUnitIntent) (Φ : UnitInfo → Prop)
    (hne : ∀ st (c j : Nat), c ≠ j → getUnitInfo (pf st c).1 j = getUnitInfo st j) :
    ∀ (fuel : Nat) (st : EngineState) (cands : List Nat) (hf : Bool),
      cands.Nodup →
      (∀ j ∈ cands, ¬ Φ (getUnitInfo st j)) →
      (schedulerLoop pf cd I fuel st cands hf).2.1.Nodup ∧
      (∀ j ∈ (schedulerLoop pf cd I fuel st cands hf).2.1,
        ¬ Φ (getUnitInfo (schedulerLoop pf cd I fuel st cands hf).1 j)) := by
  intro fuel
  induction fuel with
  | zero => intro st cands hf hnd hnphi; exact ⟨hnd, hnphi⟩
  | succ n ih =>
      intro st cands hf hnd hnphi
      cases he : extractFirstReady st I cd cands with
      | none =>
          simp only [schedulerLoop, he]
          exact ⟨hnd, hnphi⟩
      | some pr =>
          obtain ⟨c, rest⟩ := pr
          simp only [schedulerLoop, he]
          have hndrest : rest.Nodup := (rest_sublist_of_extract he).nodup hnd
          have hcrest : c ∉ rest := not_mem_rest_of_extract hnd he
          refine ih (pf st c).1 rest _ hndrest ?_
          intro j hj
          have hjc : c ≠ j := by
            intro hcc
            exact hcrest (hcc ▸ hj)
          rw [hne st c j hjc]
          exact hnphi j ((rest_sublist_of_extract he).mem hj)

theorem schedulerLoop_noFailure (pf : EngineState → Nat → EngineState × Bool)
    (cd : UnitInfo → Bool) (I : ConfigurationUnitIntent)
    (hpf : ∀ st c, (pf st c).2 = true) :
    ∀ (fuel : Nat) (st : EngineState) (cands : List Nat),
      (schedulerLoop pf cd I fuel st cands false).2.2 = false := by
  intro fuel
  induction fuel with
  | zero => intro st cands; rfl
  | succ n ih =>
      intro st cands
      cases he : extractFirstReady st I cd cands with
      | none => simp only [schedulerLoop, he]
      | some pr =>
          obtain ⟨c, rest⟩ := pr
          simp only [schedulerLoop, he, hpf st c]
          exact ih (pf st c).1 rest

theorem schedulerLoop_dib (pf : EngineState → Nat → EngineState × Bool)
    (cd : UnitInfo → Bool) (I : ConfigurationUnitIntent)
    (hdib : ∀ st c, HasIntentAndSatisfiedDependencies st c I cd = true →
      (pf st c).1.defaultIntentBranch = st.defaultIntentBranch) :
    ∀ (fuel : Nat) (st : EngineState) (cands : List Nat) (hf : Bool),
      (schedulerLoop pf cd I fuel st cands hf).1.defaultIntentBranch
        = st.defaultIntentBranch := by
  intro fuel
  induction fuel with
  | zero => intro st cands hf; rfl
  | succ n ih =>
      intro st cands hf
      cases he : extractFirstReady st I cd cands with
      | none => simp only [schedulerLoop, he]
      | some pr =>
          obtain ⟨c, rest⟩ := pr
          simp only [schedulerLoop, he]
          rw [ih (pf st c).1 rest _]
          exact hdib st c (extractFirstReady_eq_some he).choose_spec.choose_spec.2.2.2

/-! ### Generic facts about the post-loop marking passes -/

theorem foldl_state_rel {f : EngineState → Nat → EngineState}
    (R : EngineState → EngineState → Prop)
    (hrefl : ∀ s, R s s)
    (htrans : ∀ {a b c}, R a b → R b c → R a c)
    (hstep : ∀ s i, R s (f s i)) :
    ∀ (l : List Nat) (s : EngineState), R s (l.foldl f s) := by
  intro l
  induction l with
  | nil => intro s; exact hrefl s
  | cons x t ih => intro s; exact htrans (hstep s x) (ih (f s x))

theorem foldl_pair_rel {f : EngineState × Bool → Nat → EngineState × Bool}
    (R : EngineState → EngineState → Prop)
    (hrefl : ∀ s, R s s)
    (htrans : ∀ {a b c}, R a b → R b c → R a c)
    (hstep : ∀ a i, R a.1 (f a i).1) :
    ∀ (l : List Nat) (a : EngineState × Bool), R a.1 (l.foldl f a).1 := by
  intro l
  induction l with
  | nil => intro a; exact hrefl a.1
  | cons x t ih => intro a; exact htrans (hstep a x) (ih (f a x))

theorem markRemainingWithIntent_rel (I : ConfigurationUnitIntent) (sp : Bool)
    (R : EngineState → EngineState → Prop)
    (hrefl : ∀ s, R s s)
    (htrans : ∀ {a b c}, R a b → R b c → R a c)
    (hmark : ∀ s i, R s (setUnitResultCode s i
      WINGET_CONFIG_ERROR_DEPENDENCY_UNSATISFIED ConfigurationUnitResultSource.precondition))
    (hsend : ∀ s st i, R s st → R s (sendUnitProgress st ConfigurationUnitState.skipped i))
    (st : EngineState) (cands : List Nat) :
    R st (markRemainingWithIntent I sp st cands).1 := by
  unfold markRemainingWithIntent
  refine foldl_pair_rel R hrefl htrans ?_ cands (st, false)
  intro a i
  unfold markWithIntentStep
  dsimp only
  split
  · cases sp with
    | false => exact hmark a.1 i
    | true => exact hsend a.1 _ i (hmark a.1 i)
  · exact hrefl a.1

theorem markRemainingOtherIntents_rel (I : ConfigurationUnitIntent) (e : HResult)
    (sp : Bool) (R : EngineState → EngineState → Prop)
    (hrefl : ∀ s, R s s)
    (htrans : ∀ {a b c}, R a b → R b c → R a c)
    (hmark : ∀ s i, R s (setUnitResultCode s i e ConfigurationUnitResultSource.precondition))
    (hsend : ∀ s st i, R s st → R s (sendUnitProgress st ConfigurationUnitState.skipped i))
    (st : EngineState) (cands : List Nat) :
    R st (markRemainingOtherIntents I e sp st cands) := by
  unfold markRemainingOtherIntents
  refine foldl_state_rel R hrefl htrans ?_ cands st
  intro s i
  unfold markOtherIntentsStep
  dsimp only
  split
  · exact hrefl s
  · cases sp with
    | false => exact hmark s i
    | true => exact hsend s _ i (hmark s i)

/-! Event-trace behaviour of the primitives. -/

@[simp] theorem events_updateUnitInfo (st : EngineState) (i : Nat) (f : UnitInfo → UnitInfo) :
    (updateUnitInfo st i f).events = st.events := rfl

@[simp] theorem events_setUnitResultCode (st : EngineState) (i : Nat) (hr : HResult)
    (src : ConfigurationUnitResultSource) :
    (setUnitResultCode st i hr src).events = st.events := rfl

@[simp] theorem events_adoptUnitResultInfo (st : EngineState) (i : Nat)
    (info : ResultInformation) :
    (adoptUnitResultInfo st i info).events = st.events := rfl

@[simp] theorem events_setUnitDetails (st : EngineState) (i : Nat) (d : String) :
    (setUnitDetails st i d).events = st.events := rfl

@[simp] theorem events_sendUnitProgress (st : EngineState) (s : ConfigurationUnitState)
    (i : Nat) :
    (sendUnitProgress st s i).events = st.events ++ [ProgressEvent.unitProgress i s] := rfl

@[simp] theorem events_sendSetProgress (st : EngineState) (s : ConfigurationSetState) :
    (sendSetProgress st s).events = st.events ++ [ProgressEvent.set s] := rfl

theorem state_sendUnitProgress_self_or (st : EngineState) (s : ConfigurationUnitState)
    (j : Nat) :
    (getUnitInfo (sendUnitProgress st s j) j).state = s ∨
      getUnitInfo (sendUnitProgress st s j) j = getUnitInfo st j := by
  rw [getUnitInfo_sendUnitProgress, getUnitInfo_updateUnitInfo]
  split
  · exact Or.inl rfl
  · exact Or.inr rfl

/-! Flag behaviour of the first marking pass. -/

theorem markWithIntentStep_flag_true (I : ConfigurationUnitIntent) (sp : Bool) :
    ∀ (t : List Nat) (a : EngineState × Bool), a.2 = true →
      (t.foldl (markWithIntentStep I sp) a).2 = true := by
  intro t
  induction t with
  | nil => intro a h; exact h
  | cons x r ih =>
      intro a h
      apply ih
      unfold markWithIntentStep
      split
      · rfl
      · exact h

theorem markRemainingWithIntent_false (I : ConfigurationUnitIntent) (sp : Bool) :
    ∀ (cands : List Nat) (st : EngineState),
      (markRemainingWithIntent I sp st cands).2 = false →
      (markRemainingWithIntent I sp st cands).1 = st ∧
        ∀ j ∈ cands, (getUnitInfo st j).unit.intent ≠ I := by
  intro cands
  induction cands with
  | nil => intro st _; exact ⟨rfl, fun j hj => absurd hj (List.not_mem_nil j)⟩
  | cons x t ih =>
      intro st h
      unfold markRemainingWithIntent at h ⊢
      rw [List.foldl_cons] at h ⊢
      by_cases hx : (getUnitInfo st x).unit.intent = I
      · exfalso
        have : (markWithIntentStep I sp (st, false) x).2 = true := by
          unfold markWithIntentStep
          rw [if_pos (by simp [hx])]
        rw [markWithIntentStep_flag_true I sp t _ this] at h
        cases h
      · have hstep : markWithIntentStep I sp (st, false) x = (st, false) := by
          unfold markWithIntentStep
          rw [if_neg (by simp [hx])]
        rw [hstep] at h ⊢
        have := ih st h
        refine ⟨this.1, ?_⟩
        intro j hj
        rcases List.mem_cons.1 hj with hj | hj
        · subst hj; exact hx
        · exact this.2 j hj

theorem markRemainingWithIntent_true (I : ConfigurationUnitIntent) (sp : Bool) :
    ∀ (cands : List Nat) (st : EngineState),
      (markRemainingWithIntent I sp st cands).2 = true →
      ∃ j ∈ cands, (getUnitInfo st j).unit.intent = I := by
  intro cands
  induction cands with
  | nil => intro st h; cases h
  | cons x t ih =>
      intro st h
      by_cases hx : (getUnitInfo st x).unit.intent = I
      · exact ⟨x, List.mem_cons_self x t, hx⟩
      · unfold markRemainingWithIntent at h
        rw [List.foldl_cons] at h
        have hstep : markWithIntentStep I sp (st, false) x = (st, false) := by
          unfold markWithIntentStep
          rw [if_neg (by simp [hx])]
        rw [hstep] at h
        obtain ⟨j, hj, hint⟩ := ih st h
        exact ⟨j, List.mem_cons_of_mem x hj, hint⟩

/-- The folded state of the first marking pass does not depend on the
incoming flag. -/
theorem markWithIntentStep_fold_state (I : ConfigurationUnitIntent) (sp : Bool) :
    ∀ (t : List Nat) (st : EngineState) (b : Bool),
      (t.foldl (markWithIntentStep I sp) (st, b)).1
        = (markRemainingWithIntent I sp st t).1 := by
  intro t
  induction t with
  | nil => intro st b; rfl
  | cons x r ih =>
      intro st b
      unfold markRemainingWithIntent
      rw [List.foldl_cons, List.foldl_cons]
      unfold markWithIntentStep
      dsimp only
      cases hg : ((getUnitInfo st x).unit.intent == I) with
      | true => rfl
      | false =>
          rw [if_neg Bool.false_ne_true, if_neg Bool.false_ne_true]
          exact (ih st b).trans (ih st false).symm

/-! Units not in the candidate list are untouched by the marking passes. -/

theorem getUnitInfo_markRemainingWithIntent_notmem (I : ConfigurationUnitIntent)
    (sp : Bool) :
    ∀ (cands : List Nat) (st : EngineState) (j : Nat), j ∉ cands →
      getUnitInfo (markRemainingWithIntent I sp st cands).1 j = getUnitInfo st j := by
  intro cands
  induction cands with
  | nil => intro st j _; rfl
  | cons x t ih =>
      intro st j hj
      have hjx : j ≠ x := fun h => hj (h ▸ List.mem_cons_self x t)
      have hjt : j ∉ t := fun h => hj (List.mem_cons_of_mem x h)
      unfold markRemainingWithIntent
      rw [List.foldl_cons]
      rcases hstep : markWithIntentStep I sp (st, false) x with ⟨st1, b1⟩
      have hget : getUnitInfo st1 j = getUnitInfo st j := by
        unfold markWithIntentStep at hstep
        split at hstep
        · split at hstep
          · cases hstep
            rw [getUnitInfo_sendUnitProgress_ne _ _ (fun h => hjx h.symm),
              getUnitInfo_setUnitResultCode_ne st _ _ (fun h => hjx h.symm)]
          · cases hstep
            exact getUnitInfo_setUnitResultCode_ne st _ _ (fun h => hjx h.symm)
        · cases hstep; rfl
      rw [markWithIntentStep_fold_state I sp t st1 b1, ih st1 j hjt, hget]

theorem getUnitInfo_markRemainingOtherIntents_notmem (I : ConfigurationUnitIntent)
    (e : HResult) (sp : Bool) :
    ∀ (cands : List Nat) (st : EngineState) (j : Nat), j ∉ cands →
      getUnitInfo (markRemainingOtherIntents I e sp st cands) j = getUnitInfo st j := by
  intro cands
  induction cands with
  | nil => intro st j _; rfl
  | cons x t ih =>
      intro st j hj
      have hjx : j ≠ x := fun h => hj (h ▸ List.mem_cons_self x t)
      have hjt : j ∉ t := fun h => hj (List.mem_cons_of_mem x h)
      unfold markRemainingOtherIntents
      rw [List.foldl_cons]
      have hget : getUnitInfo (markOtherIntentsStep I e sp st x) j = getUnitInfo st j := by
        unfold markOtherIntentsStep
        split
        · rfl
        · split
          · rw [getUnitInfo_sendUnitProgress_ne _ _ (fun h => hjx h.symm),
              getUnitInfo_setUnitResultCode_ne st _ _ (fun h => hjx h.symm)]
          · exact getUnitInfo_setUnitResultCode_ne st _ _ (fun h => hjx h.symm)
      calc getUnitInfo (t.foldl (markOtherIntentsStep I e sp)
              (markOtherIntentsStep I e sp st x)) j
          = getUnitInfo (markOtherIntentsStep I e sp st x) j :=
            ih (markOtherIntentsStep I e sp st x) j hjt
        _ = getUnitInfo st j := hget

/-! Derived preservation facts for the marking passes. -/

theorem length_markRemainingWithIntent (I : ConfigurationUnitIntent) (sp : Bool)
    (st : EngineState) (cands : List Nat) :
    (markRemainingWithIntent I sp st cands).1.unitInfos.length = st.unitInfos.length :=
  markRemainingWithIntent_rel I sp (fun a b => b.unitInfos.length = a.unitInfos.length)
    (fun _ => rfl) (fun h1 h2 => h2.trans h1)
    (fun s i => by simp) (fun s st' i h => by simp [h]) st cands

theorem length_markRemainingOtherIntents (I : ConfigurationUnitIntent) (e : HResult)
    (sp : Bool) (st : EngineState) (cands : List Nat) :
    (markRemainingOtherIntents I e sp st cands).unitInfos.length = st.unitInfos.length :=
  markRemainingOtherIntents_rel I e sp (fun a b => b.unitInfos.length = a.unitInfos.length)
    (fun _ => rfl) (fun h1 h2 => h2.trans h1)
    (fun s i => by simp) (fun s st' i h => by simp [h]) st cands

theorem unit_markRemainingWithIntent (I : ConfigurationUnitIntent) (sp : Bool)
    (st : EngineState) (cands : List Nat) (j : Nat) :
    (getUnitInfo (markRemainingWithIntent I sp st cands).1 j).unit
      = (getUnitInfo st j).unit :=
  markRemainingWithIntent_rel I sp
    (fun a b => ∀ k, (getUnitInfo b k).unit = (getUnitInfo a k).unit)
    (fun _ _ => rfl) (fun h1 h2 k => (h2 k).trans (h1 k))
    (fun s i k => unit_setUnitResultCode s i _ _ k)
    (fun s st' i h k => (unit_sendUnitProgress st' _ i k).trans (h k)) st cands j

theorem unit_markRemainingOtherIntents (I : ConfigurationUnitIntent) (e : HResult)
    (sp : Bool) (st : EngineState) (cands : List Nat) (j : Nat) :
    (getUnitInfo (markRemainingOtherIntents I e sp st cands) j).unit
      = (getUnitInfo st j).unit :=
  markRemainingOtherIntents_rel I e sp
    (fun a b => ∀ k, (getUnitInfo b k).unit = (getUnitInfo a k).unit)
    (fun _ _ => rfl) (fun h1 h2 k => (h2 k).trans (h1 k))
    (fun s i k => unit_setUnitResultCode s i _ _ k)
    (fun s st' i h k => (unit_sendUnitProgress st' _ i k).trans (h k)) st cands j

theorem preProcessed_markRemainingWithIntent (I : ConfigurationUnitIntent) (sp : Bool)
    (st : EngineState) (cands : List Nat) (j : Nat) :
    (getUnitInfo (markRemainingWithIntent I sp st cands).1 j).preProcessed
      = (getUnitInfo st j).preProcessed :=
  markRemainingWithIntent_rel I sp
    (fun a b => ∀ k, (getUnitInfo b k).preProcessed = (getUnitInfo a k).preProcessed)
    (fun _ _ => rfl) (fun h1 h2 k => (h2 k).trans (h1 k))
    (fun s i k => preProcessed_setUnitResultCode s i _ _ k)
    (fun s st' i h k => (preProcessed_sendUnitProgress st' _ i k).trans (h k)) st cands j

theorem preProcessed_markRemainingOtherIntents (I : ConfigurationUnitIntent) (e : HResult)
    (sp : Bool) (st : EngineState) (cands : List Nat) (j : Nat) :
    (getUnitInfo (markRemainingOtherIntents I e sp st cands) j).preProcessed
      = (getUnitInfo st j).preProcessed :=
  markRemainingOtherIntents_rel I e sp
    (fun a b => ∀ k, (getUnitInfo b k).preProcessed = (getUnitInfo a k).preProcessed)
    (fun _ _ => rfl) (fun h1 h2 k => (h2 k).trans (h1 k))
    (fun s i k => preProcessed_setUnitResultCode s i _ _ k)
    (fun s st' i h k => (preProcessed_sendUnitProgress st' _ i k).trans (h k)) st cands j

theorem dib_markRemainingWithIntent (I : ConfigurationUnitIntent) (sp : Bool)
    (st : EngineState) (cands : List Nat) :
    (markRemainingWithIntent I sp st cands).1.defaultIntentBranch
      = st.defaultIntentBranch :=
  markRemainingWithIntent_rel I sp (fun a b => b.defaultIntentBranch = a.defaultIntentBranch)
    (fun _ => rfl) (fun h1 h2 => h2.trans h1)
    (fun s i => by simp) (fun s st' i h => by simp [h]) st cands

theorem dib_markRemainingOtherIntents (I : ConfigurationUnitIntent) (e : HResult)
    (sp : Bool) (st : EngineState) (cands : List Nat) :
    (markRemainingOtherIntents I e sp st cands).defaultIntentBranch
      = st.defaultIntentBranch :=
  markRemainingOtherIntents_rel I e sp
    (fun a b => b.defaultIntentBranch = a.defaultIntentBranch)
    (fun _ => rfl) (fun h1 h2 => h2.trans h1)
    (fun s i => by simp) (fun s st' i h => by simp [h]) st cands

theorem markedSkippedWith_of_mark (st : EngineState) (e : HResult) {j : Nat}
    (hlen : j < st.unitInfos.length) :
    MarkedSkippedWith
      (sendUnitProgress (setUnitResultCode st j e ConfigurationUnitResultSource.precondition)
        ConfigurationUnitState.skipped j) j e := by
  have hlen2 : j < (setUnitResultCode st j e
      ConfigurationUnitResultSource.precondition).unitInfos.length := by simpa using hlen
  have h2 := getUnitInfo_sendUnitProgress_self
    (setUnitResultCode st j e ConfigurationUnitResultSource.precondition)
    ConfigurationUnitState.skipped hlen2
  have h1 := getUnitInfo_setUnitResultCode_self st e
    ConfigurationUnitResultSource.precondition hlen
  refine ⟨?_, ?_, ?_, ?_⟩
  · rw [h2, h1]
  · rw [h2, h1]
  · rw [h2]
  · simp

theorem markedSkippedWith_sendUnitProgress (st : EngineState) {j : Nat} {e : HResult}
    (h : MarkedSkippedWith st j e) (s : ConfigurationUnitState) (i : Nat)
    (hne : i ≠ j ∨ s = ConfigurationUnitState.skipped) :
    MarkedSkippedWith (sendUnitProgress st s i) j e := by
  rcases hne with hne | rfl
  · refine ⟨?_, ?_, ?_, ?_⟩
    · rw [getUnitInfo_sendUnitProgress_ne st s hne]; exact h.1
    · rw [getUnitInfo_sendUnitProgress_ne st s hne]; exact h.2.1
    · rw [getUnitInfo_sendUnitProgress_ne st s hne]; exact h.2.2.1
    · exact List.mem_append_left _ h.2.2.2
  · by_cases hij : i = j
    · subst hij
      refine ⟨?_, ?_, ?_, ?_⟩
      · rw [getUnitInfo_sendUnitProgress,
          obs_getUnitInfo_updateUnitInfo (fun u => u.resultInformation) st i i
            (fun u => { u with state := ConfigurationUnitState.skipped }) (fun u => rfl)]
        exact h.1
      · rw [getUnitInfo_sendUnitProgress,
          obs_getUnitInfo_updateUnitInfo (fun u => u.resultInformation) st i i
            (fun u => { u with state := ConfigurationUnitState.skipped }) (fun u => rfl)]
        exact h.2.1
      · rcases state_sendUnitProgress_self_or st ConfigurationUnitState.skipped i with
          hs | hs
        · exact hs
        · rw [hs]; exact h.2.2.1
      · exact List.mem_append_left _ h.2.2.2
    · refine ⟨?_, ?_, ?_, ?_⟩
      · rw [getUnitInfo_sendUnitProgress_ne st _ hij]; exact h.1
      · rw [getUnitInfo_sendUnitProgress_ne st _ hij]; exact h.2.1
      · rw [getUnitInfo_sendUnitProgress_ne st _ hij]; exact h.2.2.1
      · exact List.mem_append_left _ h.2.2.2

theorem markedSkippedWith_setUnitResultCode (st : EngineState) {j : Nat} {e : HResult}
    (h : MarkedSkippedWith st j e) (i : Nat) (hr : HResult)
    (src : ConfigurationUnitResultSource)
    (hne : i ≠ j ∨ (hr = e ∧ src = ConfigurationUnitResultSource.precondition)) :
    MarkedSkippedWith (setUnitResultCode st i hr src) j e := by
  rcases hne with hne | ⟨rfl, rfl⟩
  · refine ⟨?_, ?_, ?_, ?_⟩
    · rw [getUnitInfo_setUnitResultCode_ne st _ _ hne]; exact h.1
    · rw [getUnitInfo_setUnitResultCode_ne st _ _ hne]; exact h.2.1
    · rw [getUnitInfo_setUnitResultCode_ne st _ _ hne]; exact h.2.2.1
    · exact h.2.2.2
  · by_cases hij : i = j
    · subst hij
      refine ⟨?_, ?_, ?_, ?_⟩
      · rw [getUnitInfo_setUnitResultCode, getUnitInfo_updateUnitInfo]
        split
        · rfl
        · exact h.1
      · rw [getUnitInfo_setUnitResultCode, getUnitInfo_updateUnitInfo]
        split
        · rfl
        · exact h.2.1
      · rw [state_setUnitResultCode]; exact h.2.2.1
      · exact h.2.2.2
    · refine ⟨?_, ?_, ?_, ?_⟩
      · rw [getUnitInfo_setUnitResultCode_ne st _ _ hij]; exact h.1
      · rw [getUnitInfo_setUnitResultCode_ne st _ _ hij]; exact h.2.1
      · rw [getUnitInfo_setUnitResultCode_ne st _ _ hij]; exact h.2.2.1
      · exact h.2.2.2

/-- Once marked-and-skipped with the pass error code, a unit with a
different intent stays so through the rest of the second marking pass. -/
theorem mark2_stable (I : ConfigurationUnitIntent) (e : HResult) :
    ∀ (cands : List Nat) (st : EngineState) (j : Nat),
      (getUnitInfo st j).unit.intent ≠ I →
      MarkedSkippedWith st j e →
      MarkedSkippedWith (markRemainingOtherIntents I e true st cands) j e := by
  intro cands
  induction cands with
  | nil => intro st j _ h; exact h
  | cons x t ih =>
      intro st j hint h
      unfold markRemainingOtherIntents
      rw [List.foldl_cons]
      have hstep : MarkedSkippedWith (markOtherIntentsStep I e true st x) j e := by
        unfold markOtherIntentsStep
        split
        · exact h
        · rw [if_pos rfl]
          by_cases hxj : x = j
          · subst hxj
            exact markedSkippedWith_sendUnitProgress _
              (markedSkippedWith_setUnitResultCode st h x e
                ConfigurationUnitResultSource.precondition (Or.inr ⟨rfl, rfl⟩))
              _ x (Or.inr rfl)
          · exact markedSkippedWith_sendUnitProgress _
              (markedSkippedWith_setUnitResultCode st h x e
                ConfigurationUnitResultSource.precondition (Or.inl hxj))
              _ x (Or.inl hxj)
      have hint2 : (getUnitInfo (markOtherIntentsStep I e true st x) j).unit.intent ≠ I := by
        have : (getUnitInfo (markOtherIntentsStep I e true st x) j).unit
            = (getUnitInfo st j).unit := by
          unfold markOtherIntentsStep
          split
          · rfl
          · rw [if_pos rfl, unit_sendUnitProgress, unit_setUnitResultCode]
        rw [this]
        exact hint
      exact ih (markOtherIntentsStep I e true st x) j hint2 hstep

/-- The second marking pass marks every candidate whose intent differs
from the phase intent with `(e, Precondition)` and a `Skipped` event. -/
theorem mark2_marks (I : ConfigurationUnitIntent) (e : HResult) :
    ∀ (cands : List Nat) (st : EngineState) (j : Nat),
      j ∈ cands → j < st.unitInfos.length →
      (getUnitInfo st j).unit.intent ≠ I →
      MarkedSkippedWith (markRemainingOtherIntents I e true st cands) j e := by
  intro cands
  induction cands with
  | nil => intro st j hj _ _; cases hj
  | cons x t ih =>
      intro st j hj hlen hint
      unfold markRemainingOtherIntents
      rw [List.foldl_cons]
      by_cases hxj : x = j
      · subst hxj
        have hstep : markOtherIntentsStep I e true st x
            = sendUnitProgress (setUnitResultCode st x e
                ConfigurationUnitResultSource.precondition)
              ConfigurationUnitState.skipped x := by
          unfold markOtherIntentsStep
          rw [if_neg (by simp [hint]), if_pos rfl]
        rw [hstep]
        have hms := markedSkippedWith_of_mark st e hlen
        have hint2 : (getUnitInfo (sendUnitProgress (setUnitResultCode st x e
            ConfigurationUnitResultSource.precondition)
            ConfigurationUnitState.skipped x) x).unit.intent ≠ I := by
          rw [unit_sendUnitProgress, unit_setUnitResultCode]
          exact hint
        exact mark2_stable I e t _ x hint2 hms
      · rcases List.mem_cons.1 hj with hj' | hj'
        · exact absurd hj'.symm hxj
        · have hunit : (getUnitInfo (markOtherIntentsStep I e true st x) j).unit
              = (getUnitInfo st j).unit := by
            unfold markOtherIntentsStep
            split
            · rfl
            · split
              · rw [unit_sendUnitProgress, unit_setUnitResultCode]
              · rw [unit_setUnitResultCode]
          have hlen2 : j < (markOtherIntentsStep I e true st x).unitInfos.length := by
            have : (markOtherIntentsStep I e true st x).unitInfos.length
                = st.unitInfos.length := by
              unfold markOtherIntentsStep
              split
              · rfl
              · split <;> simp
            rw [this]
            exact hlen
          exact ih (markOtherIntentsStep I e true st x) j hj' hlen2 (hunit ▸ hint)

/-- Once marked-and-skipped with `DependencyUnsatisfied`, a unit stays so
through the rest of the first marking pass. -/
theorem mark1_stable (I : ConfigurationUnitIntent) :
    ∀ (cands : List Nat) (st : EngineState) (j : Nat),
      MarkedSkippedWith st j WINGET_CONFIG_ERROR_DEPENDENCY_UNSATISFIED →
      MarkedSkippedWith (markRemainingWithIntent I true st cands).1 j
        WINGET_CONFIG_ERROR_DEPENDENCY_UNSATISFIED := by
  intro cands
  induction cands with
  | nil => intro st j h; exact h
  | cons x t ih =>
      intro st j h
      unfold markRemainingWithIntent
      rw [List.foldl_cons]
      rcases hstep : markWithIntentStep I true (st, false) x with ⟨st1, b1⟩
      have h1 : MarkedSkippedWith st1 j WINGET_CONFIG_ERROR_DEPENDENCY_UNSATISFIED := by
        unfold markWithIntentStep at hstep
        dsimp only at hstep
        rw [if_pos (rfl : (true : Bool) = true)] at hstep
        split at hstep
        · cases hstep
          by_cases hxj : x = j
          · subst hxj
            exact markedSkippedWith_sendUnitProgress _
              (markedSkippedWith_setUnitResultCode st h x _ _ (Or.inr ⟨rfl, rfl⟩))
              _ x (Or.inr rfl)
          · exact markedSkippedWith_sendUnitProgress _
              (markedSkippedWith_setUnitResultCode st h x _ _ (Or.inl hxj))
              _ x (Or.inl hxj)
        · cases hstep; exact h
      rw [markWithIntentStep_fold_state I true t st1 b1]
      exact ih st1 j h1

/-- The first marking pass marks every candidate with the phase intent
with `(DependencyUnsatisfied, Precondition)` and a `Skipped` event. -/
theorem mark1_marks (I : ConfigurationUnitIntent) :
    ∀ (cands : List Nat) (st : EngineState) (j : Nat),
      j ∈ cands → j < st.unitInfos.length →
      (getUnitInfo st j).unit.intent = I →
      MarkedSkippedWith (markRemainingWithIntent I true st cands).1 j
        WINGET_CONFIG_ERROR_DEPENDENCY_UNSATISFIED := by
  intro cands
  induction cands with
  | nil => intro st j hj _ _; cases hj
  | cons x t ih =>
      intro st j hj hlen hint
      unfold markRemainingWithIntent
      rw [List.foldl_cons]
      by_cases hxj : x = j
      · subst hxj
        have hstep : markWithIntentStep I true (st, false) x
            = (sendUnitProgress (setUnitResultCode st x
                WINGET_CONFIG_ERROR_DEPENDENCY_UNSATISFIED
                ConfigurationUnitResultSource.precondition)
              ConfigurationUnitState.skipped x, true) := by
          unfold markWithIntentStep
          dsimp only
          rw [if_pos (by simp [hint] : ((getUnitInfo st x).unit.intent == I) = true),
            if_pos (rfl : (true : Bool) = true)]
        rw [hstep, markWithIntentStep_fold_state I true t _ true]
        exact mark1_stable I t _ x (markedSkippedWith_of_mark st _ hlen)
      · rcases List.mem_cons.1 hj with hj' | hj'
        · exact absurd hj'.symm hxj
        · rcases hstep : markWithIntentStep I true (st, false) x with ⟨st1, b1⟩
          have hfacts : getUnitInfo st1 j = getUnitInfo st j ∧
              st1.unitInfos.length = st.unitInfos.length := by
            unfold markWithIntentStep at hstep
            dsimp only at hstep
            rw [if_pos (rfl : (true : Bool) = true)] at hstep
            split at hstep
            · cases hstep
              constructor
              · rw [getUnitInfo_sendUnitProgress_ne _ _ hxj,
                  getUnitInfo_setUnitResultCode_ne st _ _ hxj]
              · simp
            · cases hstep; exact ⟨rfl, rfl⟩
          rw [markWithIntentStep_fold_state I true t st1 b1]
          exact ih st1 j hj' (hfacts.2 ▸ hlen) (by rw [hfacts.1]; exact hint)

/-! ### Phase-level lemmas (`ProcessIntentInternal`) -/

theorem ProcessIntentInternal_inv (pf : EngineState → Nat → EngineState × Bool)
    (cd : UnitInfo → Bool) (I : ConfigurationUnitIntent) (e1 e2 : HResult) (sp : Bool)
    (Φ : UnitInfo → Prop)
    (hlen : ∀ st c, ((pf st c).1).unitInfos.length = st.unitInfos.length)
    (hne : ∀ st (c j : Nat), c ≠ j → getUnitInfo (pf st c).1 j = getUnitInfo st j)
    (hself : ∀ st c, c < st.unitInfos.length → Φ (getUnitInfo (pf st c).1 c))
    (st : EngineState) (cands : List Nat)
    (hb : ∀ j ∈ cands, j < st.unitInfos.length)
    (hnotin : ∀ j, j < st.unitInfos.length → j ∉ cands → Φ (getUnitInfo st j)) :
    (ProcessIntentInternal pf cd I e1 e2 sp st cands).1.unitInfos.length
        = st.unitInfos.length ∧
    (ProcessIntentInternal pf cd I e1 e2 sp st cands).2.1.Sublist cands ∧
    (∀ j, j < st.unitInfos.length →
      j ∉ (ProcessIntentInternal pf cd I e1 e2 sp st cands).2.1 →
      Φ (getUnitInfo (ProcessIntentInternal pf cd I e1 e2 sp st cands).1 j)) ∧
    ((ProcessIntentInternal pf cd I e1 e2 sp st cands).2.2 = true →
      ∀ j ∈ (ProcessIntentInternal pf cd I e1 e2 sp st cands).2.1,
        (getUnitInfo (ProcessIntentInternal pf cd I e1 e2 sp st cands).1 j).unit.intent
          ≠ I) := by
  unfold ProcessIntentInternal
  dsimp only
  have hloop := schedulerLoop_inv pf cd I Φ hlen hne hself cands.length st cands false hb
    hnotin
  have hlooplen := schedulerLoop_length pf cd I hlen cands.length st cands false
  have hloopsub := schedulerLoop_sublist pf cd I cands.length st cands false
  rcases hL : schedulerLoop pf cd I cands.length st cands false with ⟨stL, candsL, hF⟩
  rw [hL] at hloop hlooplen hloopsub
  dsimp only at hloop hlooplen hloopsub ⊢
  rcases hM : markRemainingWithIntent I sp stL candsL with ⟨stM, hR⟩
  dsimp only
  by_cases hcond : (hF || hR) = true
  · rw [if_pos hcond]
    dsimp only
    constructor
    · split <;>
        simp [length_markRemainingOtherIntents,
          show stM = (markRemainingWithIntent I sp stL candsL).1 by rw [hM],
          length_markRemainingWithIntent, hlooplen]
    constructor
    · exact hloopsub
    constructor
    · intro j hjlen hj
      have hΦL : Φ (getUnitInfo stL j) := hloop.2 j hjlen hj
      have hstM : getUnitInfo stM j = getUnitInfo stL j := by
        rw [show stM = (markRemainingWithIntent I sp stL candsL).1 by rw [hM]]
        exact getUnitInfo_markRemainingWithIntent_notmem I sp candsL stL j hj
      have hstO : getUnitInfo (markRemainingOtherIntents I e1 sp stM candsL) j
          = getUnitInfo stM j :=
        getUnitInfo_markRemainingOtherIntents_notmem I e1 sp candsL stM j hj
      split
      · show Φ (getUnitInfo { markRemainingOtherIntents I e1 sp stM candsL
          with resultCode := e2 } j)
        show Φ (getUnitInfo (markRemainingOtherIntents I e1 sp stM candsL) j)
        rw [hstO, hstM]
        exact hΦL
      · show Φ (getUnitInfo { markRemainingOtherIntents I e1 sp stM candsL
          with resultCode := WINGET_CONFIG_ERROR_DEPENDENCY_UNSATISFIED } j)
        show Φ (getUnitInfo (markRemainingOtherIntents I e1 sp stM candsL) j)
        rw [hstO, hstM]
        exact hΦL
    · intro hfalse
      exact absurd hfalse Bool.false_ne_true
  · rw [if_neg hcond]
    dsimp only
    have hRfalse : hR = false := by
      rcases Bool.eq_false_or_eq_true hR with h | h
      · exfalso; apply hcond; simp [h]
      · exact h
    have hMfact := markRemainingWithIntent_false I sp candsL stL (by rw [hM, hRfalse])
    have hstM : stM = stL := by
      have : (markRemainingWithIntent I sp stL candsL).1 = stL := hMfact.1
      rw [hM] at this
      exact this
    constructor
    · rw [hstM]; exact hlooplen
    constructor
    · exact hloopsub
    constructor
    · intro j hjlen hj
      rw [hstM]
      exact hloop.2 j hjlen hj
    · intro _ j hj
      rw [hstM]
      exact hMfact.2 j hj

theorem mark2_skipped_stable (I : ConfigurationUnitIntent) (e : HResult) :
    ∀ (cands : List Nat) (st : EngineState) (j : Nat),
      (getUnitInfo st j).state = ConfigurationUnitState.skipped →
      (getUnitInfo (markRemainingOtherIntents I e true st cands) j).state
        = ConfigurationUnitState.skipped := by
  intro cands
  induction cands with
  | nil => intro st j h; exact h
  | cons x t ih =>
      intro st j h
      unfold markRemainingOtherIntents
      rw [List.foldl_cons]
      have h1 : (getUnitInfo (markOtherIntentsStep I e true st x) j).state
          = ConfigurationUnitState.skipped := by
        unfold markOtherIntentsStep
        split
        · exact h
        · rw [if_pos rfl]
          by_cases hxj : x = j
          · subst hxj
            rcases state_sendUnitProgress_self_or
                (setUnitResultCode st x e ConfigurationUnitResultSource.precondition)
                ConfigurationUnitState.skipped x with hs | hs
            · exact hs
            · rw [hs, state_setUnitResultCode]
              exact h
          · rw [getUnitInfo_sendUnitProgress_ne _ _ hxj,
              getUnitInfo_setUnitResultCode_ne st _ _ hxj]
            exact h
      exact ih (markOtherIntentsStep I e true st x) j h1

/-- When a phase with progress enabled fails, every remaining candidate
ends in state `Skipped`. -/
theorem ProcessIntentInternal_fail_skipped (pf : EngineState → Nat → EngineState × Bool)
    (cd : UnitInfo → Bool) (I : ConfigurationUnitIntent) (e1 e2 : HResult)
    (hlen : ∀ st c, ((pf st c).1).unitInfos.length = st.unitInfos.length)
    (st : EngineState) (cands : List Nat)
    (hb : ∀ j ∈ cands, j < st.unitInfos.length) :
    (ProcessIntentInternal pf cd I e1 e2 true st cands).2.2 = false →
    ∀ j ∈ (ProcessIntentInternal pf cd I e1 e2 true st cands).2.1,
      (getUnitInfo (ProcessIntentInternal pf cd I e1 e2 true st cands).1 j).state
        = ConfigurationUnitState.skipped := by
  unfold ProcessIntentInternal
  dsimp only
  have hlooplen := schedulerLoop_length pf cd I hlen cands.length st cands false
  have hloopsub := schedulerLoop_sublist pf cd I cands.length st cands false
  rcases hL : schedulerLoop pf cd I cands.length st cands false with ⟨stL, candsL, hF⟩
  rw [hL] at hlooplen hloopsub
  dsimp only at hlooplen hloopsub ⊢
  rcases hM : markRemainingWithIntent I true stL candsL with ⟨stM, hR⟩
  dsimp only
  by_cases hcond : (hF || hR) = true
  · rw [if_pos hcond]
    dsimp only
    intro _ j hj
    have hjlen : j < stL.unitInfos.length := by
      rw [hlooplen]
      exact hb j (hloopsub.mem hj)
    have hstM : stM = (markRemainingWithIntent I true stL candsL).1 := by rw [hM]
    have hskipM : (getUnitInfo stM j).state = ConfigurationUnitState.skipped ∨
        ((getUnitInfo stM j).unit.intent ≠ I ∧
          j < stM.unitInfos.length) := by
      by_cases hint : (getUnitInfo stL j).unit.intent = I
      · left
        rw [hstM]
        exact (mark1_marks I candsL stL j hj hjlen hint).2.2.1
      · right
        constructor
        · rw [hstM, unit_markRemainingWithIntent]
          exact hint
        · rw [hstM, length_markRemainingWithIntent]
          exact hjlen
    have hfinal : (getUnitInfo (markRemainingOtherIntents I e1 true stM candsL) j).state
        = ConfigurationUnitState.skipped := by
      rcases hskipM with hs | ⟨hint, hjlen2⟩
      · exact mark2_skipped_stable I e1 candsL stM j hs
      · exact (mark2_marks I e1 candsL stM j hj hjlen2 hint).2.2.1
    split
    · show (getUnitInfo { markRemainingOtherIntents I e1 true stM candsL
        with resultCode := e2 } j).state = ConfigurationUnitState.skipped
      show (getUnitInfo (markRemainingOtherIntents I e1 true stM candsL) j).state
        = ConfigurationUnitState.skipped
      exact hfinal
    · show (getUnitInfo { markRemainingOtherIntents I e1 true stM candsL
        with resultCode := WINGET_CONFIG_ERROR_DEPENDENCY_UNSATISFIED } j).state
        = ConfigurationUnitState.skipped
      show (getUnitInfo (markRemainingOtherIntents I e1 true stM candsL) j).state
        = ConfigurationUnitState.skipped
      exact hfinal
  · rw [if_neg hcond]
    dsimp only
    intro hfalse
    exact absurd hfalse (by decide)

theorem ProcessIntentInternal_dib (pf : EngineState → Nat → EngineState × Bool)
    (cd : UnitInfo → Bool) (I : ConfigurationUnitIntent) (e1 e2 : HResult) (sp : Bool)
    (hdib : ∀ st c, HasIntentAndSatisfiedDependencies st c I cd = true →
      (pf st c).1.defaultIntentBranch = st.defaultIntentBranch)
    (st : EngineState) (cands : List Nat) :
    (ProcessIntentInternal pf cd I e1 e2 sp st cands).1.defaultIntentBranch
      = st.defaultIntentBranch := by
  unfold ProcessIntentInternal
  dsimp only
  have hloop := schedulerLoop_dib pf cd I hdib cands.length st cands false
  rcases hL : schedulerLoop pf cd I cands.length st cands false with ⟨stL, candsL, hF⟩
  rw [hL] at hloop
  dsimp only at hloop ⊢
  rcases hM : markRemainingWithIntent I sp stL candsL with ⟨stM, hR⟩
  dsimp only
  have hstM : stM.defaultIntentBranch = stL.defaultIntentBranch := by
    rw [show stM = (markRemainingWithIntent I sp stL candsL).1 by rw [hM]]
    exact dib_markRemainingWithIntent I sp stL candsL
  split
  · dsimp only
    split
    · show (markRemainingOtherIntents I e1 sp stM candsL).defaultIntentBranch = _
      rw [dib_markRemainingOtherIntents, hstM, hloop]
    · show (markRemainingOtherIntents I e1 sp stM candsL).defaultIntentBranch = _
      rw [dib_markRemainingOtherIntents, hstM, hloop]
  · dsimp only
    rw [hstM, hloop]

theorem ProcessIntentInternal_unit (pf : EngineState → Nat → EngineState × Bool)
    (cd : UnitInfo → Bool) (I : ConfigurationUnitIntent) (e1 e2 : HResult) (sp : Bool)
    (hu : ∀ st (c j : Nat), (getUnitInfo (pf st c).1 j).unit = (getUnitInfo st j).unit)
    (st : EngineState) (cands : List Nat) (j : Nat) :
    (getUnitInfo (ProcessIntentInternal pf cd I e1 e2 sp st cands).1 j).unit
      = (getUnitInfo st j).unit := by
  unfold ProcessIntentInternal
  dsimp only
  have hloop := schedulerLoop_rel pf cd I
    (fun a b => ∀ k, (getUnitInfo b k).unit = (getUnitInfo a k).unit)
    (fun _ _ => rfl) (fun h1 h2 k => (h2 k).trans (h1 k))
    (fun s c k => hu s c k) cands.length st cands false
  rcases hL : schedulerLoop pf cd I cands.length st cands false with ⟨stL, candsL, hF⟩
  rw [hL] at hloop
  dsimp only at hloop ⊢
  rcases hM : markRemainingWithIntent I sp stL candsL with ⟨stM, hR⟩
  dsimp only
  have hstM : ∀ k, (getUnitInfo stM k).unit = (getUnitInfo stL k).unit := by
    intro k
    rw [show stM = (markRemainingWithIntent I sp stL candsL).1 by rw [hM]]
    exact unit_markRemainingWithIntent I sp stL candsL k
  split
  · dsimp only
    split
    · show (getUnitInfo (markRemainingOtherIntents I e1 sp stM candsL) j).unit = _
      rw [unit_markRemainingOtherIntents, hstM, hloop]
    · show (getUnitInfo (markRemainingOtherIntents I e1 sp stM candsL) j).unit = _
      rw [unit_markRemainingOtherIntents, hstM, hloop]
  · dsimp only
    rw [hstM, hloop]

/-- If the dry run's phase fails, some candidate is left unpreprocessed in
the phase's final state (the dry-run action itself never fails). -/
theorem ProcessIntentInternal_dry_fail (cd : UnitInfo → Bool)
    (I : ConfigurationUnitIntent) (e1 e2 : HResult) (sp : Bool)
    (st : EngineState) (cands : List Nat)
    (hnd : cands.Nodup)
    (hnp : ∀ j ∈ cands, ¬ ((getUnitInfo st j).preProcessed = true))
    (hb : ∀ j ∈ cands, j < st.unitInfos.length) :
    (ProcessIntentInternal MarkPreprocessed cd I e1 e2 sp st cands).2.2 = false →
    ∃ j, j < st.unitInfos.length ∧
      (getUnitInfo (ProcessIntentInternal MarkPreprocessed cd I e1 e2 sp st cands).1
        j).preProcessed = false := by
  unfold ProcessIntentInternal
  dsimp only
  have hnofail := schedulerLoop_noFailure MarkPreprocessed cd I
    (fun _ _ => rfl) cands.length st cands
  have hcnot := schedulerLoop_cands_not MarkPreprocessed cd I
    (fun u => u.preProcessed = true)
    (fun s c j hcj => getUnitInfo_markUnitPreprocessed_ne s hcj)
    cands.length st cands false hnd hnp
  have hloopsub := schedulerLoop_sublist MarkPreprocessed cd I cands.length st cands false
  rcases hL : schedulerLoop MarkPreprocessed cd I cands.length st cands false
    with ⟨stL, candsL, hF⟩
  rw [hL] at hnofail hcnot hloopsub
  dsimp only at hnofail hcnot hloopsub ⊢
  subst hnofail
  rcases hM : markRemainingWithIntent I sp stL candsL with ⟨stM, hR⟩
  dsimp only
  by_cases hcond : (false || hR) = true
  · rw [if_pos hcond]
    dsimp only
    intro _
    have hRtrue : hR = true := by simpa using hcond
    obtain ⟨j, hj, _⟩ := markRemainingWithIntent_true I sp candsL stL (by rw [hM, hRtrue])
    refine ⟨j, hb j (hloopsub.mem hj), ?_⟩
    have h1 : (getUnitInfo stL j).preProcessed = false := by
      have := hcnot.2 j hj
      simpa using this
    have h2 : (getUnitInfo stM j).preProcessed = false := by
      rw [show stM = (markRemainingWithIntent I sp stL candsL).1 by rw [hM],
        preProcessed_markRemainingWithIntent]
      exact h1
    split
    · show (getUnitInfo (markRemainingOtherIntents I e1 sp stM candsL) j).preProcessed
        = false
      rw [preProcessed_markRemainingOtherIntents]
      exact h2
    · show (getUnitInfo (markRemainingOtherIntents I e1 sp stM candsL) j).preProcessed
        = false
      rw [preProcessed_markRemainingOtherIntents]
      exact h2
  · rw [if_neg hcond]
    dsimp only
    intro hfalse
    exact absurd hfalse (by decide)

/-! ### `ProcessInternal`-level lemmas: chaining the three phases -/

theorem ProcessInternal_inv (cd : UnitInfo → Bool)
    (pf : EngineState → Nat → EngineState × Bool) (sp : Bool) (Φ : UnitInfo → Prop)
    (hlen : ∀ st c, ((pf st c).1).unitInfos.length = st.unitInfos.length)
    (hne : ∀ st (c j : Nat), c ≠ j → getUnitInfo (pf st c).1 j = getUnitInfo st j)
    (hself : ∀ st c, c < st.unitInfos.length → Φ (getUnitInfo (pf st c).1 c))
    (hu : ∀ st (c j : Nat), (getUnitInfo (pf st c).1 j).unit = (getUnitInfo st j).unit)
    (st : EngineState)
    (hwf : ∀ j, j < st.unitInfos.length →
      (getUnitInfo st j).unit.intent ≠ ConfigurationUnitIntent.unknownValue) :
    (ProcessInternal cd pf sp st).2 = true →
    ∀ j, j < st.unitInfos.length →
      Φ (getUnitInfo (ProcessInternal cd pf sp st).1 j) := by
  unfold ProcessInternal
  dsimp only
  have hb0 : ∀ j ∈ List.range st.unitInfos.length, j < st.unitInfos.length := by
    intro j hj
    exact List.mem_range.1 hj
  have hn0 : ∀ j, j < st.unitInfos.length → j ∉ List.range st.unitInfos.length →
      Φ (getUnitInfo st j) := by
    intro j hj hmem
    exact absurd (List.mem_range.2 hj) hmem
  have h1 := ProcessIntentInternal_inv pf cd ConfigurationUnitIntent.assert
    WINGET_CONFIG_ERROR_ASSERTION_FAILED WINGET_CONFIG_ERROR_ASSERTION_FAILED sp Φ
    hlen hne hself st (List.range st.unitInfos.length) hb0 hn0
  have hu1 := ProcessIntentInternal_unit pf cd ConfigurationUnitIntent.assert
    WINGET_CONFIG_ERROR_ASSERTION_FAILED WINGET_CONFIG_ERROR_ASSERTION_FAILED sp hu st
    (List.range st.unitInfos.length)
  rcases hP1 : ProcessIntentInternal pf cd ConfigurationUnitIntent.assert
      WINGET_CONFIG_ERROR_ASSERTION_FAILED WINGET_CONFIG_ERROR_ASSERTION_FAILED sp st
      (List.range st.unitInfos.length) with ⟨st1, cands1, ok1⟩
  rw [hP1] at h1 hu1
  dsimp only at h1 hu1 ⊢
  cases ok1 with
  | false => intro h; cases h
  | true =>
      rw [if_neg (by decide)]
      have hlen1 : st1.unitInfos.length = st.unitInfos.length := h1.1
      have hb1 : ∀ j ∈ cands1, j < st1.unitInfos.length := by
        intro j hj
        rw [hlen1]
        exact hb0 j (h1.2.1.mem hj)
      have hn1 : ∀ j, j < st1.unitInfos.length → j ∉ cands1 → Φ (getUnitInfo st1 j) := by
        intro j hj hmem
        exact h1.2.2.1 j (by rw [← hlen1]; exact hj) hmem
      have hna1 : ∀ j ∈ cands1,
          (getUnitInfo st1 j).unit.intent ≠ ConfigurationUnitIntent.assert :=
        h1.2.2.2 rfl
      have h2 := ProcessIntentInternal_inv pf cd ConfigurationUnitIntent.inform
        WINGET_CONFIG_ERROR_DEPENDENCY_UNSATISFIED
        WINGET_CONFIG_ERROR_DEPENDENCY_UNSATISFIED sp Φ
        hlen hne hself st1 cands1 hb1 hn1
      have hu2 := ProcessIntentInternal_unit pf cd ConfigurationUnitIntent.inform
        WINGET_CONFIG_ERROR_DEPENDENCY_UNSATISFIED
        WINGET_CONFIG_ERROR_DEPENDENCY_UNSATISFIED sp hu st1 cands1
      rcases hP2 : ProcessIntentInternal pf cd ConfigurationUnitIntent.inform
          WINGET_CONFIG_ERROR_DEPENDENCY_UNSATISFIED
          WINGET_CONFIG_ERROR_DEPENDENCY_UNSATISFIED sp st1 cands1
        with ⟨st2, cands2, ok2⟩
      rw [hP2] at h2 hu2
      dsimp only at h2 hu2 ⊢
      cases ok2 with
      | false => intro h; cases h
      | true =>
          rw [if_neg (by decide)]
          have hlen2 : st2.unitInfos.length = st1.unitInfos.length := h2.1
          have hb2 : ∀ j ∈ cands2, j < st2.unitInfos.length := by
            intro j hj
            rw [hlen2]
            exact hb1 j (h2.2.1.mem hj)
          have hn2 : ∀ j, j < st2.unitInfos.length → j ∉ cands2 →
              Φ (getUnitInfo st2 j) := by
            intro j hj hmem
            exact h2.2.2.1 j (by rw [← hlen2]; exact hj) hmem
          have hni2 : ∀ j ∈ cands2,
              (getUnitInfo st2 j).unit.intent ≠ ConfigurationUnitIntent.inform :=
            h2.2.2.2 rfl
          have hna2 : ∀ j ∈ cands2,
              (getUnitInfo st2 j).unit.intent ≠ ConfigurationUnitIntent.assert := by
            intro j hj
            rw [hu2 j]
            exact hna1 j (h2.2.1.mem hj)
          have h3 := ProcessIntentInternal_inv pf cd ConfigurationUnitIntent.apply
            E_FAIL WINGET_CONFIG_ERROR_SET_APPLY_FAILED sp Φ
            hlen hne hself st2 cands2 hb2 hn2
          have hu3 := ProcessIntentInternal_unit pf cd ConfigurationUnitIntent.apply
            E_FAIL WINGET_CONFIG_ERROR_SET_APPLY_FAILED sp hu st2 cands2
          rcases hP3 : ProcessIntentInternal pf cd ConfigurationUnitIntent.apply
              E_FAIL WINGET_CONFIG_ERROR_SET_APPLY_FAILED sp st2 cands2
            with ⟨st3, cands3, ok3⟩
          rw [hP3] at h3 hu3
          dsimp only at h3 hu3 ⊢
          intro hok3 j hj
          have hlen3 : st3.unitInfos.length = st2.unitInfos.length := h3.1
          by_cases hmem : j ∈ cands3
          · exfalso
            have hap : (getUnitInfo st3 j).unit.intent
                ≠ ConfigurationUnitIntent.apply := h3.2.2.2 hok3 j hmem
            have hin : (getUnitInfo st3 j).unit.intent
                ≠ ConfigurationUnitIntent.inform := by
              rw [hu3 j]
              exact hni2 j (h3.2.1.mem hmem)
            have has : (getUnitInfo st3 j).unit.intent
                ≠ ConfigurationUnitIntent.assert := by
              rw [hu3 j]
              exact hna2 j (h3.2.1.mem hmem)
            have hun : (getUnitInfo st3 j).unit.intent
                ≠ ConfigurationUnitIntent.unknownValue := by
              rw [hu3 j, hu2 j, hu1 j]
              exact hwf j hj
            cases hx : (getUnitInfo st3 j).unit.intent with
            | assert => exact has hx
            | inform => exact hin hx
            | apply => exact hap hx
            | unknownValue => exact hun hx
          · exact h3.2.2.1 j (by rw [hlen2, hlen1] at *; omega) hmem

/-- After the execution pass of `ProcessInternal` (with `ProcessUnit` and
progress enabled), every unit of a set whose intents are all declared
enumerators is in a terminal state, whether the pass succeeded or not. -/
theorem ProcessInternal_exec_terminal (cd : UnitInfo → Bool) (st : EngineState)
    (hwf : ∀ j, j < st.unitInfos.length →
      (getUnitInfo st j).unit.intent ≠ ConfigurationUnitIntent.unknownValue) :
    ∀ j, j < st.unitInfos.length →
      (getUnitInfo (ProcessInternal cd ProcessUnit true st).1 j).state
          = ConfigurationUnitState.completed ∨
        (getUnitInfo (ProcessInternal cd ProcessUnit true st).1 j).state
          = ConfigurationUnitState.skipped := by
  have hlen : ∀ st c, ((ProcessUnit st c).1).unitInfos.length = st.unitInfos.length :=
    fun st c => length_ProcessUnit st c
  have hne : ∀ st (c j : Nat), c ≠ j →
      getUnitInfo (ProcessUnit st c).1 j = getUnitInfo st j :=
    fun st c j h => getUnitInfo_ProcessUnit_ne st h
  have hself : ∀ st c, c < st.unitInfos.length →
      (getUnitInfo (ProcessUnit st c).1 c).state = ConfigurationUnitState.completed ∨
      (getUnitInfo (ProcessUnit st c).1 c).state = ConfigurationUnitState.skipped :=
    fun st c hc => state_ProcessUnit_terminal st hc
  have hu : ∀ st (c j : Nat),
      (getUnitInfo (ProcessUnit st c).1 j).unit = (getUnitInfo st j).unit :=
    fun st c j => unit_ProcessUnit st c j
  set Φ : UnitInfo → Prop := fun u =>
    u.state = ConfigurationUnitState.completed ∨
    u.state = ConfigurationUnitState.skipped with hΦ
  show ∀ j, j < st.unitInfos.length →
    Φ (getUnitInfo (ProcessInternal cd ProcessUnit true st).1 j)
  unfold ProcessInternal
  dsimp only
  have hb0 : ∀ j ∈ List.range st.unitInfos.length, j < st.unitInfos.length := by
    intro j hj
    exact List.mem_range.1 hj
  have hn0 : ∀ j, j < st.unitInfos.length → j ∉ List.range st.unitInfos.length →
      Φ (getUnitInfo st j) := by
    intro j hj hmem
    exact absurd (List.mem_range.2 hj) hmem
  have h1 := ProcessIntentInternal_inv ProcessUnit cd ConfigurationUnitIntent.assert
    WINGET_CONFIG_ERROR_ASSERTION_FAILED WINGET_CONFIG_ERROR_ASSERTION_FAILED true Φ
    hlen hne hself st (List.range st.unitInfos.length) hb0 hn0
  have hs1 := ProcessIntentInternal_fail_skipped ProcessUnit cd
    ConfigurationUnitIntent.assert WINGET_CONFIG_ERROR_ASSERTION_FAILED
    WINGET_CONFIG_ERROR_ASSERTION_FAILED hlen st (List.range st.unitInfos.length) hb0
  have hu1 := ProcessIntentInternal_unit ProcessUnit cd ConfigurationUnitIntent.assert
    WINGET_CONFIG_ERROR_ASSERTION_FAILED WINGET_CONFIG_ERROR_ASSERTION_FAILED true hu st
    (List.range st.unitInfos.length)
  rcases hP1 : ProcessIntentInternal ProcessUnit cd ConfigurationUnitIntent.assert
      WINGET_CONFIG_ERROR_ASSERTION_FAILED WINGET_CONFIG_ERROR_ASSERTION_FAILED true st
      (List.range st.unitInfos.length) with ⟨st1, cands1, ok1⟩
  rw [hP1] at h1 hs1 hu1
  dsimp only at h1 hs1 hu1 ⊢
  have hlen1 : st1.unitInfos.length = st.unitInfos.length := h1.1
  cases ok1 with
  | false =>
      rw [if_pos (by decide)]
      intro j hj
      by_cases hmem : j ∈ cands1
      · exact Or.inr (hs1 rfl j hmem)
      · exact h1.2.2.1 j hj hmem
  | true =>
      rw [if_neg (by decide)]
      have hb1 : ∀ j ∈ cands1, j < st1.unitInfos.length := by
        intro j hj
        rw [hlen1]
        exact hb0 j (h1.2.1.mem hj)
      have hn1 : ∀ j, j < st1.unitInfos.length → j ∉ cands1 → Φ (getUnitInfo st1 j) := by
        intro j hj hmem
        exact h1.2.2.1 j (by rw [← hlen1]; exact hj) hmem
      have hna1 : ∀ j ∈ cands1,
          (getUnitInfo st1 j).unit.intent ≠ ConfigurationUnitIntent.assert :=
        h1.2.2.2 rfl
      have h2 := ProcessIntentInternal_inv ProcessUnit cd ConfigurationUnitIntent.inform
        WINGET_CONFIG_ERROR_DEPENDENCY_UNSATISFIED
        WINGET_CONFIG_ERROR_DEPENDENCY_UNSATISFIED true Φ
        hlen hne hself st1 cands1 hb1 hn1
      have hs2 := ProcessIntentInternal_fail_skipped ProcessUnit cd
        ConfigurationUnitIntent.inform WINGET_CONFIG_ERROR_DEPENDENCY_UNSATISFIED
        WINGET_CONFIG_ERROR_DEPENDENCY_UNSATISFIED hlen st1 cands1 hb1
      have hu2 := ProcessIntentInternal_unit ProcessUnit cd ConfigurationUnitIntent.inform
        WINGET_CONFIG_ERROR_DEPENDENCY_UNSATISFIED
        WINGET_CONFIG_ERROR_DEPENDENCY_UNSATISFIED true hu st1 cands1
      rcases hP2 : ProcessIntentInternal ProcessUnit cd ConfigurationUnitIntent.inform
          WINGET_CONFIG_ERROR_DEPENDENCY_UNSATISFIED
          WINGET_CONFIG_ERROR_DEPENDENCY_UNSATISFIED true st1 cands1
        with ⟨st2, cands2, ok2⟩
      rw [hP2] at h2 hs2 hu2
      dsimp only at h2 hs2 hu2 ⊢
      have hlen2 : st2.unitInfos.length = st1.unitInfos.length := h2.1
      cases ok2 with
      | false =>
          rw [if_pos (by decide)]
          intro j hj
          by_cases hmem : j ∈ cands2
          · exact Or.inr (hs2 rfl j hmem)
          · exact h2.2.2.1 j (by omega) hmem
      | true =>
          rw [if_neg (by decide)]
          have hb2 : ∀ j ∈ cands2, j < st2.unitInfos.length := by
            intro j hj
            rw [hlen2]
            exact hb1 j (h2.2.1.mem hj)
          have hn2 : ∀ j, j < st2.unitInfos.length → j ∉ cands2 →
              Φ (getUnitInfo st2 j) := by
            intro j hj hmem
            exact h2.2.2.1 j (by rw [← hlen2]; exact hj) hmem
          have hni2 : ∀ j ∈ cands2,
              (getUnitInfo st2 j).unit.intent ≠ ConfigurationUnitIntent.inform :=
            h2.2.2.2 rfl
          have hna2 : ∀ j ∈ cands2,
              (getUnitInfo st2 j).unit.intent ≠ ConfigurationUnitIntent.assert := by
            intro j hj
            rw [hu2 j]
            exact hna1 j (h2.2.1.mem hj)
          have h3 := ProcessIntentInternal_inv ProcessUnit cd
            ConfigurationUnitIntent.apply
            E_FAIL WINGET_CONFIG_ERROR_SET_APPLY_FAILED true Φ
            hlen hne hself st2 cands2 hb2 hn2
          have hs3 := ProcessIntentInternal_fail_skipped ProcessUnit cd
            ConfigurationUnitIntent.apply E_FAIL WINGET_CONFIG_ERROR_SET_APPLY_FAILED
            hlen st2 cands2 hb2
          have hu3 := ProcessIntentInternal_unit ProcessUnit cd
            ConfigurationUnitIntent.apply
            E_FAIL WINGET_CONFIG_ERROR_SET_APPLY_FAILED true hu st2 cands2
          rcases hP3 : ProcessIntentInternal ProcessUnit cd
              ConfigurationUnitIntent.apply
              E_FAIL WINGET_CONFIG_ERROR_SET_APPLY_FAILED true st2 cands2
            with ⟨st3, cands3, ok3⟩
          rw [hP3] at h3 hs3 hu3
          dsimp only at h3 hs3 hu3 ⊢
          intro j hj
          have hlen3 : st3.unitInfos.length = st2.unitInfos.length := h3.1
          cases ok3 with
          | false =>
              by_cases hmem : j ∈ cands3
              · exact Or.inr (hs3 rfl j hmem)
              · exact h3.2.2.1 j (by omega) hmem
          | true =>
              by_cases hmem : j ∈ cands3
              · exfalso
                have hap : (getUnitInfo st3 j).unit.intent
                    ≠ ConfigurationUnitIntent.apply := h3.2.2.2 rfl j hmem
                have hin : (getUnitInfo st3 j).unit.intent
                    ≠ ConfigurationUnitIntent.inform := by
                  rw [hu3 j]
                  exact hni2 j (h3.2.1.mem hmem)
                have has : (getUnitInfo st3 j).unit.intent
                    ≠ ConfigurationUnitIntent.assert := by
                  rw [hu3 j]
                  exact hna2 j (h3.2.1.mem hmem)
                have hun : (getUnitInfo st3 j).unit.intent
                    ≠ ConfigurationUnitIntent.unknownValue := by
                  rw [hu3 j, hu2 j, hu1 j]
                  exact hwf j hj
                cases hx : (getUnitInfo st3 j).unit.intent with
                | assert => exact has hx
                | inform => exact hin hx
                | apply => exact hap hx
                | unknownValue => exact hun hx
              · exact h3.2.2.1 j (by omega) hmem

/-! ### Preservation facts for the validation passes -/

@[simp] theorem length_AddUnitToMap (st : EngineState) (i : Nat) :
    (AddUnitToMap st i).1.unitInfos.length = st.unitInfos.length := by
  unfold AddUnitToMap
  dsimp only
  repeat' split
  all_goals simp

@[simp] theorem preProcessed_sendUnitProgressIfNotComplete (st : EngineState)
    (s : ConfigurationUnitState) (i j : Nat) :
    (getUnitInfo (sendUnitProgressIfNotComplete st s i) j).preProcessed
      = (getUnitInfo st j).preProcessed := by
  unfold sendUnitProgressIfNotComplete
  split
  · exact preProcessed_sendUnitProgress st s i j
  · rfl

@[simp] theorem unit_AddUnitToMap (st : EngineState) (i j : Nat) :
    (getUnitInfo (AddUnitToMap st i).1 j).unit = (getUnitInfo st j).unit := by
  unfold AddUnitToMap
  dsimp only
  repeat' split
  all_goals first | rfl | simp

@[simp] theorem preProcessed_AddUnitToMap (st : EngineState) (i j : Nat) :
    (getUnitInfo (AddUnitToMap st i).1 j).preProcessed
      = (getUnitInfo st j).preProcessed := by
  unfold AddUnitToMap
  dsimp only
  repeat' split
  all_goals first | rfl | simp

@[simp] theorem dib_AddUnitToMap (st : EngineState) (i : Nat) :
    (AddUnitToMap st i).1.defaultIntentBranch = st.defaultIntentBranch := by
  unfold AddUnitToMap
  dsimp only
  repeat' split
  all_goals simp

theorem length_addAllUnits (st : EngineState) :
    (addAllUnits st).1.unitInfos.length = st.unitInfos.length := by
  unfold addAllUnits
  refine foldl_pair_rel (fun a b => b.unitInfos.length = a.unitInfos.length)
    (fun _ => rfl) (fun h1 h2 => h2.trans h1) ?_ _ (st, true)
  intro a i
  dsimp only
  simp

theorem unit_addAllUnits (st : EngineState) (j : Nat) :
    (getUnitInfo (addAllUnits st).1 j).unit = (getUnitInfo st j).unit := by
  unfold addAllUnits
  exact foldl_pair_rel (fun a b => ∀ k, (getUnitInfo b k).unit = (getUnitInfo a k).unit)
    (fun _ _ => rfl) (fun h1 h2 k => (h2 k).trans (h1 k))
    (fun a i k => by dsimp only; simp) _ (st, true) j

theorem preProcessed_addAllUnits (st : EngineState) (j : Nat) :
    (getUnitInfo (addAllUnits st).1 j).preProcessed
      = (getUnitInfo st j).preProcessed := by
  unfold addAllUnits
  exact foldl_pair_rel
    (fun a b => ∀ k, (getUnitInfo b k).preProcessed = (getUnitInfo a k).preProcessed)
    (fun _ _ => rfl) (fun h1 h2 k => (h2 k).trans (h1 k))
    (fun a i k => by dsimp only; simp) _ (st, true) j

theorem dib_addAllUnits (st : EngineState) :
    (addAllUnits st).1.defaultIntentBranch = st.defaultIntentBranch := by
  unfold addAllUnits
  exact foldl_pair_rel (fun a b => b.defaultIntentBranch = a.defaultIntentBranch)
    (fun _ => rfl) (fun h1 h2 => h2.trans h1)
    (fun a i => by dsimp only; simp) _ (st, true)

theorem length_resolveDepsLoop (i : Nat) :
    ∀ (deps : List String) (st : EngineState),
      (resolveDepsLoop i deps st).1.unitInfos.length = st.unitInfos.length := by
  intro deps
  induction deps with
  | nil => intro st; rfl
  | cons d rest ih =>
      intro st
      unfold resolveDepsLoop
      split
      · exact ih st
      · dsimp only
        split
        · simp
        · rw [ih]
          simp

theorem unit_resolveDepsLoop (i : Nat) :
    ∀ (deps : List String) (st : EngineState) (j : Nat),
      (getUnitInfo (resolveDepsLoop i deps st).1 j).unit = (getUnitInfo st j).unit := by
  intro deps
  induction deps with
  | nil => intro st j; rfl
  | cons d rest ih =>
      intro st j
      unfold resolveDepsLoop
      split
      · exact ih st j
      · dsimp only
        split
        · simp
        · rw [ih]
          simp [appendDependencyIndex, obs_getUnitInfo_updateUnitInfo UnitInfo.unit]

theorem preProcessed_resolveDepsLoop (i : Nat) :
    ∀ (deps : List String) (st : EngineState) (j : Nat),
      (getUnitInfo (resolveDepsLoop i deps st).1 j).preProcessed
        = (getUnitInfo st j).preProcessed := by
  intro deps
  induction deps with
  | nil => intro st j; rfl
  | cons d rest ih =>
      intro st j
      unfold resolveDepsLoop
      split
      · exact ih st j
      · dsimp only
        split
        · simp [setUnitDetails, preProcessed_sendUnitProgress,
            obs_getUnitInfo_updateUnitInfo UnitInfo.preProcessed,
            preProcessed_setUnitResultCode]
        · rw [ih]
          simp [appendDependencyIndex,
            obs_getUnitInfo_updateUnitInfo UnitInfo.preProcessed]

theorem dib_resolveDepsLoop (i : Nat) :
    ∀ (deps : List String) (st : EngineState),
      (resolveDepsLoop i deps st).1.defaultIntentBranch = st.defaultIntentBranch := by
  intro deps
  induction deps with
  | nil => intro st; rfl
  | cons d rest ih =>
      intro st
      unfold resolveDepsLoop
      split
      · exact ih st
      · dsimp only
        split
        · simp [setUnitDetails]
        · rw [ih]
          simp [appendDependencyIndex]

theorem length_resolveAll (st : EngineState) :
    (resolveAll st).1.unitInfos.length = st.unitInfos.length := by
  unfold resolveAll
  refine foldl_pair_rel (fun a b => b.unitInfos.length = a.unitInfos.length)
    (fun _ => rfl) (fun h1 h2 => h2.trans h1) ?_ _ (st, true)
  intro a i
  dsimp only
  exact length_resolveDepsLoop i _ a.1

theorem unit_resolveAll (st : EngineState) (j : Nat) :
    (getUnitInfo (resolveAll st).1 j).unit = (getUnitInfo st j).unit := by
  unfold resolveAll
  refine foldl_pair_rel
    (fun a b => ∀ k, (getUnitInfo b k).unit = (getUnitInfo a k).unit)
    (fun _ _ => rfl) (fun h1 h2 k => (h2 k).trans (h1 k)) ?_ _ (st, true) j
  intro a i k
  dsimp only
  exact unit_resolveDepsLoop i _ a.1 k

theorem preProcessed_resolveAll (st : EngineState) (j : Nat) :
    (getUnitInfo (resolveAll st).1 j).preProcessed
      = (getUnitInfo st j).preProcessed := by
  unfold resolveAll
  refine foldl_pair_rel
    (fun a b => ∀ k, (getUnitInfo b k).preProcessed = (getUnitInfo a k).preProcessed)
    (fun _ _ => rfl) (fun h1 h2 k => (h2 k).trans (h1 k)) ?_ _ (st, true) j
  intro a i k
  dsimp only
  exact preProcessed_resolveDepsLoop i _ a.1 k

theorem dib_resolveAll (st : EngineState) :
    (resolveAll st).1.defaultIntentBranch = st.defaultIntentBranch := by
  unfold resolveAll
  refine foldl_pair_rel (fun a b => b.defaultIntentBranch = a.defaultIntentBranch)
    (fun _ => rfl) (fun h1 h2 => h2.trans h1) ?_ _ (st, true)
  intro a i
  dsimp only
  exact dib_resolveDepsLoop i _ a.1

/-! ### The ghost default-branch flag across whole passes -/

theorem ProcessInternal_dib (cd : UnitInfo → Bool)
    (pf : EngineState → Nat → EngineState × Bool) (sp : Bool)
    (hdib : ∀ st c (I : ConfigurationUnitIntent),
      I ≠ ConfigurationUnitIntent.unknownValue →
      HasIntentAndSatisfiedDependencies st c I cd = true →
      (pf st c).1.defaultIntentBranch = st.defaultIntentBranch)
    (st : EngineState) :
    (ProcessInternal cd pf sp st).1.defaultIntentBranch = st.defaultIntentBranch := by
  unfold ProcessInternal
  dsimp only
  have d1 := ProcessIntentInternal_dib pf cd ConfigurationUnitIntent.assert
    WINGET_CONFIG_ERROR_ASSERTION_FAILED WINGET_CONFIG_ERROR_ASSERTION_FAILED sp
    (fun st c h => hdib st c _ (by decide) h) st (List.range st.unitInfos.length)
  rcases hP1 : ProcessIntentInternal pf cd ConfigurationUnitIntent.assert
      WINGET_CONFIG_ERROR_ASSERTION_FAILED WINGET_CONFIG_ERROR_ASSERTION_FAILED sp st
      (List.range st.unitInfos.length) with ⟨st1, cands1, ok1⟩
  rw [hP1] at d1
  dsimp only at d1 ⊢
  cases ok1 with
  | false => rw [if_pos (by decide)]; exact d1
  | true =>
      rw [if_neg (by decide)]
      have d2 := ProcessIntentInternal_dib pf cd ConfigurationUnitIntent.inform
        WINGET_CONFIG_ERROR_DEPENDENCY_UNSATISFIED
        WINGET_CONFIG_ERROR_DEPENDENCY_UNSATISFIED sp
        (fun st c h => hdib st c _ (by decide) h) st1 cands1
      rcases hP2 : ProcessIntentInternal pf cd ConfigurationUnitIntent.inform
          WINGET_CONFIG_ERROR_DEPENDENCY_UNSATISFIED
          WINGET_CONFIG_ERROR_DEPENDENCY_UNSATISFIED sp st1 cands1
        with ⟨st2, cands2, ok2⟩
      rw [hP2] at d2
      dsimp only at d2 ⊢
      cases ok2 with
      | false => rw [if_pos (by decide)]; rw [d2]; exact d1
      | true =>
          rw [if_neg (by decide)]
          have d3 := ProcessIntentInternal_dib pf cd ConfigurationUnitIntent.apply
            E_FAIL WINGET_CONFIG_ERROR_SET_APPLY_FAILED sp
            (fun st c h => hdib st c _ (by decide) h) st2 cands2
          rcases hP3 : ProcessIntentInternal pf cd ConfigurationUnitIntent.apply
              E_FAIL WINGET_CONFIG_ERROR_SET_APPLY_FAILED sp st2 cands2
            with ⟨st3, cands3, ok3⟩
          rw [hP3] at d3
          dsimp only at d3 ⊢
          rw [d3, d2]
          exact d1

theorem dib_PreProcess (st : EngineState) :
    (PreProcess st).1.defaultIntentBranch = st.defaultIntentBranch := by
  unfold PreProcess
  dsimp only
  split
  · show (addAllUnits st).1.defaultIntentBranch = st.defaultIntentBranch
    exact dib_addAllUnits st
  · split
    · show (resolveAll (addAllUnits st).1).1.defaultIntentBranch = st.defaultIntentBranch
      rw [dib_resolveAll, dib_addAllUnits]
    · have hdry := ProcessInternal_dib HasPreprocessed MarkPreprocessed false
        (fun st c I _ _ => rfl) (resolveAll (addAllUnits st).1).1
      split
      · show (ProcessInternal HasPreprocessed MarkPreprocessed false
          (resolveAll (addAllUnits st).1).1).1.defaultIntentBranch = st.defaultIntentBranch
        rw [hdry, dib_resolveAll, dib_addAllUnits]
      · show (ProcessInternal HasPreprocessed MarkPreprocessed false
          (resolveAll (addAllUnits st).1).1).1.defaultIntentBranch = st.defaultIntentBranch
        rw [hdry, dib_resolveAll, dib_addAllUnits]

theorem dib_Process (st : EngineState) :
    (Process st).defaultIntentBranch = st.defaultIntentBranch := by
  unfold Process
  dsimp only
  rw [dib_sendSetProgress]
  split
  · have hexec := ProcessInternal_dib HasProcessedSuccessfully ProcessUnit true
      (fun s c I hI hready => dib_ProcessUnit s c (by rw [intent_of_ready hready]; exact hI))
      (sendSetProgress (PreProcess st).1 ConfigurationSetState.inProgress)
    rw [hexec, dib_sendSetProgress, dib_PreProcess]
  · exact dib_PreProcess st

theorem ProcessIntentInternal_length (pf : EngineState → Nat → EngineState × Bool)
    (cd : UnitInfo → Bool) (I : ConfigurationUnitIntent) (e1 e2 : HResult) (sp : Bool)
    (hlen : ∀ st c, ((pf st c).1).unitInfos.length = st.unitInfos.length)
    (st : EngineState) (cands : List Nat) :
    (ProcessIntentInternal pf cd I e1 e2 sp st cands).1.unitInfos.length
      = st.unitInfos.length := by
  unfold ProcessIntentInternal
  dsimp only
  have hlooplen := schedulerLoop_length pf cd I hlen cands.length st cands false
  rcases hL : schedulerLoop pf cd I cands.length st cands false with ⟨stL, candsL, hF⟩
  rw [hL] at hlooplen
  dsimp only at hlooplen ⊢
  rcases hM : markRemainingWithIntent I sp stL candsL with ⟨stM, hR⟩
  dsimp only
  have hlenM : stM.unitInfos.length = stL.unitInfos.length := by
    rw [show stM = (markRemainingWithIntent I sp stL candsL).1 by rw [hM]]
    exact length_markRemainingWithIntent I sp stL candsL
  split
  · dsimp only
    split
    · show (markRemainingOtherIntents I e1 sp stM candsL).unitInfos.length = _
      rw [length_markRemainingOtherIntents, hlenM, hlooplen]
    · show (markRemainingOtherIntents I e1 sp stM candsL).unitInfos.length = _
      rw [length_markRemainingOtherIntents, hlenM, hlooplen]
  · dsimp only
    rw [hlenM, hlooplen]

theorem ProcessIntentInternal_sublist (pf : EngineState → Nat → EngineState × Bool)
    (cd : UnitInfo → Bool) (I : ConfigurationUnitIntent) (e1 e2 : HResult) (sp : Bool)
    (st : EngineState) (cands : List Nat) :
    (ProcessIntentInternal pf cd I e1 e2 sp st cands).2.1.Sublist cands := by
  unfold ProcessIntentInternal
  dsimp only
  have hloopsub := schedulerLoop_sublist pf cd I cands.length st cands false
  rcases hL : schedulerLoop pf cd I cands.length st cands false with ⟨stL, candsL, hF⟩
  rw [hL] at hloopsub
  dsimp only at hloopsub ⊢
  rcases hM : markRemainingWithIntent I sp stL candsL with ⟨stM, hR⟩
  dsimp only
  split
  · exact hloopsub
  · exact hloopsub

/-- Through a dry-run phase, remaining candidates stay unpreprocessed. -/
theorem ProcessIntentInternal_mark_cands_not (cd : UnitInfo → Bool)
    (I : ConfigurationUnitIntent) (e1 e2 : HResult) (sp : Bool)
    (st : EngineState) (cands : List Nat)
    (hnd : cands.Nodup)
    (hnp : ∀ j ∈ cands, (getUnitInfo st j).preProcessed = false) :
    (ProcessIntentInternal MarkPreprocessed cd I e1 e2 sp st cands).2.1.Nodup ∧
      ∀ j ∈ (ProcessIntentInternal MarkPreprocessed cd I e1 e2 sp st cands).2.1,
        (getUnitInfo (ProcessIntentInternal MarkPreprocessed cd I e1 e2 sp st cands).1
          j).preProcessed = false := by
  unfold ProcessIntentInternal
  dsimp only
  have hcnot := schedulerLoop_cands_not MarkPreprocessed cd I
    (fun u => u.preProcessed = true)
    (fun s c j hcj => getUnitInfo_markUnitPreprocessed_ne s hcj)
    cands.length st cands false hnd
    (by
      intro j hj
      show ¬ ((getUnitInfo st j).preProcessed = true)
      rw [hnp j hj]
      exact Bool.false_ne_true)
  rcases hL : schedulerLoop MarkPreprocessed cd I cands.length st cands false
    with ⟨stL, candsL, hF⟩
  rw [hL] at hcnot
  dsimp only at hcnot ⊢
  rcases hM : markRemainingWithIntent I sp stL candsL with ⟨stM, hR⟩
  dsimp only
  have hp : ∀ j ∈ candsL, (getUnitInfo stM j).preProcessed = false := by
    intro j hj
    rw [show stM = (markRemainingWithIntent I sp stL candsL).1 by rw [hM],
      preProcessed_markRemainingWithIntent]
    have := hcnot.2 j hj
    simpa using this
  split
  · dsimp only
    constructor
    · exact hcnot.1
    · intro j hj
      have h2 : (getUnitInfo (markRemainingOtherIntents I e1 sp stM candsL)
          j).preProcessed = false := by
        rw [preProcessed_markRemainingOtherIntents]
        exact hp j hj
      split
      · exact h2
      · exact h2
  · dsimp only
    exact ⟨hcnot.1, hp⟩

/-- The dry run succeeds only by preprocessing every unit (all intents
being declared enumerators). -/
theorem ProcessInternal_dry_success (cd : UnitInfo → Bool) (sp : Bool) (st : EngineState)
    (hwf : ∀ j, j < st.unitInfos.length →
      (getUnitInfo st j).unit.intent ≠ ConfigurationUnitIntent.unknownValue) :
    (ProcessInternal cd MarkPreprocessed sp st).2 = true →
    ∀ j, j < st.unitInfos.length →
      (getUnitInfo (ProcessInternal cd MarkPreprocessed sp st).1 j).preProcessed
        = true := by
  exact ProcessInternal_inv cd MarkPreprocessed sp (fun u => u.preProcessed = true)
    (fun st c => by simp [MarkPreprocessed])
    (fun st c j h => getUnitInfo_markUnitPreprocessed_ne st h)
    (fun st c hc => preProcessed_markUnitPreprocessed_self st hc)
    (fun st c j => unit_markUnitPreprocessed st c j)
    st hwf

/-- If the dry run stalls, some unit is left unpreprocessed. -/
theorem ProcessInternal_dry_fail (cd : UnitInfo → Bool) (sp : Bool) (st : EngineState)
    (hnp : ∀ j, j < st.unitInfos.length → (getUnitInfo st j).preProcessed = false) :
    (ProcessInternal cd MarkPreprocessed sp st).2 = false →
    ∃ j, j < st.unitInfos.length ∧
      (getUnitInfo (ProcessInternal cd MarkPreprocessed sp st).1 j).preProcessed
        = false := by
  unfold ProcessInternal
  dsimp only
  have hb0 : ∀ j ∈ List.range st.unitInfos.length, j < st.unitInfos.length := by
    intro j hj
    exact List.mem_range.1 hj
  have hnp0 : ∀ j ∈ List.range st.unitInfos.length,
      (getUnitInfo st j).preProcessed = false := by
    intro j hj
    exact hnp j (List.mem_range.1 hj)
  have hA1 := ProcessIntentInternal_dry_fail cd ConfigurationUnitIntent.assert
    WINGET_CONFIG_ERROR_ASSERTION_FAILED WINGET_CONFIG_ERROR_ASSERTION_FAILED sp st
    (List.range st.unitInfos.length) (List.nodup_range _)
    (by
      intro j hj
      rw [hnp0 j hj]
      exact Bool.false_ne_true) hb0
  have hC1 := ProcessIntentInternal_mark_cands_not cd ConfigurationUnitIntent.assert
    WINGET_CONFIG_ERROR_ASSERTION_FAILED WINGET_CONFIG_ERROR_ASSERTION_FAILED sp st
    (List.range st.unitInfos.length) (List.nodup_range _) hnp0
  have hL1 := ProcessIntentInternal_length MarkPreprocessed cd
    ConfigurationUnitIntent.assert WINGET_CONFIG_ERROR_ASSERTION_FAILED
    WINGET_CONFIG_ERROR_ASSERTION_FAILED sp (fun _ _ => by simp [MarkPreprocessed]) st
    (List.range st.unitInfos.length)
  have hS1 := ProcessIntentInternal_sublist MarkPreprocessed cd
    ConfigurationUnitIntent.assert WINGET_CONFIG_ERROR_ASSERTION_FAILED
    WINGET_CONFIG_ERROR_ASSERTION_FAILED sp st (List.range st.unitInfos.length)
  rcases hP1 : ProcessIntentInternal MarkPreprocessed cd ConfigurationUnitIntent.assert
      WINGET_CONFIG_ERROR_ASSERTION_FAILED WINGET_CONFIG_ERROR_ASSERTION_FAILED sp st
      (List.range st.unitInfos.length) with ⟨st1, cands1, ok1⟩
  rw [hP1] at hA1 hC1 hL1 hS1
  dsimp only at hA1 hC1 hL1 hS1 ⊢
  cases ok1 with
  | false =>
      rw [if_pos (by decide)]
      intro _
      exact hA1 rfl
  | true =>
      rw [if_neg (by decide)]
      have hb1 : ∀ j ∈ cands1, j < st1.unitInfos.length := by
        intro j hj
        rw [hL1]
        exact hb0 j (hS1.mem hj)
      have hA2 := ProcessIntentInternal_dry_fail cd ConfigurationUnitIntent.inform
        WINGET_CONFIG_ERROR_DEPENDENCY_UNSATISFIED
        WINGET_CONFIG_ERROR_DEPENDENCY_UNSATISFIED sp st1 cands1 hC1.1
        (by
          intro j hj
          rw [hC1.2 j hj]
          exact Bool.false_ne_true) hb1
      have hC2 := ProcessIntentInternal_mark_cands_not cd ConfigurationUnitIntent.inform
        WINGET_CONFIG_ERROR_DEPENDENCY_UNSATISFIED
        WINGET_CONFIG_ERROR_DEPENDENCY_UNSATISFIED sp st1 cands1 hC1.1 hC1.2
      have hL2 := ProcessIntentInternal_length MarkPreprocessed cd
        ConfigurationUnitIntent.inform WINGET_CONFIG_ERROR_DEPENDENCY_UNSATISFIED
        WINGET_CONFIG_ERROR_DEPENDENCY_UNSATISFIED sp
        (fun _ _ => by simp [MarkPreprocessed]) st1 cands1
      have hS2 := ProcessIntentInternal_sublist MarkPreprocessed cd
        ConfigurationUnitIntent.inform WINGET_CONFIG_ERROR_DEPENDENCY_UNSATISFIED
        WINGET_CONFIG_ERROR_DEPENDENCY_UNSATISFIED sp st1 cands1
      rcases hP2 : ProcessIntentInternal MarkPreprocessed cd
          ConfigurationUnitIntent.inform WINGET_CONFIG_ERROR_DEPENDENCY_UNSATISFIED
          WINGET_CONFIG_ERROR_DEPENDENCY_UNSATISFIED sp st1 cands1
        with ⟨st2, cands2, ok2⟩
      rw [hP2] at hA2 hC2 hL2 hS2
      dsimp only at hA2 hC2 hL2 hS2 ⊢
      cases ok2 with
      | false =>
          rw [if_pos (by decide)]
          intro _
          obtain ⟨j, hjl, hjp⟩ := hA2 rfl
          exact ⟨j, by omega, hjp⟩
      | true =>
          rw [if_neg (by decide)]
          have hb2 : ∀ j ∈ cands2, j < st2.unitInfos.length := by
            intro j hj
            rw [hL2]
            exact hb1 j (hS2.mem hj)
          have hA3 := ProcessIntentInternal_dry_fail cd ConfigurationUnitIntent.apply
            E_FAIL WINGET_CONFIG_ERROR_SET_APPLY_FAILED sp st2 cands2 hC2.1
            (by
              intro j hj
              rw [hC2.2 j hj]
              exact Bool.false_ne_true) hb2
          rcases hP3 : ProcessIntentInternal MarkPreprocessed cd
              ConfigurationUnitIntent.apply E_FAIL WINGET_CONFIG_ERROR_SET_APPLY_FAILED
              sp st2 cands2 with ⟨st3, cands3, ok3⟩
          rw [hP3] at hA3
          dsimp only at hA3 ⊢
          cases ok3 with
          | false =>
              intro _
              obtain ⟨j, hjl, hjp⟩ := hA3 rfl
              exact ⟨j, by omega, hjp⟩
          | true =>
              intro h
              cases h

/-! ### Facts about the initial state -/

@[simp] theorem length_initialState (units : List ConfigurationUnit) :
    (initialState units).unitInfos.length = units.length := by
  simp [initialState]

theorem preProcessed_initialState (units : List ConfigurationUnit) (j : Nat) :
    (getUnitInfo (initialState units) j).preProcessed = false := by
  unfold initialState getUnitInfo
  dsimp only
  rw [List.getD_eq_getElem?_getD, List.getElem?_map]
  cases units[j]? <;> rfl

theorem intent_initialState (units : List ConfigurationUnit)
    (hwf : DeclaredIntents units) {j : Nat} (hj : j < units.length) :
    (getUnitInfo (initialState units) j).unit.intent
      ≠ ConfigurationUnitIntent.unknownValue := by
  unfold initialState getUnitInfo
  dsimp only
  rw [List.getD_eq_getElem?_getD, List.getElem?_map, List.getElem?_eq_getElem hj]
  exact hwf _ (List.getElem_mem hj)

/-! ### Claim C10 -/

/-- C10: the unknown-intent `default` branch of the intent switch in
`ProcessUnit` is unreachable in a full apply: `ProcessUnit` is invoked
only on units for which `HasIntentAndSatisfiedDependencies` returned true
for the current phase intent, and the phases use exactly the intents
Assert, Inform and Apply, so for every input set (even one containing an
out-of-range intent value) the ghost flag recording the `default` branch
is never set. -/
theorem claim10_default_branch_unreachable (units : List ConfigurationUnit) :
    (runApply units).defaultIntentBranch = false := by
  unfold runApply
  rw [dib_Process]
  rfl

/-! ### Claim C1 -/

/-- C1 (counterexample): for the two-unit set `A` (Assert, depends on
`"b"`) and `B` (Apply, identifier `"b"`), identifier and dependency
validation pass, the dry run stalls and `PreProcess` returns failure with
ResultCode `DependencyCycle` — yet the dependency graph induced by
`dependencyIndices` has no cycle.  This refutes the claim that a stall is
possible only when a cycle exists. -/
theorem claim1_counterexample :
    (addAllUnits (initialState [c1UnitA, c1UnitB])).2 = true ∧
    (resolveAll (addAllUnits (initialState [c1UnitA, c1UnitB])).1).2 = true ∧
    (PreProcess (initialState [c1UnitA, c1UnitB])).2 = false ∧
    (PreProcess (initialState [c1UnitA, c1UnitB])).1.resultCode
      = WINGET_CONFIG_ERROR_SET_DEPENDENCY_CYCLE ∧
    hasDependencyCycle (PreProcess (initialState [c1UnitA, c1UnitB])).1.unitInfos
      = false := by
  decide

/-- C1 (amended): for every configuration set that passes identifier and
dependency validation (and whose intents are the declared enumerators),
`PreProcess` returns success if and only if the dry-run scheduler
(`ProcessInternal` with predicate `HasPreprocessed` and action
`MarkPreprocessed`, progress suppressed) schedules (preprocesses) every
unit; and whenever the dry run stalls, the set ResultCode is set to
`DependencyCycle` and `PreProcess` returns failure.  (A stall can occur
without a dependency cycle, e.g. when a unit depends on a unit of a later
phase; see the counterexample.) -/
theorem claim1_preprocess_dry_run (units : List ConfigurationUnit)
    (hwf : DeclaredIntents units)
    (hdup : (addAllUnits (initialState units)).2 = true)
    (hmiss : (resolveAll (addAllUnits (initialState units)).1).2 = true) :
    ((PreProcess (initialState units)).2 = true ↔
      ∀ j, j < units.length →
        (getUnitInfo (ProcessInternal HasPreprocessed MarkPreprocessed false
          (resolveAll (addAllUnits (initialState units)).1).1).1 j).preProcessed
          = true) ∧
    ((PreProcess (initialState units)).2 = false →
      (PreProcess (initialState units)).1.resultCode
        = WINGET_CONFIG_ERROR_SET_DEPENDENCY_CYCLE) := by
  have hlen2 : (resolveAll (addAllUnits (initialState units)).1).1.unitInfos.length
      = units.length := by
    rw [length_resolveAll, length_addAllUnits, length_initialState]
  have hwf2 : ∀ j, j < (resolveAll (addAllUnits (initialState units)).1).1.unitInfos.length →
      (getUnitInfo (resolveAll (addAllUnits (initialState units)).1).1 j).unit.intent
        ≠ ConfigurationUnitIntent.unknownValue := by
    intro j hj
    rw [unit_resolveAll, unit_addAllUnits]
    exact intent_initialState units hwf (by omega)
  have hnp2 : ∀ j, j < (resolveAll (addAllUnits (initialState units)).1).1.unitInfos.length →
      (getUnitInfo (resolveAll (addAllUnits (initialState units)).1).1 j).preProcessed
        = false := by
    intro j hj
    rw [preProcessed_resolveAll, preProcessed_addAllUnits]
    exact preProcessed_initialState units j
  have hPP : PreProcess (initialState units) =
      (if !(ProcessInternal HasPreprocessed MarkPreprocessed false
          (resolveAll (addAllUnits (initialState units)).1).1).2 then
        ({ (ProcessInternal HasPreprocessed MarkPreprocessed false
            (resolveAll (addAllUnits (initialState units)).1).1).1 with
          resultCode := WINGET_CONFIG_ERROR_SET_DEPENDENCY_CYCLE }, false)
      else ((ProcessInternal HasPreprocessed MarkPreprocessed false
          (resolveAll (addAllUnits (initialState units)).1).1).1, true)) := by
    unfold PreProcess
    dsimp only
    rw [hdup, hmiss]
    rfl
  cases hdry : (ProcessInternal HasPreprocessed MarkPreprocessed false
      (resolveAll (addAllUnits (initialState units)).1).1).2 with
  | true =>
      rw [hPP, hdry]
      constructor
      · rw [if_neg (by decide)]
        constructor
        · intro _ j hj
          exact ProcessInternal_dry_success HasPreprocessed false
            (resolveAll (addAllUnits (initialState units)).1).1 hwf2 hdry j (by omega)
        · intro _
          rfl
      · rw [if_neg (by decide)]
        intro h
        simp at h
  | false =>
      rw [hPP, hdry]
      rw [if_pos (by decide)]
      constructor
      · constructor
        · intro h
          simp at h
        · intro hall
          exfalso
          obtain ⟨j, hjl, hjp⟩ := ProcessInternal_dry_fail HasPreprocessed false
            (resolveAll (addAllUnits (initialState units)).1).1 hnp2 hdry
          rw [hall j (by omega)] at hjp
          cases hjp
      · intro _
        rfl

/-- C1 (witness): the amended theorem applied to a concrete one-unit set
whose validation passes. -/
theorem claim1_witness :
    (DeclaredIntents [c1WitnessUnit] ∧
      (addAllUnits (initialState [c1WitnessUnit])).2 = true ∧
      (resolveAll (addAllUnits (initialState [c1WitnessUnit])).1).2 = true) ∧
    (((PreProcess (initialState [c1WitnessUnit])).2 = true ↔
      ∀ j, j < [c1WitnessUnit].length →
        (getUnitInfo (ProcessInternal HasPreprocessed MarkPreprocessed false
          (resolveAll (addAllUnits (initialState [c1WitnessUnit])).1).1).1 j).preProcessed
          = true) ∧
    ((PreProcess (initialState [c1WitnessUnit])).2 = false →
      (PreProcess (initialState [c1WitnessUnit])).1.resultCode
        = WINGET_CONFIG_ERROR_SET_DEPENDENCY_CYCLE)) :=
  ⟨⟨fun u hu => by rw [List.mem_singleton.1 hu]; decide, by decide, by decide⟩,
    claim1_preprocess_dry_run [c1WitnessUnit]
      (fun u hu => by rw [List.mem_singleton.1 hu]; decide) (by decide) (by decide)⟩

theorem ProcessInternal_unit_all (cd : UnitInfo → Bool)
    (pf : EngineState → Nat → EngineState × Bool) (sp : Bool)
    (hu : ∀ st (c j : Nat), (getUnitInfo (pf st c).1 j).unit = (getUnitInfo st j).unit)
    (st : EngineState) (j : Nat) :
    (getUnitInfo (ProcessInternal cd pf sp st).1 j).unit = (getUnitInfo st j).unit := by
  unfold ProcessInternal
  dsimp only
  have d1 := ProcessIntentInternal_unit pf cd ConfigurationUnitIntent.assert
    WINGET_CONFIG_ERROR_ASSERTION_FAILED WINGET_CONFIG_ERROR_ASSERTION_FAILED sp hu st
    (List.range st.unitInfos.length)
  rcases hP1 : ProcessIntentInternal pf cd ConfigurationUnitIntent.assert
      WINGET_CONFIG_ERROR_ASSERTION_FAILED WINGET_CONFIG_ERROR_ASSERTION_FAILED sp st
      (List.range st.unitInfos.length) with ⟨st1, cands1, ok1⟩
  rw [hP1] at d1
  dsimp only at d1 ⊢
  cases ok1 with
  | false => rw [if_pos (by decide)]; exact d1 j
  | true =>
      rw [if_neg (by decide)]
      have d2 := ProcessIntentInternal_unit pf cd ConfigurationUnitIntent.inform
        WINGET_CONFIG_ERROR_DEPENDENCY_UNSATISFIED
        WINGET_CONFIG_ERROR_DEPENDENCY_UNSATISFIED sp hu st1 cands1
      rcases hP2 : ProcessIntentInternal pf cd ConfigurationUnitIntent.inform
          WINGET_CONFIG_ERROR_DEPENDENCY_UNSATISFIED
          WINGET_CONFIG_ERROR_DEPENDENCY_UNSATISFIED sp st1 cands1
        with ⟨st2, cands2, ok2⟩
      rw [hP2] at d2
      dsimp only at d2 ⊢
      cases ok2 with
      | false => rw [if_pos (by decide)]; rw [d2 j]; exact d1 j
      | true =>
          rw [if_neg (by decide)]
          have d3 := ProcessIntentInternal_unit pf cd ConfigurationUnitIntent.apply
            E_FAIL WINGET_CONFIG_ERROR_SET_APPLY_FAILED sp hu st2 cands2
          rcases hP3 : ProcessIntentInternal pf cd ConfigurationUnitIntent.apply
              E_FAIL WINGET_CONFIG_ERROR_SET_APPLY_FAILED sp st2 cands2
            with ⟨st3, cands3, ok3⟩
          rw [hP3] at d3
          dsimp only at d3 ⊢
          rw [d3 j, d2 j]
          exact d1 j

theorem ProcessInternal_length_all (cd : UnitInfo → Bool)
    (pf : EngineState → Nat → EngineState × Bool) (sp : Bool)
    (hlen : ∀ st c, ((pf st c).1).unitInfos.length = st.unitInfos.length)
    (st : EngineState) :
    (ProcessInternal cd pf sp st).1.unitInfos.length = st.unitInfos.length := by
  unfold ProcessInternal
  dsimp only
  have d1 := ProcessIntentInternal_length pf cd ConfigurationUnitIntent.assert
    WINGET_CONFIG_ERROR_ASSERTION_FAILED WINGET_CONFIG_ERROR_ASSERTION_FAILED sp hlen st
    (List.range st.unitInfos.length)
  rcases hP1 : ProcessIntentInternal pf cd ConfigurationUnitIntent.assert
      WINGET_CONFIG_ERROR_ASSERTION_FAILED WINGET_CONFIG_ERROR_ASSERTION_FAILED sp st
      (List.range st.unitInfos.length) with ⟨st1, cands1, ok1⟩
  rw [hP1] at d1
  dsimp only at d1 ⊢
  cases ok1 with
  | false => rw [if_pos (by decide)]; exact d1
  | true =>
      rw [if_neg (by decide)]
      have d2 := ProcessIntentInternal_length pf cd ConfigurationUnitIntent.inform
        WINGET_CONFIG_ERROR_DEPENDENCY_UNSATISFIED
        WINGET_CONFIG_ERROR_DEPENDENCY_UNSATISFIED sp hlen st1 cands1
      rcases hP2 : ProcessIntentInternal pf cd ConfigurationUnitIntent.inform
          WINGET_CONFIG_ERROR_DEPENDENCY_UNSATISFIED
          WINGET_CONFIG_ERROR_DEPENDENCY_UNSATISFIED sp st1 cands1
        with ⟨st2, cands2, ok2⟩
      rw [hP2] at d2
      dsimp only at d2 ⊢
      cases ok2 with
      | false => rw [if_pos (by decide)]; rw [d2]; exact d1
      | true =>
          rw [if_neg (by decide)]
          have d3 := ProcessIntentInternal_length pf cd ConfigurationUnitIntent.apply
            E_FAIL WINGET_CONFIG_ERROR_SET_APPLY_FAILED sp hlen st2 cands2
          rcases hP3 : ProcessIntentInternal pf cd ConfigurationUnitIntent.apply
              E_FAIL WINGET_CONFIG_ERROR_SET_APPLY_FAILED sp st2 cands2
            with ⟨st3, cands3, ok3⟩
          rw [hP3] at d3
          dsimp only at d3 ⊢
          rw [d3, d2]
          exact d1

theorem unit_PreProcess (st : EngineState) (j : Nat) :
    (getUnitInfo (PreProcess st).1 j).unit = (getUnitInfo st j).unit := by
  unfold PreProcess
  dsimp only
  split
  · show (getUnitInfo (addAllUnits st).1 j).unit = _
    exact unit_addAllUnits st j
  · split
    · show (getUnitInfo (resolveAll (addAllUnits st).1).1 j).unit = _
      rw [unit_resolveAll, unit_addAllUnits]
    · have hdry := ProcessInternal_unit_all HasPreprocessed MarkPreprocessed false
        (fun st c j => unit_markUnitPreprocessed st c j)
        (resolveAll (addAllUnits st).1).1 j
      split
      · show (getUnitInfo (ProcessInternal HasPreprocessed MarkPreprocessed false
          (resolveAll (addAllUnits st).1).1).1 j).unit = (getUnitInfo st j).unit
        rw [hdry, unit_resolveAll, unit_addAllUnits]
      · show (getUnitInfo (ProcessInternal HasPreprocessed MarkPreprocessed false
          (resolveAll (addAllUnits st).1).1).1 j).unit = (getUnitInfo st j).unit
        rw [hdry, unit_resolveAll, unit_addAllUnits]

theorem length_PreProcess (st : EngineState) :
    (PreProcess st).1.unitInfos.length = st.unitInfos.length := by
  unfold PreProcess
  dsimp only
  split
  · show (addAllUnits st).1.unitInfos.length = _
    exact length_addAllUnits st
  · split
    · show (resolveAll (addAllUnits st).1).1.unitInfos.length = _
      rw [length_resolveAll, length_addAllUnits]
    · have hdry := ProcessInternal_length_all HasPreprocessed MarkPreprocessed false
        (fun _ _ => by simp [MarkPreprocessed]) (resolveAll (addAllUnits st).1).1
      split
      · show (ProcessInternal HasPreprocessed MarkPreprocessed false
          (resolveAll (addAllUnits st).1).1).1.unitInfos.length = st.unitInfos.length
        rw [hdry, length_resolveAll, length_addAllUnits]
      · show (ProcessInternal HasPreprocessed MarkPreprocessed false
          (resolveAll (addAllUnits st).1).1).1.unitInfos.length = st.unitInfos.length
        rw [hdry, length_resolveAll, length_addAllUnits]

/-! ### Claim C9 -/

/-- C9 (counterexample): the two-unit dependency cycle `P ↔ Q` yields an
apply that emits the set-level `Completed` event while both units are
still in state `Unknown` (the dry run marks them with progress
suppressed), refuting the claim that every unit is `Completed` or
`Skipped` at that moment. -/
theorem claim9_counterexample :
    ProgressEvent.set ConfigurationSetState.completed
      ∈ (runApply [c9UnitP, c9UnitQ]).events ∧
    (getUnitInfo (runApply [c9UnitP, c9UnitQ]) 0).state
      = ConfigurationUnitState.unknown ∧
    ¬ ((getUnitInfo (runApply [c9UnitP, c9UnitQ]) 0).state
        = ConfigurationUnitState.completed ∨
      (getUnitInfo (runApply [c9UnitP, c9UnitQ]) 0).state
        = ConfigurationUnitState.skipped) := by
  decide

/-- C9 (amended): for every apply whose `PreProcess` succeeds (intents
being declared enumerators), the set-level `Completed` event is emitted
and at that moment every unit's state is `Completed` or `Skipped`.  (When
`PreProcess` fails — duplicate identifier, missing dependency, or stalled
dry run — units untouched by validation can remain in state `Unknown`;
see the counterexample.) -/
theorem claim9_terminal (units : List ConfigurationUnit)
    (hwf : DeclaredIntents units)
    (hpre : (PreProcess (initialState units)).2 = true) :
    ProgressEvent.set ConfigurationSetState.completed ∈ (runApply units).events ∧
    ∀ j, j < units.length →
      ((getUnitInfo (runApply units) j).state = ConfigurationUnitState.completed ∨
        (getUnitInfo (runApply units) j).state = ConfigurationUnitState.skipped) := by
  unfold runApply Process
  dsimp only
  rw [if_pos hpre]
  constructor
  · simp
  · intro j hj
    rw [getUnitInfo_sendSetProgress]
    have hstart := sendSetProgress (PreProcess (initialState units)).1
      ConfigurationSetState.inProgress
    have hwfS : ∀ k, k < (sendSetProgress (PreProcess (initialState units)).1
        ConfigurationSetState.inProgress).unitInfos.length →
        (getUnitInfo (sendSetProgress (PreProcess (initialState units)).1
          ConfigurationSetState.inProgress) k).unit.intent
          ≠ ConfigurationUnitIntent.unknownValue := by
      intro k hk
      rw [getUnitInfo_sendSetProgress, unit_PreProcess]
      have hk2 : k < units.length := by
        have h1 := length_PreProcess (initialState units)
        have h2 := length_initialState units
        simp at hk
        omega
      exact intent_initialState units hwf hk2
    have hterm := ProcessInternal_exec_terminal HasProcessedSuccessfully
      (sendSetProgress (PreProcess (initialState units)).1
        ConfigurationSetState.inProgress) hwfS j
      (by
        have h1 := length_PreProcess (initialState units)
        have h2 := length_initialState units
        simp
        omega)
    exact hterm

/-- C9 (witness): the amended theorem applied to a concrete one-unit set
whose `PreProcess` succeeds. -/
theorem claim9_witness :
    (DeclaredIntents [c9WitnessUnit] ∧
      (PreProcess (initialState [c9WitnessUnit])).2 = true) ∧
    (ProgressEvent.set ConfigurationSetState.completed
        ∈ (runApply [c9WitnessUnit]).events ∧
      ∀ j, j < [c9WitnessUnit].length →
        ((getUnitInfo (runApply [c9WitnessUnit]) j).state
            = ConfigurationUnitState.completed ∨
          (getUnitInfo (runApply [c9WitnessUnit]) j).state
            = ConfigurationUnitState.skipped)) :=
  ⟨⟨fun u hu => by rw [List.mem_singleton.1 hu]; decide, by decide⟩,
    claim9_terminal [c9WitnessUnit]
      (fun u hu => by rw [List.mem_singleton.1 hu]; decide) (by decide)⟩

/-! ### Claim C2 -/

/-- C2 (counterexample): in the apply of G (Assert, TestSettings Negative)
and H (Apply, deps=[G]), H — a unit of a later phase left in the candidate
list when the assert phase failed — is marked `AssertionFailed` (the
assert phase's `errorForOtherIntents`), not `DependencyUnsatisfied` as the
claim states. -/
theorem claim2_counterexample :
    (getUnitInfo (runApply [c2UnitG, c2UnitH]) 1).resultInformation.resultCode
      = WINGET_CONFIG_ERROR_ASSERTION_FAILED ∧
    ¬ ((getUnitInfo (runApply [c2UnitG, c2UnitH]) 1).resultInformation.resultCode
        = WINGET_CONFIG_ERROR_DEPENDENCY_UNSATISFIED) := by
  decide

/-- C2 (amended): when a unit fails during a phase, every unit still in
the candidate list whose intent differs from the phase intent is marked
with the phase's `errorForOtherIntents` code (AssertionFailed for the
Assert phase, DependencyUnsatisfied for Inform, E_FAIL for Apply), source
`Precondition`, and emits a `Skipped` event; in particular, for units G
(Assert, TestSettings Negative) and H (Apply, deps=[G]), H ends marked
`AssertionFailed` with a `Skipped` event and the set ResultCode is
`AssertionFailed`. -/
theorem claim2_later_phase_marking :
    (∀ (I : ConfigurationUnitIntent) (e : HResult) (st : EngineState)
      (cands : List Nat) (j : Nat), j ∈ cands → j < st.unitInfos.length →
      (getUnitInfo st j).unit.intent ≠ I →
      MarkedSkippedWith (markRemainingOtherIntents I e true st cands) j e) ∧
    ((runApply [c2UnitG, c2UnitH]).resultCode = WINGET_CONFIG_ERROR_ASSERTION_FAILED ∧
      MarkedSkippedWith (runApply [c2UnitG, c2UnitH]) 1
        WINGET_CONFIG_ERROR_ASSERTION_FAILED ∧
      (getUnitInfo (runApply [c2UnitG, c2UnitH]) 0).resultInformation.resultCode
        = WINGET_CONFIG_ERROR_ASSERTION_FAILED) := by
  constructor
  · intro I e st cands j hm hl hi
    exact mark2_marks I e cands st j hm hl hi
  · refine ⟨by decide, ?_, by decide⟩
    refine ⟨by decide, by decide, by decide, by decide⟩

/-- C2 (witness): the general marking clause applied at a concrete state
and candidate list. -/
theorem claim2_witness :
    ((1 : Nat) ∈ [1] ∧
      1 < (initialState [c2UnitG, c2UnitH]).unitInfos.length ∧
      (getUnitInfo (initialState [c2UnitG, c2UnitH]) 1).unit.intent
        ≠ ConfigurationUnitIntent.assert) ∧
    MarkedSkippedWith
      (markRemainingOtherIntents ConfigurationUnitIntent.assert
        WINGET_CONFIG_ERROR_ASSERTION_FAILED true (initialState [c2UnitG, c2UnitH]) [1])
      1 WINGET_CONFIG_ERROR_ASSERTION_FAILED :=
  ⟨⟨by decide, by decide, by decide⟩,
    claim2_later_phase_marking.1 ConfigurationUnitIntent.assert
      WINGET_CONFIG_ERROR_ASSERTION_FAILED (initialState [c2UnitG, c2UnitH]) [1] 1
      (by decide) (by decide) (by decide)⟩

/-! ### Claim C3 -/

/-- C3: `AddUnitToMap` skips units with empty identifiers (never recorded,
never collide); on a collision of a non-empty normalized identifier with
the incumbent at index `j`, both the incumbent and the new entry are
marked `DuplicateIdentifier` (source `ConfigurationSet`), the incumbent
gets a `Completed` event only if it is not already completed, the new
entry always gets one, and `AddUnitToMap` returns false; concretely, for
three units named "Dup"/"dUP"/"dup" `PreProcess` returns failure with set
ResultCode `DuplicateIdentifier`, each unit carries `DuplicateIdentifier`
(source `ConfigurationSet`) and exactly one `Completed` event, and no
dependency resolution is performed (all `dependencyIndices` stay empty). -/
theorem claim3_duplicate_identifier :
    (∀ (st : EngineState) (i : Nat),
      (getUnitInfo st i).unit.identifier = "" → AddUnitToMap st i = (st, true)) ∧
    (∀ (st : EngineState) (i j : Nat),
      (getUnitInfo st i).unit.identifier ≠ "" →
      st.idToUnitInfoIndex.lookup
        (GetNormalizedIdentifier (getUnitInfo st i).unit.identifier) = some j →
      i < st.unitInfos.length → j < st.unitInfos.length → i ≠ j →
      (AddUnitToMap st i).2 = false ∧
      (getUnitInfo (AddUnitToMap st i).1 i).resultInformation.resultCode
        = WINGET_CONFIG_ERROR_DUPLICATE_IDENTIFIER ∧
      (getUnitInfo (AddUnitToMap st i).1 i).resultInformation.resultSource
        = ConfigurationUnitResultSource.configurationSet ∧
      (getUnitInfo (AddUnitToMap st i).1 j).resultInformation.resultCode
        = WINGET_CONFIG_ERROR_DUPLICATE_IDENTIFIER ∧
      (getUnitInfo (AddUnitToMap st i).1 j).resultInformation.resultSource
        = ConfigurationUnitResultSource.configurationSet ∧
      (AddUnitToMap st i).1.events =
        (if (getUnitInfo st j).state = ConfigurationUnitState.completed
          then st.events
          else st.events ++ [ProgressEvent.unitProgress j ConfigurationUnitState.completed])
        ++ [ProgressEvent.unitProgress i ConfigurationUnitState.completed]) ∧
    ((PreProcess (initialState [c3Unit1, c3Unit2, c3Unit3])).2 = false ∧
      (PreProcess (initialState [c3Unit1, c3Unit2, c3Unit3])).1.resultCode
        = WINGET_CONFIG_ERROR_DUPLICATE_IDENTIFIER ∧
      (∀ k < 3,
        (getUnitInfo (PreProcess (initialState [c3Unit1, c3Unit2, c3Unit3])).1 k).resultInformation.resultCode
          = WINGET_CONFIG_ERROR_DUPLICATE_IDENTIFIER ∧
        (getUnitInfo (PreProcess (initialState [c3Unit1, c3Unit2, c3Unit3])).1 k).resultInformation.resultSource
          = ConfigurationUnitResultSource.configurationSet ∧
        ((PreProcess (initialState [c3Unit1, c3Unit2, c3Unit3])).1.events.countP
          (fun e => e == ProgressEvent.unitProgress k ConfigurationUnitState.completed)) = 1 ∧
        (getUnitInfo (PreProcess (initialState [c3Unit1, c3Unit2, c3Unit3])).1 k).dependencyIndices
          = [])) := by
  refine ⟨?_, ?_, by decide⟩
  · intro st i h
    unfold AddUnitToMap
    dsimp only
    rw [if_pos h]
  · intro st i j hne hlookup hi hj hij
    have hADD : AddUnitToMap st i =
        (sendUnitProgress
          (setUnitResultCode
            (sendUnitProgressIfNotComplete
              (setUnitResultCode st j WINGET_CONFIG_ERROR_DUPLICATE_IDENTIFIER
                ConfigurationUnitResultSource.configurationSet)
              ConfigurationUnitState.completed j)
            i WINGET_CONFIG_ERROR_DUPLICATE_IDENTIFIER
            ConfigurationUnitResultSource.configurationSet)
          ConfigurationUnitState.completed i, false) := by
      unfold AddUnitToMap
      dsimp only
      rw [if_neg hne, hlookup]
    rw [hADD]
    have hst1j : getUnitInfo
        (setUnitResultCode st j WINGET_CONFIG_ERROR_DUPLICATE_IDENTIFIER
          ConfigurationUnitResultSource.configurationSet) j =
        { getUnitInfo st j with resultInformation :=
            { (getUnitInfo st j).resultInformation with
                resultCode := WINGET_CONFIG_ERROR_DUPLICATE_IDENTIFIER,
                resultSource := ConfigurationUnitResultSource.configurationSet } } :=
      getUnitInfo_setUnitResultCode_self st _ _ hj
    have hst2j : (getUnitInfo
        (sendUnitProgressIfNotComplete
          (setUnitResultCode st j WINGET_CONFIG_ERROR_DUPLICATE_IDENTIFIER
            ConfigurationUnitResultSource.configurationSet)
          ConfigurationUnitState.completed j) j).resultInformation =
        { (getUnitInfo st j).resultInformation with
            resultCode := WINGET_CONFIG_ERROR_DUPLICATE_IDENTIFIER,
            resultSource := ConfigurationUnitResultSource.configurationSet } := by
      unfold sendUnitProgressIfNotComplete
      by_cases hc : (getUnitInfo
          (setUnitResultCode st j WINGET_CONFIG_ERROR_DUPLICATE_IDENTIFIER
            ConfigurationUnitResultSource.configurationSet) j).state
          = ConfigurationUnitState.completed
      · rw [if_neg (not_not_intro hc)]
        rw [hst1j]
      · rw [if_pos hc]
        rw [getUnitInfo_sendUnitProgress_self _ _ (by simpa using hj), hst1j]
    refine ⟨rfl, ?_, ?_, ?_, ?_, ?_⟩
    · rw [getUnitInfo_sendUnitProgress_self _ _
        (by simp; exact hi)]
      rw [getUnitInfo_setUnitResultCode_self _ _ _ (by simp; exact hi)]
    · rw [getUnitInfo_sendUnitProgress_self _ _
        (by simp; exact hi)]
      rw [getUnitInfo_setUnitResultCode_self _ _ _ (by simp; exact hi)]
    · rw [getUnitInfo_sendUnitProgress_ne _ _ hij,
        getUnitInfo_setUnitResultCode_ne _ _ _ hij, hst2j]
    · rw [getUnitInfo_sendUnitProgress_ne _ _ hij,
        getUnitInfo_setUnitResultCode_ne _ _ _ hij, hst2j]
    · have hstate1 : (getUnitInfo
          (setUnitResultCode st j WINGET_CONFIG_ERROR_DUPLICATE_IDENTIFIER
            ConfigurationUnitResultSource.configurationSet) j).state
          = (getUnitInfo st j).state := by rw [hst1j]
      unfold sendUnitProgressIfNotComplete
      by_cases hc : (getUnitInfo st j).state = ConfigurationUnitState.completed
      · rw [if_neg (by simp [hstate1, hc]), if_pos hc]
        simp
      · rw [if_pos (by simp [hstate1, hc]), if_neg hc]
        simp

/-- C3 (witness): the empty-identifier clause and the collision clause
applied at concrete states. -/
theorem claim3_witness :
    (AddUnitToMap (initialState [c3EmptyUnit]) 0 = (initialState [c3EmptyUnit], true)) ∧
    ((AddUnitToMap (AddUnitToMap (initialState [c3Unit1, c3Unit2]) 0).1 1).2 = false ∧
      (getUnitInfo (AddUnitToMap (AddUnitToMap (initialState [c3Unit1, c3Unit2]) 0).1 1).1 1).resultInformation.resultCode
        = WINGET_CONFIG_ERROR_DUPLICATE_IDENTIFIER ∧
      (getUnitInfo (AddUnitToMap (AddUnitToMap (initialState [c3Unit1, c3Unit2]) 0).1 1).1 1).resultInformation.resultSource
        = ConfigurationUnitResultSource.configurationSet ∧
      (getUnitInfo (AddUnitToMap (AddUnitToMap (initialState [c3Unit1, c3Unit2]) 0).1 1).1 0).resultInformation.resultCode
        = WINGET_CONFIG_ERROR_DUPLICATE_IDENTIFIER ∧
      (getUnitInfo (AddUnitToMap (AddUnitToMap (initialState [c3Unit1, c3Unit2]) 0).1 1).1 0).resultInformation.resultSource
        = ConfigurationUnitResultSource.configurationSet ∧
      (AddUnitToMap (AddUnitToMap (initialState [c3Unit1, c3Unit2]) 0).1 1).1.events =
        (if (getUnitInfo (AddUnitToMap (initialState [c3Unit1, c3Unit2]) 0).1 0).state
            = ConfigurationUnitState.completed
          then (AddUnitToMap (initialState [c3Unit1, c3Unit2]) 0).1.events
          else (AddUnitToMap (initialState [c3Unit1, c3Unit2]) 0).1.events
            ++ [ProgressEvent.unitProgress 0 ConfigurationUnitState.completed])
        ++ [ProgressEvent.unitProgress 1 ConfigurationUnitState.completed]) :=
  ⟨claim3_duplicate_identifier.1 (initialState [c3EmptyUnit]) 0 (by decide),
    claim3_duplicate_identifier.2.1 (AddUnitToMap (initialState [c3Unit1, c3Unit2]) 0).1
      1 0 (by decide) (by decide) (by decide) (by decide) (by decide)⟩

/-! ### Claim C4 -/

/-- C4: dependency resolution skips empty dependency strings entirely; on
the first non-empty dependency whose normalized identifier is absent from
the index, the unit is marked `MissingDependency` (source
`ConfigurationSet`) with the original string as detail, a `Completed`
event is emitted, and the rest of the list is not examined (the loop
returns immediately); concretely, for X (Apply, deps ["", "ghost", "a"])
and A (id "a"), X is marked `MissingDependency` with detail "ghost",
`PreProcess` fails with set ResultCode `MissingDependency`, X's resolved
dependency list stays empty, and no unit processor is ever created. -/
theorem claim4_missing_dependency :
    (∀ (i : Nat) (rest : List String) (st : EngineState),
      resolveDepsLoop i ("" :: rest) st = resolveDepsLoop i rest st) ∧
    (∀ (i : Nat) (d : String) (rest : List String) (st : EngineState),
      d ≠ "" →
      st.idToUnitInfoIndex.lookup (GetNormalizedIdentifier d) = Option.none →
      resolveDepsLoop i (d :: rest) st =
        (sendUnitProgress
          (setUnitDetails
            (setUnitResultCode st i WINGET_CONFIG_ERROR_MISSING_DEPENDENCY
              ConfigurationUnitResultSource.configurationSet)
            i d)
          ConfigurationUnitState.completed i, false)) ∧
    ((PreProcess (initialState [c4UnitX, c4UnitA])).2 = false ∧
      (PreProcess (initialState [c4UnitX, c4UnitA])).1.resultCode
        = WINGET_CONFIG_ERROR_MISSING_DEPENDENCY ∧
      (getUnitInfo (PreProcess (initialState [c4UnitX, c4UnitA])).1 0).resultInformation.resultCode
        = WINGET_CONFIG_ERROR_MISSING_DEPENDENCY ∧
      (getUnitInfo (PreProcess (initialState [c4UnitX, c4UnitA])).1 0).resultInformation.resultSource
        = ConfigurationUnitResultSource.configurationSet ∧
      (getUnitInfo (PreProcess (initialState [c4UnitX, c4UnitA])).1 0).resultInformation.details
        = "ghost" ∧
      ProgressEvent.unitProgress 0 ConfigurationUnitState.completed
        ∈ (PreProcess (initialState [c4UnitX, c4UnitA])).1.events ∧
      (getUnitInfo (PreProcess (initialState [c4UnitX, c4UnitA])).1 0).dependencyIndices = [] ∧
      (runApply [c4UnitX, c4UnitA]).resultCode = WINGET_CONFIG_ERROR_MISSING_DEPENDENCY ∧
      (∀ k < 2, (getUnitInfo (runApply [c4UnitX, c4UnitA]) k).processorCreated = false)) := by
  refine ⟨?_, ?_, by decide⟩
  · intro i rest st
    rfl
  · intro i d rest st hne hlookup
    show resolveDepsLoop i (d :: rest) st = _
    unfold resolveDepsLoop
    rw [if_neg hne]
    dsimp only
    rw [hlookup]

/-- C4 (witness): the first-miss clause applied at the concrete initial
state of the X/A scenario, with the original dependency string "ghost". -/
theorem claim4_witness :
    (("ghost" : String) ≠ "" ∧
      (initialState [c4UnitX, c4UnitA]).idToUnitInfoIndex.lookup
        (GetNormalizedIdentifier "ghost") = Option.none) ∧
    resolveDepsLoop 0 ["ghost", "a"] (initialState [c4UnitX, c4UnitA]) =
      (sendUnitProgress
        (setUnitDetails
          (setUnitResultCode (initialState [c4UnitX, c4UnitA]) 0
            WINGET_CONFIG_ERROR_MISSING_DEPENDENCY
            ConfigurationUnitResultSource.configurationSet)
          0 "ghost")
        ConfigurationUnitState.completed 0, false) :=
  ⟨⟨by decide, by decide⟩,
    claim4_missing_dependency.2.1 0 "ghost" ["a"] (initialState [c4UnitX, c4UnitA])
      (by decide) (by decide)⟩

/-! ### Claim C5 -/

/-- C5: for every unit whose `ShouldApply` flag is false, `ProcessUnit`
sets its result to `ManuallySkipped` (source `Precondition`), emits a
`Skipped` event, and returns true; the result code being non-success,
`HasProcessedSuccessfully` is false for the unit afterwards, so it never
satisfies its dependents; concretely, for S (Apply, ShouldApply=false)
and T (Apply, deps=[S]), S ends `ManuallySkipped`/`Skipped`, T ends
`DependencyUnsatisfied` (source `Precondition`) with a `Skipped` event,
and the set ResultCode is `DependencyUnsatisfied`. -/
theorem claim5_should_apply_false :
    (∀ (st : EngineState) (i : Nat), i < st.unitInfos.length →
      (getUnitInfo st i).unit.shouldApply = false →
      (ProcessUnit st i).2 = true ∧
      (getUnitInfo (ProcessUnit st i).1 i).resultInformation.resultCode
        = WINGET_CONFIG_ERROR_MANUALLY_SKIPPED ∧
      (getUnitInfo (ProcessUnit st i).1 i).resultInformation.resultSource
        = ConfigurationUnitResultSource.precondition ∧
      (getUnitInfo (ProcessUnit st i).1 i).state = ConfigurationUnitState.skipped ∧
      (ProcessUnit st i).1.events
        = st.events ++ [ProgressEvent.unitProgress i ConfigurationUnitState.skipped] ∧
      HasProcessedSuccessfully (getUnitInfo (ProcessUnit st i).1 i) = false) ∧
    ((getUnitInfo (runApply [c5UnitS, c5UnitT]) 0).resultInformation.resultCode
        = WINGET_CONFIG_ERROR_MANUALLY_SKIPPED ∧
      (getUnitInfo (runApply [c5UnitS, c5UnitT]) 0).resultInformation.resultSource
        = ConfigurationUnitResultSource.precondition ∧
      (getUnitInfo (runApply [c5UnitS, c5UnitT]) 0).state = ConfigurationUnitState.skipped ∧
      ProgressEvent.unitProgress 0 ConfigurationUnitState.skipped
        ∈ (runApply [c5UnitS, c5UnitT]).events ∧
      (getUnitInfo (runApply [c5UnitS, c5UnitT]) 1).resultInformation.resultCode
        = WINGET_CONFIG_ERROR_DEPENDENCY_UNSATISFIED ∧
      (getUnitInfo (runApply [c5UnitS, c5UnitT]) 1).resultInformation.resultSource
        = ConfigurationUnitResultSource.precondition ∧
      (getUnitInfo (runApply [c5UnitS, c5UnitT]) 1).state = ConfigurationUnitState.skipped ∧
      ProgressEvent.unitProgress 1 ConfigurationUnitState.skipped
        ∈ (runApply [c5UnitS, c5UnitT]).events ∧
      (runApply [c5UnitS, c5UnitT]).resultCode
        = WINGET_CONFIG_ERROR_DEPENDENCY_UNSATISFIED) := by
  refine ⟨?_, by decide⟩
  intro st i hlen hsa
  have hPU : ProcessUnit st i =
      (sendUnitProgress
        (setUnitResultCode (markProcessed st i) i
          WINGET_CONFIG_ERROR_MANUALLY_SKIPPED
          ConfigurationUnitResultSource.precondition)
        ConfigurationUnitState.skipped i, true) := by
    unfold ProcessUnit
    dsimp only
    rw [if_pos (by rw [unit_markProcessed, hsa]; rfl)]
  rw [hPU]
  have hget : getUnitInfo
      (sendUnitProgress
        (setUnitResultCode (markProcessed st i) i
          WINGET_CONFIG_ERROR_MANUALLY_SKIPPED
          ConfigurationUnitResultSource.precondition)
        ConfigurationUnitState.skipped i) i =
      { getUnitInfo (markProcessed st i) i with
          state := ConfigurationUnitState.skipped,
          resultInformation :=
            { (getUnitInfo (markProcessed st i) i).resultInformation with
                resultCode := WINGET_CONFIG_ERROR_MANUALLY_SKIPPED,
                resultSource := ConfigurationUnitResultSource.precondition } } := by
    rw [getUnitInfo_sendUnitProgress_self _ _ (by simpa using hlen),
      getUnitInfo_setUnitResultCode_self _ _ _ (by simpa using hlen)]
  refine ⟨rfl, by rw [hget], by rw [hget], by rw [hget], by simp [markProcessed], ?_⟩
  rw [hget]
  simp [HasProcessedSuccessfully, SUCCEEDED, WINGET_CONFIG_ERROR_MANUALLY_SKIPPED]

/-- C5 (witness): the general clause applied to unit S at the initial
state of the S/T scenario. -/
theorem claim5_witness :
    (0 < (initialState [c5UnitS, c5UnitT]).unitInfos.length ∧
      (getUnitInfo (initialState [c5UnitS, c5UnitT]) 0).unit.shouldApply = false) ∧
    ((ProcessUnit (initialState [c5UnitS, c5UnitT]) 0).2 = true ∧
      (getUnitInfo (ProcessUnit (initialState [c5UnitS, c5UnitT]) 0).1 0).resultInformation.resultCode
        = WINGET_CONFIG_ERROR_MANUALLY_SKIPPED ∧
      (getUnitInfo (ProcessUnit (initialState [c5UnitS, c5UnitT]) 0).1 0).resultInformation.resultSource
        = ConfigurationUnitResultSource.precondition ∧
      (getUnitInfo (ProcessUnit (initialState [c5UnitS, c5UnitT]) 0).1 0).state
        = ConfigurationUnitState.skipped ∧
      (ProcessUnit (initialState [c5UnitS, c5UnitT]) 0).1.events
        = (initialState [c5UnitS, c5UnitT]).events
          ++ [ProgressEvent.unitProgress 0 ConfigurationUnitState.skipped] ∧
      HasProcessedSuccessfully
        (getUnitInfo (ProcessUnit (initialState [c5UnitS, c5UnitT]) 0).1 0) = false) :=
  ⟨⟨by decide, by decide⟩,
    claim5_should_apply_false.1 (initialState [c5UnitS, c5UnitT]) 0 (by decide) (by decide)⟩

/-! ### Claim C6 -/

/-- C6: the front-to-back scan of the candidate list (`extractFirstReady`,
the scan the scheduler loop restarts after every processed unit) returns a
ready unit; when the candidate list is strictly sorted by original input
position — as the initial list `List.range` is — the returned unit is the
ready unit with the lowest input position, and the remaining list is a
sublist of the original (relative order preserved) that is again strictly
sorted. -/
theorem claim6_input_order (st : EngineState) (I : ConfigurationUnitIntent)
    (cd : UnitInfo → Bool) (cands : List Nat) (c : Nat) (rest : List Nat)
    (h : extractFirstReady st I cd cands = some (c, rest)) :
    HasIntentAndSatisfiedDependencies st c I cd = true ∧
    c ∈ cands ∧
    rest.Sublist cands ∧
    (cands.Pairwise (fun a b => a < b) →
      (∀ j ∈ cands, HasIntentAndSatisfiedDependencies st j I cd = true → c ≤ j) ∧
      rest.Pairwise (fun a b => a < b)) := by
  obtain ⟨l1, l2, hsplit, hrest, hl1, hready⟩ := extractFirstReady_eq_some h
  refine ⟨hready, mem_cands_of_extract h, rest_sublist_of_extract h, ?_⟩
  intro hsorted
  refine ⟨?_, List.Pairwise.sublist (rest_sublist_of_extract h) hsorted⟩
  intro j hj hjready
  rw [hsplit] at hj
  rcases List.mem_append.1 hj with hj1 | hj2
  · rw [hl1 j hj1] at hjready
    cases hjready
  · rcases List.mem_cons.1 hj2 with hj2' | hj3
    · exact le_of_eq hj2'.symm
    · rw [hsplit] at hsorted
      have hc2 := (List.pairwise_append.1 hsorted).2.1
      exact le_of_lt ((List.pairwise_cons.1 hc2).1 j hj3)

/-- C6 (witness): the scan applied to the two-unit apply scenario at its
initial state, where both candidates are ready and the lower input index
is returned. -/
theorem claim6_witness :
    (extractFirstReady (initialState [c6UnitA, c6UnitB]) ConfigurationUnitIntent.apply
      (fun u => HasProcessedSuccessfully u || true) [0, 1] = some (0, [1])) ∧
    (HasIntentAndSatisfiedDependencies (initialState [c6UnitA, c6UnitB]) 0
      ConfigurationUnitIntent.apply (fun u => HasProcessedSuccessfully u || true) = true ∧
      0 ∈ [0, 1] ∧
      List.Sublist [1] [0, 1] ∧
      (List.Pairwise (fun a b => a < b) [0, 1] →
        (∀ j ∈ [0, 1],
          HasIntentAndSatisfiedDependencies (initialState [c6UnitA, c6UnitB]) j
            ConfigurationUnitIntent.apply (fun u => HasProcessedSuccessfully u || true)
            = true → 0 ≤ j) ∧
        List.Pairwise (fun a b => a < b) [1])) :=
  ⟨by decide,
    claim6_input_order (initialState [c6UnitA, c6UnitB]) ConfigurationUnitIntent.apply
      (fun u => HasProcessedSuccessfully u || true) [0, 1] 0 [1] (by decide)⟩

/-! ### Claim C7 -/

theorem getUnitInfo_markProcessed_self (st : EngineState) {i : Nat}
    (h : i < st.unitInfos.length) :
    getUnitInfo (markProcessed st i) i = { getUnitInfo st i with processed := true } :=
  getUnitInfo_updateUnitInfo_self st i _ h

theorem getUnitInfo_markProcessorCreated_self (st : EngineState) {i : Nat}
    (h : i < st.unitInfos.length) :
    getUnitInfo (markProcessorCreated st i) i =
      { getUnitInfo st i with processorCreated := true } :=
  getUnitInfo_updateUnitInfo_self st i _ h

theorem getUnitInfo_setPreviouslyInDesiredState_self (st : EngineState) {i : Nat}
    (h : i < st.unitInfos.length) :
    getUnitInfo (setPreviouslyInDesiredState st i) i =
      { getUnitInfo st i with previouslyInDesiredState := true } :=
  getUnitInfo_updateUnitInfo_self st i _ h

theorem getUnitInfo_setRebootRequired_self (st : EngineState) (b : Bool) {i : Nat}
    (h : i < st.unitInfos.length) :
    getUnitInfo (setRebootRequired st i b) i =
      { getUnitInfo st i with rebootRequired := b } :=
  getUnitInfo_updateUnitInfo_self st i _ h

theorem getUnitInfo_markApplySettingsCalled_self (st : EngineState) {i : Nat}
    (h : i < st.unitInfos.length) :
    getUnitInfo (markApplySettingsCalled st i) i =
      { getUnitInfo st i with applySettingsCalled := true } :=
  getUnitInfo_updateUnitInfo_self st i _ h

/-- C7: for a processed unit with intent Apply (ShouldApply true, unit
processor created without throwing), `ProcessUnit` dispatches on
`TestSettings`: Positive sets `PreviouslyInDesiredState`, never calls
`ApplySettings`, leaves the result information untouched, and succeeds;
Negative calls `ApplySettings`, and on a successful apply code records
`RebootRequired` and succeeds, otherwise adopts the apply result
information and fails; Failed adopts the test result information
verbatim and fails; any other test result yields `E_UNEXPECTED` with
source `Internal` and fails. -/
theorem claim7_apply_intent_dispatch (st : EngineState) (i : Nat)
    (hlen : i < st.unitInfos.length)
    (hsa : (getUnitInfo st i).unit.shouldApply = true)
    (hcr : (getUnitInfo st i).unit.processor.createResult = Option.none)
    (hint : (getUnitInfo st i).unit.intent = ConfigurationUnitIntent.apply) :
    ((getUnitInfo st i).unit.processor.testSettings.testResult
        = ConfigurationTestResult.positive →
      (ProcessUnit st i).2 = true ∧
      (getUnitInfo (ProcessUnit st i).1 i).previouslyInDesiredState = true ∧
      (getUnitInfo (ProcessUnit st i).1 i).applySettingsCalled
        = (getUnitInfo st i).applySettingsCalled ∧
      (getUnitInfo (ProcessUnit st i).1 i).resultInformation
        = (getUnitInfo st i).resultInformation) ∧
    ((getUnitInfo st i).unit.processor.testSettings.testResult
        = ConfigurationTestResult.negative →
      (SUCCEEDED (getUnitInfo st i).unit.processor.applySettings.resultInformation.resultCode
          = true →
        (ProcessUnit st i).2 = true ∧
        (getUnitInfo (ProcessUnit st i).1 i).applySettingsCalled = true ∧
        (getUnitInfo (ProcessUnit st i).1 i).rebootRequired
          = (getUnitInfo st i).unit.processor.applySettings.rebootRequired ∧
        (getUnitInfo (ProcessUnit st i).1 i).resultInformation
          = (getUnitInfo st i).resultInformation) ∧
      (SUCCEEDED (getUnitInfo st i).unit.processor.applySettings.resultInformation.resultCode
          = false →
        (ProcessUnit st i).2 = false ∧
        (getUnitInfo (ProcessUnit st i).1 i).applySettingsCalled = true ∧
        (getUnitInfo (ProcessUnit st i).1 i).resultInformation
          = (getUnitInfo st i).unit.processor.applySettings.resultInformation)) ∧
    ((getUnitInfo st i).unit.processor.testSettings.testResult
        = ConfigurationTestResult.failed →
      (ProcessUnit st i).2 = false ∧
      (getUnitInfo (ProcessUnit st i).1 i).resultInformation
        = (getUnitInfo st i).unit.processor.testSettings.resultInformation) ∧
    ((getUnitInfo st i).unit.processor.testSettings.testResult
        = ConfigurationTestResult.otherValue →
      (ProcessUnit st i).2 = false ∧
      (getUnitInfo (ProcessUnit st i).1 i).resultInformation.resultCode = E_UNEXPECTED ∧
      (getUnitInfo (ProcessUnit st i).1 i).resultInformation.resultSource
        = ConfigurationUnitResultSource.internal) := by
  refine ⟨?_, ?_, ?_, ?_⟩
  · intro htr
    have hPU : ProcessUnit st i =
        (sendUnitProgress
          (setPreviouslyInDesiredState
            (markProcessorCreated
              (sendUnitProgress (markProcessed st i) ConfigurationUnitState.inProgress i) i)
            i)
          ConfigurationUnitState.completed i, true) := by
      unfold ProcessUnit
      dsimp only
      rw [unit_markProcessed, hsa, hcr, hint, htr]
      rfl
    have hrec : getUnitInfo (ProcessUnit st i).1 i =
        { getUnitInfo st i with
            processed := true,
            state := ConfigurationUnitState.completed,
            processorCreated := true, previouslyInDesiredState := true } := by
      rw [hPU]
      rw [getUnitInfo_sendUnitProgress_self _ _ (by simpa using hlen),
        getUnitInfo_setPreviouslyInDesiredState_self _ (by simpa using hlen),
        getUnitInfo_markProcessorCreated_self _ (by simpa using hlen),
        getUnitInfo_sendUnitProgress_self _ _ (by simpa using hlen),
        getUnitInfo_markProcessed_self _ hlen]
    refine ⟨by rw [hPU], by rw [hrec], by rw [hrec], by rw [hrec]⟩
  · intro htr
    constructor
    · intro hsucc
      have hPU : ProcessUnit st i =
          (sendUnitProgress
            (setRebootRequired
              (markApplySettingsCalled
                (markProcessorCreated
                  (sendUnitProgress (markProcessed st i) ConfigurationUnitState.inProgress i)
                  i)
                i)
              i (getUnitInfo st i).unit.processor.applySettings.rebootRequired)
            ConfigurationUnitState.completed i, true) := by
        unfold ProcessUnit
        dsimp only
        rw [unit_markProcessed, hsa, hcr, hint, htr, hsucc]
        rfl
      have hrec : getUnitInfo (ProcessUnit st i).1 i =
          { getUnitInfo st i with
              processed := true,
              state := ConfigurationUnitState.completed,
              processorCreated := true, applySettingsCalled := true,
              rebootRequired :=
                (getUnitInfo st i).unit.processor.applySettings.rebootRequired } := by
        rw [hPU]
        rw [getUnitInfo_sendUnitProgress_self _ _ (by simpa using hlen),
          getUnitInfo_setRebootRequired_self _ _ (by simpa using hlen),
          getUnitInfo_markApplySettingsCalled_self _ (by simpa using hlen),
          getUnitInfo_markProcessorCreated_self _ (by simpa using hlen),
          getUnitInfo_sendUnitProgress_self _ _ (by simpa using hlen),
          getUnitInfo_markProcessed_self _ hlen]
      refine ⟨by rw [hPU], by rw [hrec], by rw [hrec], by rw [hrec]⟩
    · intro hsucc
      have hPU : ProcessUnit st i =
          (sendUnitProgress
            (adoptUnitResultInfo
              (markApplySettingsCalled
                (markProcessorCreated
                  (sendUnitProgress (markProcessed st i) ConfigurationUnitState.inProgress i)
                  i)
                i)
              i (getUnitInfo st i).unit.processor.applySettings.resultInformation)
            ConfigurationUnitState.completed i, false) := by
        unfold ProcessUnit
        dsimp only
        rw [unit_markProcessed, hsa, hcr, hint, htr, hsucc]
        rfl
      have hrec : getUnitInfo (ProcessUnit st i).1 i =
          { getUnitInfo st i with
              processed := true,
              state := ConfigurationUnitState.completed,
              processorCreated := true, applySettingsCalled := true,
              resultInformation :=
                (getUnitInfo st i).unit.processor.applySettings.resultInformation } := by
        rw [hPU]
        rw [getUnitInfo_sendUnitProgress_self _ _ (by simpa using hlen),
          getUnitInfo_adoptUnitResultInfo_self _ _ (by simpa using hlen),
          getUnitInfo_markApplySettingsCalled_self _ (by simpa using hlen),
          getUnitInfo_markProcessorCreated_self _ (by simpa using hlen),
          getUnitInfo_sendUnitProgress_self _ _ (by simpa using hlen),
          getUnitInfo_markProcessed_self _ hlen]
      refine ⟨by rw [hPU], by rw [hrec], by rw [hrec]⟩
  · intro htr
    have hPU : ProcessUnit st i =
        (sendUnitProgress
          (adoptUnitResultInfo
            (markProcessorCreated
              (sendUnitProgress (markProcessed st i) ConfigurationUnitState.inProgress i) i)
            i (getUnitInfo st i).unit.processor.testSettings.resultInformation)
          ConfigurationUnitState.completed i, false) := by
      unfold ProcessUnit
      dsimp only
      rw [unit_markProcessed, hsa, hcr, hint, htr]
      rfl
    have hrec : getUnitInfo (ProcessUnit st i).1 i =
        { getUnitInfo st i with
            processed := true,
            state := ConfigurationUnitState.completed,
            processorCreated := true,
            resultInformation :=
              (getUnitInfo st i).unit.processor.testSettings.resultInformation } := by
      rw [hPU]
      rw [getUnitInfo_sendUnitProgress_self _ _ (by simpa using hlen),
        getUnitInfo_adoptUnitResultInfo_self _ _ (by simpa using hlen),
        getUnitInfo_markProcessorCreated_self _ (by simpa using hlen),
        getUnitInfo_sendUnitProgress_self _ _ (by simpa using hlen),
        getUnitInfo_markProcessed_self _ hlen]
    refine ⟨by rw [hPU], by rw [hrec]⟩
  · intro htr
    have hPU : ProcessUnit st i =
        (sendUnitProgress
          (setUnitResultCode
            (markProcessorCreated
              (sendUnitProgress (markProcessed st i) ConfigurationUnitState.inProgress i) i)
            i E_UNEXPECTED ConfigurationUnitResultSource.internal)
          ConfigurationUnitState.completed i, false) := by
      unfold ProcessUnit
      dsimp only
      rw [unit_markProcessed, hsa, hcr, hint, htr]
      rfl
    have hrec : getUnitInfo (ProcessUnit st i).1 i =
        { getUnitInfo st i with
            processed := true,
            state := ConfigurationUnitState.completed,
            processorCreated := true,
            resultInformation :=
              { (getUnitInfo st i).resultInformation with
                  resultCode := E_UNEXPECTED,
                  resultSource := ConfigurationUnitResultSource.internal } } := by
      rw [hPU]
      rw [getUnitInfo_sendUnitProgress_self _ _ (by simpa using hlen),
        getUnitInfo_setUnitResultCode_self _ _ _ (by simpa using hlen),
        getUnitInfo_markProcessorCreated_self _ (by simpa using hlen),
        getUnitInfo_sendUnitProgress_self _ _ (by simpa using hlen),
        getUnitInfo_markProcessed_self _ hlen]
    refine ⟨by rw [hPU], by rw [hrec], by rw [hrec]⟩

/-- C7 (witness): the dispatch theorem applied to a concrete Apply unit
whose test returns Negative and whose apply succeeds requiring a
reboot. -/
theorem claim7_witness :
    (0 < (initialState [c7Unit]).unitInfos.length ∧
      (getUnitInfo (initialState [c7Unit]) 0).unit.shouldApply = true ∧
      (getUnitInfo (initialState [c7Unit]) 0).unit.processor.createResult = Option.none ∧
      (getUnitInfo (initialState [c7Unit]) 0).unit.intent = ConfigurationUnitIntent.apply ∧
      (getUnitInfo (initialState [c7Unit]) 0).unit.processor.testSettings.testResult
        = ConfigurationTestResult.negative ∧
      SUCCEEDED
        (getUnitInfo (initialState [c7Unit]) 0).unit.processor.applySettings.resultInformation.resultCode
        = true) ∧
    ((ProcessUnit (initialState [c7Unit]) 0).2 = true ∧
      (getUnitInfo (ProcessUnit (initialState [c7Unit]) 0).1 0).applySettingsCalled = true ∧
      (getUnitInfo (ProcessUnit (initialState [c7Unit]) 0).1 0).rebootRequired
        = (getUnitInfo (initialState [c7Unit]) 0).unit.processor.applySettings.rebootRequired ∧
      (getUnitInfo (ProcessUnit (initialState [c7Unit]) 0).1 0).resultInformation
        = (getUnitInfo (initialState [c7Unit]) 0).resultInformation) :=
  ⟨⟨by decide, by decide, by decide, by decide, by decide, by decide⟩,
    ((claim7_apply_intent_dispatch (initialState [c7Unit]) 0 (by decide) (by decide)
        (by decide) (by decide)).2.1 (by decide)).1 (by decide)⟩

/-! ### Claim C8 -/

theorem writesTo_of_writes_eq {st st' : EngineState} (h : st'.writes = st.writes)
    (i : Nat) : writesTo st' i = writesTo st i := by
  unfold writesTo
  rw [h]

theorem writesTo_of_writes_append {st st' : EngineState} {j : Nat} {x : HResult}
    (h : st'.writes = st.writes ++ [(j, x)]) (i : Nat) :
    writesTo st' i = writesTo st i ++ (if j = i then [x] else []) := by
  unfold writesTo
  rw [h, List.filterMap_append]
  by_cases hj : j = i
  · simp [hj]
  · simp [hj]

theorem writesTo_append_self {st st' : EngineState} {j : Nat} {x : HResult}
    (h : st'.writes = st.writes ++ [(j, x)]) :
    writesTo st' j = writesTo st j ++ [x] := by
  rw [writesTo_of_writes_append h j]
  simp

theorem writesTo_append_ne {st st' : EngineState} {j : Nat} {x : HResult}
    (h : st'.writes = st.writes ++ [(j, x)]) {i : Nat} (hne : j ≠ i) :
    writesTo st' i = writesTo st i := by
  rw [writesTo_of_writes_append h i]
  simp [hne]

theorem noSuccessAfterFailure_of_length_le_one {l : List HResult}
    (h : l.length ≤ 1) : NoSuccessAfterFailure l := by
  unfold NoSuccessAfterFailure
  cases l with
  | nil => exact List.Pairwise.nil
  | cons a t =>
      cases t with
      | nil => exact List.pairwise_singleton _ a
      | cons b r => simp at h

theorem noSuccessAfterFailure_of_all_neg {l : List HResult}
    (h : ∀ x ∈ l, x < 0) : NoSuccessAfterFailure l := by
  unfold NoSuccessAfterFailure
  induction l with
  | nil => exact List.Pairwise.nil
  | cons a t ih =>
      refine List.Pairwise.cons ?_ (ih (fun x hx => h x (List.mem_cons_of_mem a hx)))
      intro b hb _
      exact h b (List.mem_cons_of_mem a hb)

theorem writesNeg_mem_writesTo {st : EngineState} (h : WritesNeg st.writes)
    (i : Nat) : ∀ x ∈ writesTo st i, x < 0 := by
  intro x hx
  unfold writesTo at hx
  obtain ⟨p, hp, hpx⟩ := List.mem_filterMap.1 hx
  by_cases hpi : p.1 = i
  · rw [if_pos hpi] at hpx
    cases hpx
    exact h p hp
  · rw [if_neg hpi] at hpx
    cases hpx

theorem writesNeg_append {l : List (Nat × HResult)} {j : Nat} {x : HResult}
    (h : WritesNeg l) (hx : x < 0) : WritesNeg (l ++ [(j, x)]) := by
  intro p hp
  rcases List.mem_append.1 hp with hp | hp
  · exact h p hp
  · rw [List.mem_singleton.1 hp]
    exact hx

theorem writesNeg_AddUnitToMap (st : EngineState) (i : Nat)
    (h : WritesNeg st.writes) : WritesNeg (AddUnitToMap st i).1.writes := by
  unfold AddUnitToMap
  dsimp only
  split
  · exact h
  · split
    · simp only [writes_sendUnitProgress, writes_setUnitResultCode,
        writes_sendUnitProgressIfNotComplete]
      exact writesNeg_append (writesNeg_append h (by decide)) (by decide)
    · exact h

theorem writesNeg_addAllUnits (st : EngineState) (h : WritesNeg st.writes) :
    WritesNeg (addAllUnits st).1.writes := by
  unfold addAllUnits
  refine foldl_pair_rel (fun a b => WritesNeg a.writes → WritesNeg b.writes)
    (fun s => id) (fun hab hbc x => hbc (hab x)) ?_ _ (st, true) h
  intro a i
  dsimp only
  exact writesNeg_AddUnitToMap a.1 i

theorem writesNeg_resolveDepsLoop (i : Nat) :
    ∀ (deps : List String) (st : EngineState), WritesNeg st.writes →
      WritesNeg (resolveDepsLoop i deps st).1.writes := by
  intro deps
  induction deps with
  | nil => intro st h; exact h
  | cons d rest ih =>
      intro st h
      unfold resolveDepsLoop
      dsimp only
      split
      · exact ih st h
      · split
        · simp only [writes_sendUnitProgress, writes_setUnitDetails,
            writes_setUnitResultCode]
          exact writesNeg_append h (by decide)
        · exact ih _ h

theorem writesNeg_resolveAll (st : EngineState) (h : WritesNeg st.writes) :
    WritesNeg (resolveAll st).1.writes := by
  unfold resolveAll
  refine foldl_pair_rel (fun a b => WritesNeg a.writes → WritesNeg b.writes)
    (fun s => id) (fun hab hbc x => hbc (hab x)) ?_ _ (st, true) h
  intro a i
  dsimp only
  exact writesNeg_resolveDepsLoop i _ a.1

theorem writesNeg_markRemainingWithIntent (I : ConfigurationUnitIntent) (sp : Bool)
    (st : EngineState) (cands : List Nat) (h : WritesNeg st.writes) :
    WritesNeg (markRemainingWithIntent I sp st cands).1.writes := by
  refine markRemainingWithIntent_rel I sp
    (fun a b => WritesNeg a.writes → WritesNeg b.writes)
    (fun s => id) (fun hab hbc x => hbc (hab x)) ?_ ?_ st cands h
  · intro s i hw
    simp only [writes_setUnitResultCode]
    exact writesNeg_append hw (by decide)
  · intro s t i hst
    exact hst

theorem writesNeg_markRemainingOtherIntents (I : ConfigurationUnitIntent)
    (e : HResult) (sp : Bool) (he : e < 0) (st : EngineState) (cands : List Nat)
    (h : WritesNeg st.writes) :
    WritesNeg (markRemainingOtherIntents I e sp st cands).writes := by
  refine markRemainingOtherIntents_rel I e sp
    (fun a b => WritesNeg a.writes → WritesNeg b.writes)
    (fun s => id) (fun hab hbc x => hbc (hab x)) ?_ ?_ st cands h
  · intro s i hw
    simp only [writes_setUnitResultCode]
    exact writesNeg_append hw he
  · intro s t i hst
    exact hst

theorem writesNeg_schedulerLoop (pf : EngineState → Nat → EngineState × Bool)
    (hpf : ∀ st c, WritesNeg st.writes → WritesNeg (pf st c).1.writes)
    (cd : UnitInfo → Bool) (I : ConfigurationUnitIntent)
    (fuel : Nat) (st : EngineState) (cands : List Nat) (hf : Bool)
    (h : WritesNeg st.writes) :
    WritesNeg (schedulerLoop pf cd I fuel st cands hf).1.writes :=
  schedulerLoop_rel pf cd I (fun a b => WritesNeg a.writes → WritesNeg b.writes)
    (fun s => id) (fun hab hbc x => hbc (hab x)) hpf fuel st cands hf h

theorem writesNeg_ProcessIntentInternal (pf : EngineState → Nat → EngineState × Bool)
    (hpf : ∀ st c, WritesNeg st.writes → WritesNeg (pf st c).1.writes)
    (cd : UnitInfo → Bool) (I : ConfigurationUnitIntent) (e ef : HResult)
    (sp : Bool) (he : e < 0) (st : EngineState) (cands : List Nat)
    (h : WritesNeg st.writes) :
    WritesNeg (ProcessIntentInternal pf cd I e ef sp st cands).1.writes := by
  unfold ProcessIntentInternal
  dsimp only
  have hs := writesNeg_schedulerLoop pf hpf cd I cands.length st cands false h
  have hm1 := writesNeg_markRemainingWithIntent I sp
    (schedulerLoop pf cd I cands.length st cands false).1
    (schedulerLoop pf cd I cands.length st cands false).2.1 hs
  have hm2 := writesNeg_markRemainingOtherIntents I e sp he
    (markRemainingWithIntent I sp (schedulerLoop pf cd I cands.length st cands false).1
      (schedulerLoop pf cd I cands.length st cands false).2.1).1
    (schedulerLoop pf cd I cands.length st cands false).2.1 hm1
  split
  · split
    · exact hm2
    · exact hm2
  · exact hm1

theorem writesNeg_ProcessInternal (pf : EngineState → Nat → EngineState × Bool)
    (hpf : ∀ st c, WritesNeg st.writes → WritesNeg (pf st c).1.writes)
    (cd : UnitInfo → Bool) (sp : Bool) (st : EngineState)
    (h : WritesNeg st.writes) :
    WritesNeg (ProcessInternal cd pf sp st).1.writes := by
  unfold ProcessInternal
  dsimp only
  have h1 := writesNeg_ProcessIntentInternal pf hpf cd ConfigurationUnitIntent.assert
    WINGET_CONFIG_ERROR_ASSERTION_FAILED WINGET_CONFIG_ERROR_ASSERTION_FAILED sp
    (by decide) st (List.range st.unitInfos.length) h
  split
  · exact h1
  · have h2 := writesNeg_ProcessIntentInternal pf hpf cd ConfigurationUnitIntent.inform
      WINGET_CONFIG_ERROR_DEPENDENCY_UNSATISFIED WINGET_CONFIG_ERROR_DEPENDENCY_UNSATISFIED
      sp (by decide)
      (ProcessIntentInternal pf cd ConfigurationUnitIntent.assert
        WINGET_CONFIG_ERROR_ASSERTION_FAILED WINGET_CONFIG_ERROR_ASSERTION_FAILED sp st
        (List.range st.unitInfos.length)).1
      (ProcessIntentInternal pf cd ConfigurationUnitIntent.assert
        WINGET_CONFIG_ERROR_ASSERTION_FAILED WINGET_CONFIG_ERROR_ASSERTION_FAILED sp st
        (List.range st.unitInfos.length)).2.1 h1
    split
    · exact h2
    · exact writesNeg_ProcessIntentInternal pf hpf cd ConfigurationUnitIntent.apply
        E_FAIL WINGET_CONFIG_ERROR_SET_APPLY_FAILED sp (by decide) _
        (ProcessIntentInternal pf cd ConfigurationUnitIntent.inform
          WINGET_CONFIG_ERROR_DEPENDENCY_UNSATISFIED WINGET_CONFIG_ERROR_DEPENDENCY_UNSATISFIED
          sp
          (ProcessIntentInternal pf cd ConfigurationUnitIntent.assert
            WINGET_CONFIG_ERROR_ASSERTION_FAILED WINGET_CONFIG_ERROR_ASSERTION_FAILED sp st
            (List.range st.unitInfos.length)).1
          (ProcessIntentInternal pf cd ConfigurationUnitIntent.assert
            WINGET_CONFIG_ERROR_ASSERTION_FAILED WINGET_CONFIG_ERROR_ASSERTION_FAILED sp st
            (List.range st.unitInfos.length)).2.1).2.1 h2

theorem writesNeg_PreProcess (st : EngineState) (h : WritesNeg st.writes) :
    WritesNeg (PreProcess st).1.writes := by
  unfold PreProcess
  dsimp only
  have ha := writesNeg_addAllUnits st h
  split
  · exact ha
  · have hr := writesNeg_resolveAll _ ha
    split
    · exact hr
    · have hp := writesNeg_ProcessInternal MarkPreprocessed (fun s c hw => hw)
        HasPreprocessed false _ hr
      split
      · exact hp
      · exact hp

theorem writes_AddUnitToMap_true (st : EngineState) (i : Nat) :
    (AddUnitToMap st i).2 = true → (AddUnitToMap st i).1.writes = st.writes := by
  unfold AddUnitToMap
  dsimp only
  split
  · intro _
    rfl
  · split
    · intro h
      simp at h
    · intro _
      rfl

theorem foldl_flag_true {f : EngineState → Nat → EngineState × Bool}
    (hf : ∀ st i, (f st i).2 = true → (f st i).1.writes = st.writes) :
    ∀ (l : List Nat) (a : EngineState × Bool),
      (l.foldl (fun acc i => ((f acc.1 i).1, acc.2 && (f acc.1 i).2)) a).2 = true →
      (l.foldl (fun acc i => ((f acc.1 i).1, acc.2 && (f acc.1 i).2)) a).1.writes
        = a.1.writes ∧ a.2 = true := by
  intro l
  induction l with
  | nil => intro a h; exact ⟨rfl, h⟩
  | cons x t ih =>
      intro a h
      rw [List.foldl_cons] at h ⊢
      obtain ⟨hw, hflag⟩ := ih _ h
      rw [Bool.and_eq_true] at hflag
      obtain ⟨h1, h2⟩ := hflag
      exact ⟨hw.trans (hf a.1 x h2), h1⟩

theorem writes_addAllUnits_true (st : EngineState) :
    (addAllUnits st).2 = true → (addAllUnits st).1.writes = st.writes := by
  unfold addAllUnits
  intro h
  exact (foldl_flag_true writes_AddUnitToMap_true _ (st, true) h).1

theorem writes_resolveDepsLoop_true (i : Nat) :
    ∀ (deps : List String) (st : EngineState),
      (resolveDepsLoop i deps st).2 = true →
      (resolveDepsLoop i deps st).1.writes = st.writes := by
  intro deps
  induction deps with
  | nil => intro st _; rfl
  | cons d rest ih =>
      intro st
      unfold resolveDepsLoop
      dsimp only
      split
      · exact ih st
      · split
        · intro h
          simp at h
        · intro h
          exact ih _ h

theorem writes_resolveAll_true (st : EngineState) :
    (resolveAll st).2 = true → (resolveAll st).1.writes = st.writes := by
  unfold resolveAll
  intro h
  refine (foldl_flag_true ?_ _ (st, true) h).1
  intro s j
  exact writes_resolveDepsLoop_true j _ s

theorem writes_schedulerLoop_const (pf : EngineState → Nat → EngineState × Bool)
    (hpf : ∀ st c, (pf st c).1.writes = st.writes)
    (cd : UnitInfo → Bool) (I : ConfigurationUnitIntent)
    (fuel : Nat) (st : EngineState) (cands : List Nat) (hf : Bool) :
    (schedulerLoop pf cd I fuel st cands hf).1.writes = st.writes :=
  schedulerLoop_rel pf cd I (fun a b => b.writes = a.writes)
    (fun s => rfl) (fun hab hbc => hbc.trans hab) (fun s c => hpf s c)
    fuel st cands hf

theorem writes_ProcessIntentInternal_dry_true (cd : UnitInfo → Bool)
    (I : ConfigurationUnitIntent) (e ef : HResult) (sp : Bool)
    (st : EngineState) (cands : List Nat) :
    (ProcessIntentInternal MarkPreprocessed cd I e ef sp st cands).2.2 = true →
    (ProcessIntentInternal MarkPreprocessed cd I e ef sp st cands).1.writes
      = st.writes := by
  unfold ProcessIntentInternal
  dsimp only
  split
  · intro h
    simp at h
  · rename_i hcond
    intro _
    have hm2 : (markRemainingWithIntent I sp
        (schedulerLoop MarkPreprocessed cd I cands.length st cands false).1
        (schedulerLoop MarkPreprocessed cd I cands.length st cands false).2.1).2
        = false := by
      rcases Bool.eq_false_or_eq_true (markRemainingWithIntent I sp
          (schedulerLoop MarkPreprocessed cd I cands.length st cands false).1
          (schedulerLoop MarkPreprocessed cd I cands.length st cands false).2.1).2 with
        ht | hf
      · exact absurd (by simp [ht]) hcond
      · exact hf
    have hmeq := (markRemainingWithIntent_false I sp _ _ hm2).1
    rw [hmeq]
    exact writes_schedulerLoop_const MarkPreprocessed (fun s c => rfl) cd I
      cands.length st cands false

theorem writes_ProcessInternal_dry_true (cd : UnitInfo → Bool) (sp : Bool)
    (st : EngineState) :
    (ProcessInternal cd MarkPreprocessed sp st).2 = true →
    (ProcessInternal cd MarkPreprocessed sp st).1.writes = st.writes := by
  unfold ProcessInternal
  dsimp only
  split
  · intro h
    simp at h
  · rename_i h1
    have h1t : (ProcessIntentInternal MarkPreprocessed cd ConfigurationUnitIntent.assert
        WINGET_CONFIG_ERROR_ASSERTION_FAILED WINGET_CONFIG_ERROR_ASSERTION_FAILED sp st
        (List.range st.unitInfos.length)).2.2 = true := by
      rcases Bool.eq_false_or_eq_true (ProcessIntentInternal MarkPreprocessed cd
          ConfigurationUnitIntent.assert WINGET_CONFIG_ERROR_ASSERTION_FAILED
          WINGET_CONFIG_ERROR_ASSERTION_FAILED sp st
          (List.range st.unitInfos.length)).2.2 with ht | hf
      · exact ht
      · exact absurd (by simp [hf]) h1
    split
    · intro h
      simp at h
    · rename_i h2
      have h2t : (ProcessIntentInternal MarkPreprocessed cd ConfigurationUnitIntent.inform
          WINGET_CONFIG_ERROR_DEPENDENCY_UNSATISFIED WINGET_CONFIG_ERROR_DEPENDENCY_UNSATISFIED
          sp (ProcessIntentInternal MarkPreprocessed cd ConfigurationUnitIntent.assert
            WINGET_CONFIG_ERROR_ASSERTION_FAILED WINGET_CONFIG_ERROR_ASSERTION_FAILED sp st
            (List.range st.unitInfos.length)).1
          (ProcessIntentInternal MarkPreprocessed cd ConfigurationUnitIntent.assert
            WINGET_CONFIG_ERROR_ASSERTION_FAILED WINGET_CONFIG_ERROR_ASSERTION_FAILED sp st
            (List.range st.unitInfos.length)).2.1).2.2 = true := by
        rcases Bool.eq_false_or_eq_true (ProcessIntentInternal MarkPreprocessed cd
            ConfigurationUnitIntent.inform WINGET_CONFIG_ERROR_DEPENDENCY_UNSATISFIED
            WINGET_CONFIG_ERROR_DEPENDENCY_UNSATISFIED sp
            (ProcessIntentInternal MarkPreprocessed cd ConfigurationUnitIntent.assert
              WINGET_CONFIG_ERROR_ASSERTION_FAILED WINGET_CONFIG_ERROR_ASSERTION_FAILED sp st
              (List.range st.unitInfos.length)).1
            (ProcessIntentInternal MarkPreprocessed cd ConfigurationUnitIntent.assert
              WINGET_CONFIG_ERROR_ASSERTION_FAILED WINGET_CONFIG_ERROR_ASSERTION_FAILED sp st
              (List.range st.unitInfos.length)).2.1).2.2 with ht | hf
        · exact ht
        · exact absurd (by simp [hf]) h2
      intro h3
      rw [writes_ProcessIntentInternal_dry_true cd ConfigurationUnitIntent.apply _ _ sp _ _ h3,
        writes_ProcessIntentInternal_dry_true cd ConfigurationUnitIntent.inform _ _ sp _ _ h2t,
        writes_ProcessIntentInternal_dry_true cd ConfigurationUnitIntent.assert _ _ sp _ _ h1t]

theorem writes_PreProcess_true (st : EngineState) :
    (PreProcess st).2 = true → (PreProcess st).1.writes = st.writes := by
  unfold PreProcess
  dsimp only
  split
  · intro h
    simp at h
  · rename_i h1
    have h1t : (addAllUnits st).2 = true := by
      rcases Bool.eq_false_or_eq_true (addAllUnits st).2 with ht | hf
      · exact ht
      · exact absurd (by simp [hf]) h1
    split
    · intro h
      simp at h
    · rename_i h2
      have h2t : (resolveAll (addAllUnits st).1).2 = true := by
        rcases Bool.eq_false_or_eq_true (resolveAll (addAllUnits st).1).2 with ht | hf
        · exact ht
        · exact absurd (by simp [hf]) h2
      split
      · intro h
        simp at h
      · rename_i h3
        have h3t : (ProcessInternal HasPreprocessed MarkPreprocessed false
            (resolveAll (addAllUnits st).1).1).2 = true := by
          rcases Bool.eq_false_or_eq_true (ProcessInternal HasPreprocessed MarkPreprocessed
              false (resolveAll (addAllUnits st).1).1).2 with ht | hf
          · exact ht
          · exact absurd (by simp [hf]) h3
        intro _
        rw [writes_ProcessInternal_dry_true HasPreprocessed false _ h3t,
          writes_resolveAll_true _ h2t, writes_addAllUnits_true st h1t]

theorem sched_writes_bound (cd : UnitInfo → Bool) (I : ConfigurationUnitIntent) :
    ∀ (fuel : Nat) (st : EngineState) (cands : List Nat) (hf : Bool),
      cands.Nodup →
      (∀ c ∈ cands, writesTo st c = []) →
      (∀ i, (writesTo st i).length ≤ 1) →
      (schedulerLoop ProcessUnit cd I fuel st cands hf).2.1.Nodup ∧
      (∀ c ∈ (schedulerLoop ProcessUnit cd I fuel st cands hf).2.1,
        writesTo (schedulerLoop ProcessUnit cd I fuel st cands hf).1 c = []) ∧
      (∀ i, (writesTo (schedulerLoop ProcessUnit cd I fuel st cands hf).1 i).length ≤ 1) := by
  intro fuel
  induction fuel with
  | zero => intro st cands hf hnd hc hb; exact ⟨hnd, hc, hb⟩
  | succ n ih =>
      intro st cands hf hnd hc hb
      cases he : extractFirstReady st I cd cands with
      | none =>
          simp only [schedulerLoop, he]
          exact ⟨hnd, hc, hb⟩
      | some pr =>
          obtain ⟨c, rest⟩ := pr
          simp only [schedulerLoop, he]
          have hcc : c ∈ cands := mem_cands_of_extract he
          have hrs : rest.Sublist cands := rest_sublist_of_extract he
          have hrnd : rest.Nodup := List.Nodup.sublist hrs hnd
          have hcne : c ∉ rest := not_mem_rest_of_extract hnd he
          rcases writes_ProcessUnit st c with heq | ⟨x, happ⟩
          · refine ih (ProcessUnit st c).1 rest _ hrnd ?_ ?_
            · intro c' hc'
              rw [writesTo_of_writes_eq heq]
              exact hc c' (hrs.subset hc')
            · intro i
              rw [writesTo_of_writes_eq heq]
              exact hb i
          · refine ih (ProcessUnit st c).1 rest _ hrnd ?_ ?_
            · intro c' hc'
              have hne : c ≠ c' := fun h => hcne (h ▸ hc')
              rw [writesTo_append_ne happ hne]
              exact hc c' (hrs.subset hc')
            · intro i
              by_cases hci : c = i
              · subst hci
                rw [writesTo_append_self happ, hc c hcc]
                simp
              · rw [writesTo_append_ne happ hci]
                exact hb i

theorem mark1_writes_bound (I : ConfigurationUnitIntent) (sp : Bool) :
    ∀ (cands : List Nat) (st : EngineState) (b : Bool),
      cands.Nodup →
      (∀ c ∈ cands, writesTo st c = []) →
      (∀ i, (writesTo st i).length ≤ 1) →
      (∀ i, (getUnitInfo st i).unit.intent ≠ I →
        writesTo (cands.foldl (markWithIntentStep I sp) (st, b)).1 i = writesTo st i) ∧
      (∀ i, (writesTo (cands.foldl (markWithIntentStep I sp) (st, b)).1 i).length ≤ 1) := by
  intro cands
  induction cands with
  | nil => intro st b _ _ hb; exact ⟨fun i _ => rfl, hb⟩
  | cons a t ih =>
      intro st b hnd hc hb
      rw [List.foldl_cons]
      have hand := List.nodup_cons.1 hnd
      by_cases hcond : ((getUnitInfo st a).unit.intent == I) = true
      · have hint_a : (getUnitInfo st a).unit.intent = I := beq_iff_eq.1 hcond
        have key : ∀ st2 : EngineState,
            st2.writes = st.writes ++ [(a, WINGET_CONFIG_ERROR_DEPENDENCY_UNSATISFIED)] →
            (∀ j, (getUnitInfo st2 j).unit = (getUnitInfo st j).unit) →
            (∀ i, (getUnitInfo st i).unit.intent ≠ I →
              writesTo (t.foldl (markWithIntentStep I sp) (st2, true)).1 i
                = writesTo st i) ∧
            (∀ i, (writesTo (t.foldl (markWithIntentStep I sp) (st2, true)).1 i).length
              ≤ 1) := by
          intro st2 hw hu
          have hc2 : ∀ c ∈ t, writesTo st2 c = [] := by
            intro c hct
            have hne : a ≠ c := fun h => hand.1 (h ▸ hct)
            rw [writesTo_append_ne hw hne]
            exact hc c (List.mem_cons_of_mem a hct)
          have hb2 : ∀ i, (writesTo st2 i).length ≤ 1 := by
            intro i
            by_cases hai : a = i
            · subst hai
              rw [writesTo_append_self hw, hc a (List.mem_cons_self a t)]
              simp
            · rw [writesTo_append_ne hw hai]
              exact hb i
          obtain ⟨hpres, hbound⟩ := ih st2 true hand.2 hc2 hb2
          constructor
          · intro i hi
            have hi2 : (getUnitInfo st2 i).unit.intent ≠ I := by
              rw [hu i]
              exact hi
            have hia : a ≠ i := fun h => hi (h ▸ hint_a)
            rw [hpres i hi2, writesTo_append_ne hw hia]
          · exact hbound
        cases sp with
        | false =>
            have hstep : markWithIntentStep I false (st, b) a
                = (setUnitResultCode st a WINGET_CONFIG_ERROR_DEPENDENCY_UNSATISFIED
                    ConfigurationUnitResultSource.precondition, true) := by
              unfold markWithIntentStep
              dsimp only
              rw [if_pos hcond]
              rfl
            rw [hstep]
            exact key _ (by simp) (fun j => by simp)
        | true =>
            have hstep : markWithIntentStep I true (st, b) a
                = (sendUnitProgress
                    (setUnitResultCode st a WINGET_CONFIG_ERROR_DEPENDENCY_UNSATISFIED
                      ConfigurationUnitResultSource.precondition)
                    ConfigurationUnitState.skipped a, true) := by
              unfold markWithIntentStep
              dsimp only
              rw [if_pos hcond]
              rfl
            rw [hstep]
            exact key _ (by simp) (fun j => by simp)
      · have hstep : markWithIntentStep I sp (st, b) a = (st, b) := by
          unfold markWithIntentStep
          dsimp only
          rw [if_neg hcond]
        rw [hstep]
        exact ih st b hand.2 (fun c hct => hc c (List.mem_cons_of_mem a hct)) hb

theorem mark1_writes_bound_main (I : ConfigurationUnitIntent) (sp : Bool)
    (st : EngineState) (cands : List Nat)
    (hnd : cands.Nodup) (hc : ∀ c ∈ cands, writesTo st c = [])
    (hb : ∀ i, (writesTo st i).length ≤ 1) :
    (∀ i, (getUnitInfo st i).unit.intent ≠ I →
      writesTo (markRemainingWithIntent I sp st cands).1 i = writesTo st i) ∧
    (∀ i, (writesTo (markRemainingWithIntent I sp st cands).1 i).length ≤ 1) := by
  unfold markRemainingWithIntent
  exact mark1_writes_bound I sp cands st false hnd hc hb

theorem mark2_writes_bound (I : ConfigurationUnitIntent) (e : HResult) (sp : Bool) :
    ∀ (cands : List Nat) (st : EngineState),
      cands.Nodup →
      (∀ c ∈ cands, (getUnitInfo st c).unit.intent ≠ I → writesTo st c = []) →
      (∀ i, (writesTo st i).length ≤ 1) →
      ∀ i, (writesTo (markRemainingOtherIntents I e sp st cands) i).length ≤ 1 := by
  intro cands
  induction cands with
  | nil => intro st _ _ hb i; exact hb i
  | cons a t ih =>
      intro st hnd hc hb
      have hfold : markRemainingOtherIntents I e sp st (a :: t)
          = markRemainingOtherIntents I e sp (markOtherIntentsStep I e sp st a) t := by
        unfold markRemainingOtherIntents
        rw [List.foldl_cons]
      rw [hfold]
      have hand := List.nodup_cons.1 hnd
      by_cases hcond : ((getUnitInfo st a).unit.intent == I) = true
      · have hstep : markOtherIntentsStep I e sp st a = st := by
          unfold markOtherIntentsStep
          dsimp only
          rw [if_pos hcond]
        rw [hstep]
        exact ih st hand.2 (fun c hct hic => hc c (List.mem_cons_of_mem a hct) hic) hb
      · have hint_a : ¬ (getUnitInfo st a).unit.intent = I := fun h =>
          hcond (by rw [h]; exact beq_self_eq_true I)
        have key : ∀ st2 : EngineState, st2.writes = st.writes ++ [(a, e)] →
            (∀ j, (getUnitInfo st2 j).unit = (getUnitInfo st j).unit) →
            ∀ i, (writesTo (markRemainingOtherIntents I e sp st2 t) i).length ≤ 1 := by
          intro st2 hw hu
          refine ih st2 hand.2 ?_ ?_
          · intro c hct hic
            have hne : a ≠ c := fun h => hand.1 (h ▸ hct)
            rw [writesTo_append_ne hw hne]
            rw [hu c] at hic
            exact hc c (List.mem_cons_of_mem a hct) hic
          · intro i
            by_cases hai : a = i
            · subst hai
              rw [writesTo_append_self hw, hc a (List.mem_cons_self a t) hint_a]
              simp
            · rw [writesTo_append_ne hw hai]
              exact hb i
        cases sp with
        | false =>
            have hstep : markOtherIntentsStep I e false st a
                = setUnitResultCode st a e ConfigurationUnitResultSource.precondition := by
              unfold markOtherIntentsStep
              dsimp only
              rw [if_neg hcond]
              rfl
            rw [hstep]
            exact key _ (by simp) (fun j => by simp)
        | true =>
            have hstep : markOtherIntentsStep I e true st a
                = sendUnitProgress
                    (setUnitResultCode st a e ConfigurationUnitResultSource.precondition)
                    ConfigurationUnitState.skipped a := by
              unfold markOtherIntentsStep
              dsimp only
              rw [if_neg hcond]
              rfl
            rw [hstep]
            exact key _ (by simp) (fun j => by simp)

theorem PII_writes_bound (cd : UnitInfo → Bool) (I : ConfigurationUnitIntent)
    (e ef : HResult) (sp : Bool) (st : EngineState) (cands : List Nat)
    (hnd : cands.Nodup) (hcands : ∀ c ∈ cands, writesTo st c = [])
    (hb : ∀ i, (writesTo st i).length ≤ 1) :
    (∀ i, (writesTo (ProcessIntentInternal ProcessUnit cd I e ef sp st cands).1 i).length
      ≤ 1) ∧
    ((ProcessIntentInternal ProcessUnit cd I e ef sp st cands).2.2 = true →
      (ProcessIntentInternal ProcessUnit cd I e ef sp st cands).2.1.Nodup ∧
      ∀ c ∈ (ProcessIntentInternal ProcessUnit cd I e ef sp st cands).2.1,
        writesTo (ProcessIntentInternal ProcessUnit cd I e ef sp st cands).1 c = []) := by
  obtain ⟨hLnd, hLc, hLb⟩ := sched_writes_bound cd I cands.length st cands false hnd hcands hb
  obtain ⟨hm1pres, hm1b⟩ := mark1_writes_bound_main I sp
    (schedulerLoop ProcessUnit cd I cands.length st cands false).1
    (schedulerLoop ProcessUnit cd I cands.length st cands false).2.1 hLnd hLc hLb
  have hcn : ∀ c ∈ (schedulerLoop ProcessUnit cd I cands.length st cands false).2.1,
      (getUnitInfo (markRemainingWithIntent I sp
        (schedulerLoop ProcessUnit cd I cands.length st cands false).1
        (schedulerLoop ProcessUnit cd I cands.length st cands false).2.1).1 c).unit.intent
        ≠ I →
      writesTo (markRemainingWithIntent I sp
        (schedulerLoop ProcessUnit cd I cands.length st cands false).1
        (schedulerLoop ProcessUnit cd I cands.length st cands false).2.1).1 c = [] := by
    intro c hcL hic
    rw [unit_markRemainingWithIntent I sp _ _ c] at hic
    rw [hm1pres c hic]
    exact hLc c hcL
  have hm2b := mark2_writes_bound I e sp
    (schedulerLoop ProcessUnit cd I cands.length st cands false).2.1
    (markRemainingWithIntent I sp
      (schedulerLoop ProcessUnit cd I cands.length st cands false).1
      (schedulerLoop ProcessUnit cd I cands.length st cands false).2.1).1
    hLnd hcn hm1b
  unfold ProcessIntentInternal
  dsimp only
  split
  · constructor
    · intro i
      split
      · exact hm2b i
      · exact hm2b i
    · intro h
      simp at h
  · rename_i hcond
    constructor
    · intro i
      exact hm1b i
    · intro _
      refine ⟨hLnd, ?_⟩
      have hm2f : (markRemainingWithIntent I sp
          (schedulerLoop ProcessUnit cd I cands.length st cands false).1
          (schedulerLoop ProcessUnit cd I cands.length st cands false).2.1).2 = false := by
        rcases Bool.eq_false_or_eq_true (markRemainingWithIntent I sp
            (schedulerLoop ProcessUnit cd I cands.length st cands false).1
            (schedulerLoop ProcessUnit cd I cands.length st cands false).2.1).2 with ht | hf
        · exact absurd (by simp [ht]) hcond
        · exact hf
      have heq := (markRemainingWithIntent_false I sp _ _ hm2f).1
      intro c hcL
      rw [heq]
      exact hLc c hcL

theorem ProcessInternal_writes_bound (cd : UnitInfo → Bool) (sp : Bool)
    (st : EngineState) (h0 : ∀ i, writesTo st i = []) :
    ∀ i, (writesTo (ProcessInternal cd ProcessUnit sp st).1 i).length ≤ 1 := by
  have hb0 : ∀ i, (writesTo st i).length ≤ 1 := fun i => by rw [h0 i]; simp
  obtain ⟨hb1, hs1⟩ := PII_writes_bound cd ConfigurationUnitIntent.assert
    WINGET_CONFIG_ERROR_ASSERTION_FAILED WINGET_CONFIG_ERROR_ASSERTION_FAILED sp st
    (List.range st.unitInfos.length) (List.nodup_range _) (fun c _ => h0 c) hb0
  unfold ProcessInternal
  dsimp only
  split
  · intro i
    exact hb1 i
  · rename_i hc1
    have h1t : (ProcessIntentInternal ProcessUnit cd ConfigurationUnitIntent.assert
        WINGET_CONFIG_ERROR_ASSERTION_FAILED WINGET_CONFIG_ERROR_ASSERTION_FAILED sp st
        (List.range st.unitInfos.length)).2.2 = true := by
      rcases Bool.eq_false_or_eq_true (ProcessIntentInternal ProcessUnit cd
          ConfigurationUnitIntent.assert WINGET_CONFIG_ERROR_ASSERTION_FAILED
          WINGET_CONFIG_ERROR_ASSERTION_FAILED sp st
          (List.range st.unitInfos.length)).2.2 with ht | hf
      · exact ht
      · exact absurd (by simp [hf]) hc1
    obtain ⟨hnd1, hc1w⟩ := hs1 h1t
    obtain ⟨hb2, hs2⟩ := PII_writes_bound cd ConfigurationUnitIntent.inform
      WINGET_CONFIG_ERROR_DEPENDENCY_UNSATISFIED WINGET_CONFIG_ERROR_DEPENDENCY_UNSATISFIED
      sp
      (ProcessIntentInternal ProcessUnit cd ConfigurationUnitIntent.assert
        WINGET_CONFIG_ERROR_ASSERTION_FAILED WINGET_CONFIG_ERROR_ASSERTION_FAILED sp st
        (List.range st.unitInfos.length)).1
      (ProcessIntentInternal ProcessUnit cd ConfigurationUnitIntent.assert
        WINGET_CONFIG_ERROR_ASSERTION_FAILED WINGET_CONFIG_ERROR_ASSERTION_FAILED sp st
        (List.range st.unitInfos.length)).2.1
      hnd1 hc1w hb1
    split
    · intro i
      exact hb2 i
    · rename_i hc2
      have h2t : (ProcessIntentInternal ProcessUnit cd ConfigurationUnitIntent.inform
          WINGET_CONFIG_ERROR_DEPENDENCY_UNSATISFIED
          WINGET_CONFIG_ERROR_DEPENDENCY_UNSATISFIED sp
          (ProcessIntentInternal ProcessUnit cd ConfigurationUnitIntent.assert
            WINGET_CONFIG_ERROR_ASSERTION_FAILED WINGET_CONFIG_ERROR_ASSERTION_FAILED sp st
            (List.range st.unitInfos.length)).1
          (ProcessIntentInternal ProcessUnit cd ConfigurationUnitIntent.assert
            WINGET_CONFIG_ERROR_ASSERTION_FAILED WINGET_CONFIG_ERROR_ASSERTION_FAILED sp st
            (List.range st.unitInfos.length)).2.1).2.2 = true := by
        rcases Bool.eq_false_or_eq_true (ProcessIntentInternal ProcessUnit cd
            ConfigurationUnitIntent.inform WINGET_CONFIG_ERROR_DEPENDENCY_UNSATISFIED
            WINGET_CONFIG_ERROR_DEPENDENCY_UNSATISFIED sp
            (ProcessIntentInternal ProcessUnit cd ConfigurationUnitIntent.assert
              WINGET_CONFIG_ERROR_ASSERTION_FAILED WINGET_CONFIG_ERROR_ASSERTION_FAILED sp st
              (List.range st.unitInfos.length)).1
            (ProcessIntentInternal ProcessUnit cd ConfigurationUnitIntent.assert
              WINGET_CONFIG_ERROR_ASSERTION_FAILED WINGET_CONFIG_ERROR_ASSERTION_FAILED sp st
              (List.range st.unitInfos.length)).2.1).2.2 with ht | hf
        · exact ht
        · exact absurd (by simp [hf]) hc2
      obtain ⟨hnd2, hc2w⟩ := hs2 h2t
      obtain ⟨hb3, _⟩ := PII_writes_bound cd ConfigurationUnitIntent.apply
        E_FAIL WINGET_CONFIG_ERROR_SET_APPLY_FAILED sp
        (ProcessIntentInternal ProcessUnit cd ConfigurationUnitIntent.inform
          WINGET_CONFIG_ERROR_DEPENDENCY_UNSATISFIED
          WINGET_CONFIG_ERROR_DEPENDENCY_UNSATISFIED sp
          (ProcessIntentInternal ProcessUnit cd ConfigurationUnitIntent.assert
            WINGET_CONFIG_ERROR_ASSERTION_FAILED WINGET_CONFIG_ERROR_ASSERTION_FAILED sp st
            (List.range st.unitInfos.length)).1
          (ProcessIntentInternal ProcessUnit cd ConfigurationUnitIntent.assert
            WINGET_CONFIG_ERROR_ASSERTION_FAILED WINGET_CONFIG_ERROR_ASSERTION_FAILED sp st
            (List.range st.unitInfos.length)).2.1).1
        (ProcessIntentInternal ProcessUnit cd ConfigurationUnitIntent.inform
          WINGET_CONFIG_ERROR_DEPENDENCY_UNSATISFIED
          WINGET_CONFIG_ERROR_DEPENDENCY_UNSATISFIED sp
          (ProcessIntentInternal ProcessUnit cd ConfigurationUnitIntent.assert
            WINGET_CONFIG_ERROR_ASSERTION_FAILED WINGET_CONFIG_ERROR_ASSERTION_FAILED sp st
            (List.range st.unitInfos.length)).1
          (ProcessIntentInternal ProcessUnit cd ConfigurationUnitIntent.assert
            WINGET_CONFIG_ERROR_ASSERTION_FAILED WINGET_CONFIG_ERROR_ASSERTION_FAILED sp st
            (List.range st.unitInfos.length)).2.1).2.1
        hnd2 hc2w hb2
      intro i
      exact hb3 i

/-- C8: along the ghost trace of result-code writes to any unit during a
whole engine run, once a failing (negative) code has been written, every
later write to that unit is failing: a non-success result code is never
replaced by a success.  When validation fails, every write of the run is
a failing code; when validation succeeds, each unit receives at most one
write during execution. -/
theorem claim8_no_success_after_failure :
    ∀ (units : List ConfigurationUnit) (i : Nat),
      NoSuccessAfterFailure (writesTo (runApply units) i) := by
  intro units i
  unfold runApply Process
  dsimp only
  cases hp : (PreProcess (initialState units)).2 with
  | false =>
      rw [if_neg (by decide)]
      have hwe : (sendSetProgress (PreProcess (initialState units)).1
          ConfigurationSetState.completed).writes
          = (PreProcess (initialState units)).1.writes := rfl
      have hneg := writesNeg_PreProcess (initialState units)
        (fun p hp' => absurd hp' (List.not_mem_nil p))
      refine noSuccessAfterFailure_of_all_neg ?_
      intro x hx
      rw [writesTo_of_writes_eq hwe i] at hx
      exact writesNeg_mem_writesTo hneg i x hx
  | true =>
      rw [if_pos rfl]
      have hppw : (PreProcess (initialState units)).1.writes = [] :=
        writes_PreProcess_true (initialState units) hp
      have h0 : ∀ j, writesTo (sendSetProgress (PreProcess (initialState units)).1
          ConfigurationSetState.inProgress) j = [] := by
        intro j
        unfold writesTo
        rw [writes_sendSetProgress, hppw]
        rfl
      have hbound := ProcessInternal_writes_bound HasProcessedSuccessfully true _ h0
      have hwe : (sendSetProgress (ProcessInternal HasProcessedSuccessfully ProcessUnit true
          (sendSetProgress (PreProcess (initialState units)).1
            ConfigurationSetState.inProgress)).1 ConfigurationSetState.completed).writes
          = (ProcessInternal HasProcessedSuccessfully ProcessUnit true
            (sendSetProgress (PreProcess (initialState units)).1
              ConfigurationSetState.inProgress)).1.writes := rfl
      refine noSuccessAfterFailure_of_length_le_one ?_
      rw [writesTo_of_writes_eq hwe i]
      exact hbound i
